import Mathlib

/-!
# BitcoinFeesTracker: history buffer, cache store and fetch orchestration

A shallow embedding of the terminal visualizer (`src/btc_fee_visualizer.c`), of the
GTK variant (`btc_fee_gui.c`) and of the chart engine (`chart_utils.c`).  C `double`
values are rationals (exact arithmetic), C `int` and `time_t` values are integers, and
every call of `time(NULL)` is an explicit clock reading.
-/

set_option autoImplicit false

namespace Arith

/-- Division of two `double` values in exact arithmetic; `none` when the divisor is zero,
where exact arithmetic has no value and IEEE arithmetic yields an infinity or a NaN. -/
def checked_div (a b : Rat) : Option Rat :=
  if b = 0 then none else some (a / b)

end Arith

namespace Terminal

/-! ## Data model -/

/-- One point of the history (`FeeHistoryPoint`). -/
structure FeeHistoryPoint where
  fastest : Rat
  halfHour : Rat
  hour : Rat
  timestamp : Int
deriving DecidableEq

/-- The history buffer (`FeeHistory`): `points` is the heap array of `capacity` slots. -/
structure FeeHistory where
  points : List FeeHistoryPoint
  size : Int
  capacity : Int
  current : Int
deriving DecidableEq

/-- The constant `MAX_SOURCES`. -/
def MAX_SOURCES : Int := 3

/-! ## History buffer -/

/-- Function `init_fee_history`: `malloc` returns `capacity` slots of unspecified content, given
here by `mem`. -/
def init_fee_history (mem : Nat → FeeHistoryPoint) (capacity : Int) : FeeHistory :=
  { points := (List.range capacity.toNat).map mem
    size := 0
    capacity := capacity
    current := 0 }

/-- Function `add_to_history`: `now` is the value `time(NULL)` returns during the call. -/
def add_to_history (history : FeeHistory) (fastest halfHour hour : Rat) (now : Int) :
    FeeHistory :=
  if history.size < history.capacity then
    let index := history.size
    { history with
      size := history.size + 1
      points := history.points.set index.toNat ⟨fastest, halfHour, hour, now⟩ }
  else
    let index := history.current
    { history with
      points := history.points.set index.toNat ⟨fastest, halfHour, hour, now⟩
      current := (history.current + 1).tmod history.capacity }

/-- A sequence of calls of `add_to_history`, one per element of `ps`; the `timestamp` of an
element is the clock reading of its call. -/
def push_all (history : FeeHistory) (ps : List FeeHistoryPoint) : FeeHistory :=
  ps.foldl (fun h p => add_to_history h p.fastest p.halfHour p.hour p.timestamp) history

/-- The chronological read the history contract describes: `capacity` slots starting at
the cursor `current`, walking forward modulo `capacity`. -/
def read_from_cursor (history : FeeHistory) : List (Option FeeHistoryPoint) :=
  (List.range history.capacity.toNat).map
    (fun (i : Nat) =>
      history.points[((history.current + (i : Int)).tmod history.capacity).toNat]?)

/-- Lines written by `export_history_to_csv`: the header text or one data row, given by the
values handed to `strftime` and `fprintf`. -/
inductive CsvLine where
  | header (text : String)
  | row (timestamp : Int) (fastest halfHour hour : Rat)
deriving DecidableEq

/-- Function `export_history_to_csv`: the lines written to the file, `none` when `fopen` fails.
A slot outside the array (never read when `size ≤ capacity`) reads as zeros. -/
def export_history_to_csv (fopen_ok : Bool) (history : FeeHistory) : Option (List CsvLine) :=
  if !fopen_ok then none
  else
    some (CsvLine.header "timestamp,fastest_fee,half_hour_fee,hour_fee" ::
      (List.range history.size.toNat).map (fun (i : Nat) =>
        let pt := history.points.getD i ⟨0, 0, 0, 0⟩
        CsvLine.row pt.timestamp pt.fastest pt.halfHour pt.hour))

/-! ## cJSON

The cJSON library is an external collaborator; a parsed document is a tree. -/

/-- A cJSON item. -/
inductive cJSON where
  | null
  | bool (b : Bool)
  | number (valuedouble : Rat)
  | string (valuestring : String)
  | array (items : List cJSON)
  | object (members : List (String × cJSON))

/-- The constant `INT_MAX`. -/
def INT_MAX : Int := 2147483647

/-- The constant `INT_MIN`. -/
def INT_MIN : Int := -2147483648

/-- Conversion of a `double` to an integer type: truncation toward zero. -/
def trunc (d : Rat) : Int := Int.tdiv d.num (d.den : Int)

/-- Function `cJSON_IsNumber`: false on `NULL`. -/
def cJSON_IsNumber (item : Option cJSON) : Bool :=
  match item with
  | some (cJSON.number _) => true
  | _ => false

/-- The field `item->valuedouble`; it is `0` in an item that is not a number. -/
def valuedouble (item : cJSON) : Rat :=
  match item with
  | cJSON.number d => d
  | _ => 0

/-- The field `item->valueint`: cJSON stores the number saturated to the `int` range; the
parser sets it to `1` in a `true` item and leaves it `0` in the other items. -/
def valueint (item : cJSON) : Int :=
  match item with
  | cJSON.number d =>
    if (INT_MAX : Rat) ≤ d then INT_MAX
    else if d ≤ (INT_MIN : Rat) then INT_MIN
    else trunc d
  | cJSON.bool true => 1
  | _ => 0

/-- First member of a list of members whose key satisfies `p`. -/
def find_member (p : String → Bool) : List (String × cJSON) → Option cJSON
  | [] => none
  | (k, v) :: rest => if p k then some v else find_member p rest

/-- Function `cJSON_GetObjectItemCaseSensitive`: the first member with exactly that key. -/
def cJSON_GetObjectItemCaseSensitive (object : cJSON) (name : String) : Option cJSON :=
  match object with
  | cJSON.object members => find_member (fun k => k == name) members
  | _ => none

/-- Function `cJSON_GetObjectItem`: the first member whose key equals `name` up to ASCII case. -/
def cJSON_GetObjectItem (object : cJSON) (name : String) : Option cJSON :=
  match object with
  | cJSON.object members =>
    find_member (fun k => k.data.map Char.toLower == name.data.map Char.toLower) members
  | _ => none

/-! ## Snapshot, sources, world and program state -/

/-- The snapshot (`FeeData`). -/
structure FeeData where
  fastestFee : Rat
  halfHourFee : Rat
  hourFee : Rat
  blocks : Int
  mempoolSizeMB : Rat
  btc_price_usd : Rat
  btc_price_eur : Rat
  history : FeeHistory
  timestamp : Int
deriving DecidableEq

/-- A provider (`DataSource`); a `NULL` url is `none`. -/
structure DataSource where
  name : String
  fee_url : String
  mempool_url : Option String
  price_url : Option String

/-- The table `data_sources`. -/
def data_sources : List DataSource :=
  [ { name := "mempool.space"
      fee_url := "https://mempool.space/api/v1/fees/recommended"
      mempool_url := some "https://mempool.space/api/mempool"
      price_url := some
        "https://api.coingecko.com/api/v3/simple/price?ids=bitcoin&vs_currencies=usd,eur" },
    { name := "blockstream.info"
      fee_url := "https://blockstream.info/api/fee-estimates"
      mempool_url := some "https://blockstream.info/api/mempool"
      price_url := some "https://blockchain.info/ticker" },
    { name := "bitcoinfees.earn.com"
      fee_url := "https://bitcoinfees.earn.com/api/v1/fees/recommended"
      mempool_url := some "https://bitcoinfees.earn.com/api/v1/fees/list"
      price_url := some "https://api.coincap.io/v2/rates/bitcoin" } ]

/-- The entry `data_sources[i]`; an index outside the table (never used while
`0 ≤ current_source < MAX_SOURCES`) reads as an empty source. -/
def data_source_at (i : Int) : DataSource :=
  data_sources.getD i.toNat { name := "", fee_url := "", mempool_url := none, price_url := none }

/-- What `cJSON_Parse` makes of the cache file `CACHE_FILE`. -/
inductive CacheFile where
  | missing
  | unparsable
  | parsed (root : cJSON)

/-- The outside world during one update: `clock k` is the value of the `k`-th call of
`time(NULL)`; `curl_init` tells whether `curl_easy_init` returns a handle; `http url` is the
parsed body of a GET of `url`, `none` when the transfer fails, the body is empty or it is
not JSON; `fopen_w` tells whether the cache file can be opened for writing. -/
structure Env where
  clock : Nat → Int
  curl_init : Bool
  http : String → Option cJSON
  fopen_w : Bool

/-- Global program state: `current_source`, the cache file, the number of clock readings
made so far, and the names of the sources handed to `fetch_from_source` so far. -/
structure State where
  current_source : Int
  cache : CacheFile
  ticks : Nat
  tried : List String

/-! ## Cache store -/

/-- Function `save_to_cache`: the file receives the printed object; printing and parsing a cJSON
tree give the tree back. -/
def save_to_cache (env : Env) (data : FeeData) (st : State) : Int × State :=
  if !env.fopen_w then (0, st)
  else
    let root := cJSON.object
      [ ("fastestFee", cJSON.number data.fastestFee),
        ("halfHourFee", cJSON.number data.halfHourFee),
        ("hourFee", cJSON.number data.hourFee),
        ("blocks", cJSON.number (data.blocks : Rat)),
        ("mempoolSizeMB", cJSON.number data.mempoolSizeMB),
        ("btc_price_usd", cJSON.number data.btc_price_usd),
        ("btc_price_eur", cJSON.number data.btc_price_eur),
        ("timestamp", cJSON.number ((env.clock st.ticks : Int) : Rat)) ]
    (1, { st with cache := CacheFile.parsed root, ticks := st.ticks + 1 })

/-- Function `load_from_cache`: each member that exists is copied into the snapshot. -/
def load_from_cache (data : FeeData) (st : State) : Int × FeeData :=
  match st.cache with
  | CacheFile.missing => (0, data)
  | CacheFile.unparsable => (0, data)
  | CacheFile.parsed root =>
    let data := match cJSON_GetObjectItem root "fastestFee" with
      | some item => { data with fastestFee := valuedouble item }
      | none => data
    let data := match cJSON_GetObjectItem root "halfHourFee" with
      | some item => { data with halfHourFee := valuedouble item }
      | none => data
    let data := match cJSON_GetObjectItem root "hourFee" with
      | some item => { data with hourFee := valuedouble item }
      | none => data
    let data := match cJSON_GetObjectItem root "blocks" with
      | some item => { data with blocks := valueint item }
      | none => data
    let data := match cJSON_GetObjectItem root "mempoolSizeMB" with
      | some item => { data with mempoolSizeMB := valuedouble item }
      | none => data
    let data := match cJSON_GetObjectItem root "btc_price_usd" with
      | some item => { data with btc_price_usd := valuedouble item }
      | none => data
    let data := match cJSON_GetObjectItem root "btc_price_eur" with
      | some item => { data with btc_price_eur := valuedouble item }
      | none => data
    let data := match cJSON_GetObjectItem root "timestamp" with
      | some item => { data with timestamp := trunc (valuedouble item) }
      | none => data
    (1, data)

/-! ## Fetcher -/

/-- The field `item->valuedouble` of a pointer the code has tested with `cJSON_IsNumber`. -/
def ptr_valuedouble (item : Option cJSON) : Rat :=
  match item with
  | some i => valuedouble i
  | none => 0

/-- The field `item->valueint` of a pointer the code has tested with `cJSON_IsNumber`. -/
def ptr_valueint (item : Option cJSON) : Int :=
  match item with
  | some i => valueint i
  | none => 0

/-- The url `fetch_btc_price` requests. -/
def COINGECKO_URL : String :=
  "https://api.coingecko.com/api/v3/simple/price?ids=bitcoin&vs_currencies=usd,eur"

/-- Function `fetch_btc_price`. -/
def fetch_btc_price (env : Env) (fee_data : FeeData) : Int × FeeData :=
  if !env.curl_init then (0, fee_data)
  else
    match env.http COINGECKO_URL with
    | none => (0, fee_data)
    | some json =>
      match cJSON_GetObjectItemCaseSensitive json "bitcoin" with
      | none => (0, fee_data)
      | some bitcoin =>
        let usd := cJSON_GetObjectItemCaseSensitive bitcoin "usd"
        let eur := cJSON_GetObjectItemCaseSensitive bitcoin "eur"
        if cJSON_IsNumber usd && cJSON_IsNumber eur then
          (1, { fee_data with
                btc_price_usd := ptr_valuedouble usd
                btc_price_eur := ptr_valuedouble eur })
        else (0, fee_data)

/-- First block of `fetch_from_source` (the recommended fees request): the value of
`success` and the snapshot after it. -/
def fee_request (env : Env) (source : DataSource) (fee_data : FeeData) : Int × FeeData :=
  match env.http source.fee_url with
  | none => (0, fee_data)
  | some json =>
    let fastest := cJSON_GetObjectItemCaseSensitive json "fastestFee"
    let halfHour := cJSON_GetObjectItemCaseSensitive json "halfHourFee"
    let hour := cJSON_GetObjectItemCaseSensitive json "hourFee"
    let fastest := if fastest.isNone then cJSON_GetObjectItemCaseSensitive json "2"
      else fastest
    let halfHour := if halfHour.isNone then cJSON_GetObjectItemCaseSensitive json "6"
      else halfHour
    let hour := if hour.isNone then cJSON_GetObjectItemCaseSensitive json "144" else hour
    if cJSON_IsNumber fastest && cJSON_IsNumber halfHour && cJSON_IsNumber hour then
      (1, { fee_data with
            fastestFee := ptr_valuedouble fastest
            halfHourFee := ptr_valuedouble halfHour
            hourFee := ptr_valuedouble hour })
    else (0, fee_data)

/-- Second block of `fetch_from_source` (the mempool request to `mempool_url`). -/
def mempool_request (env : Env) (mempool_url : String) (fee_data : FeeData) : FeeData :=
  match env.http mempool_url with
  | none => fee_data
  | some json =>
    let count := cJSON_GetObjectItemCaseSensitive json "count"
    let vsize := cJSON_GetObjectItemCaseSensitive json "vsize"
    let count := if count.isNone then cJSON_GetObjectItemCaseSensitive json "n_tx" else count
    let vsize := if vsize.isNone then cJSON_GetObjectItemCaseSensitive json "vsize" else vsize
    let fee_data := if cJSON_IsNumber count then
      { fee_data with blocks := ptr_valueint count } else fee_data
    if cJSON_IsNumber vsize then
      { fee_data with mempoolSizeMB := (ptr_valueint vsize : Rat) / 1000000 }
    else fee_data

/-- Function `fetch_from_source`; the call is recorded in `tried` on entry. -/
def fetch_from_source (env : Env) (source : DataSource) (fee_data : FeeData) (st : State) :
    Int × FeeData × State :=
  let st := { st with tried := st.tried ++ [source.name] }
  if !env.curl_init then (0, fee_data, st)
  else
    let fee_data := { fee_data with timestamp := env.clock st.ticks }
    let st := { st with ticks := st.ticks + 1 }
    let fees := fee_request env source fee_data
    let success := fees.1
    let fee_data := fees.2
    let fee_data : FeeData :=
      match source.mempool_url with
      | some mempool_url =>
        if success ≠ 0 then mempool_request env mempool_url fee_data else fee_data
      | none => fee_data
    let fee_data : FeeData :=
      if success ≠ 0 && source.price_url.isSome then (fetch_btc_price env fee_data).2
      else fee_data
    let st : State := if success ≠ 0 then (save_to_cache env fee_data st).2 else st
    (success, fee_data, st)

/-- The loop of `fetch_fee_data`; `remaining` is `MAX_SOURCES - attempts`. -/
def fetch_loop (env : Env) :
    (remaining : Nat) → (success : Int) → FeeData → State → Int × FeeData × State
  | 0, success, fee_data, st => (success, fee_data, st)
  | remaining + 1, success, fee_data, st =>
    if success ≠ 0 then (success, fee_data, st)
    else
      let st := { st with current_source := (st.current_source + 1).tmod MAX_SOURCES }
      let r := fetch_from_source env (data_source_at st.current_source) fee_data st
      fetch_loop env remaining r.1 r.2.1 r.2.2

/-- Function `fetch_fee_data` (terminal variant). -/
def fetch_fee_data (env : Env) (fee_data : FeeData) (st : State) : Int × FeeData × State :=
  let loaded := load_from_cache fee_data st
  if loaded.1 ≠ 0 then
    let fee_data := loaded.2
    let now := env.clock st.ticks
    let st := { st with ticks := st.ticks + 1 }
    if now - fee_data.timestamp < 300 then (1, fee_data, st)
    else fetch_loop env MAX_SOURCES.toNat 0 fee_data st
  else fetch_loop env MAX_SOURCES.toNat 0 fee_data st

/-! ## Reference notions used to state the fetch claims -/

/-- The item `fetch_from_source` reads for one fee field: the member under the primary key
when there is one, the member under the fallback key otherwise. -/
def selected_item (json : cJSON) (primary fallback : String) : Option cJSON :=
  match cJSON_GetObjectItemCaseSensitive json primary with
  | some item => some item
  | none => cJSON_GetObjectItemCaseSensitive json fallback

/-- The fee triplet a provider hands out in the world `env`: all three selected items are
numbers. `none` when no handle can be made, the request fails or an item is not a number. -/
def provider_fees (env : Env) (source : DataSource) : Option (Rat × Rat × Rat) :=
  if env.curl_init then
    match env.http source.fee_url with
    | none => none
    | some json =>
      match selected_item json "fastestFee" "2", selected_item json "halfHourFee" "6",
        selected_item json "hourFee" "144" with
      | some (cJSON.number a), some (cJSON.number b), some (cJSON.number c) => some (a, b, c)
      | _, _, _ => none
  else none

/-- A looser criterion than the one of `fetch_from_source`: a fee field counts as available
as soon as one of its candidate keys, primary or fallback, holds a number. -/
def candidate_number (json : cJSON) (primary fallback : String) : Bool :=
  cJSON_IsNumber (cJSON_GetObjectItemCaseSensitive json primary) ||
    cJSON_IsNumber (cJSON_GetObjectItemCaseSensitive json fallback)

/-- The source tried at attempt `j` (counted from `0`) of a call of `fetch_fee_data` entered
with `current_source = c`: circular order after `c`. -/
def tried_source (c : Int) (j : Nat) : Int := (c + 1 + (j : Int)) % MAX_SOURCES

/-- The names of the sources of the first `n` attempts of such a call, in order. -/
def tried_names (c : Int) (n : Nat) : List String :=
  (List.range n).map (fun j => (data_source_at (tried_source c j)).name)

/-- The object `save_to_cache` prints. -/
def cache_object (a b c d e f g h : Rat) : cJSON :=
  cJSON.object
    [ ("fastestFee", cJSON.number a),
      ("halfHourFee", cJSON.number b),
      ("hourFee", cJSON.number c),
      ("blocks", cJSON.number d),
      ("mempoolSizeMB", cJSON.number e),
      ("btc_price_usd", cJSON.number f),
      ("btc_price_eur", cJSON.number g),
      ("timestamp", cJSON.number h) ]

/-! ## Concrete inputs -/

/-- A snapshot with fees 12, 8, 5 taken at time 1000. -/
def sample_snapshot : FeeData :=
  { fastestFee := 12, halfHourFee := 8, hourFee := 5, blocks := 800000, mempoolSizeMB := 3,
    btc_price_usd := 60000, btc_price_eur := 55000,
    history := init_fee_history (fun _ => ⟨0, 0, 0, 0⟩) 2, timestamp := 1000 }

/-- A snapshot with other values, to be overwritten. -/
def old_snapshot : FeeData :=
  { fastestFee := 1, halfHourFee := 1, hourFee := 1, blocks := 1, mempoolSizeMB := 1,
    btc_price_usd := 1, btc_price_eur := 1,
    history := init_fee_history (fun _ => ⟨0, 0, 0, 0⟩) 2, timestamp := 1 }

/-- A world in which every request fails; the clock reads 1005, 1006, ... -/
def offline_env : Env :=
  { clock := fun k => 1005 + (k : Int), curl_init := true, http := fun _ => none, fopen_w := true }

/-- A world in which every request fails; the clock reads 2000, 2001, ... -/
def late_offline_env : Env :=
  { clock := fun k => 2000 + (k : Int), curl_init := true, http := fun _ => none, fopen_w := true }

/-- Start of the program: `current_source = 0`, no cache file. -/
def empty_state : State :=
  { current_source := 0, cache := CacheFile.missing, ticks := 0, tried := [] }

/-- A cache file holding the object `\x7b\x7d`. -/
def empty_object_state : State :=
  { current_source := 0, cache := CacheFile.parsed (cJSON.object []), ticks := 0, tried := [] }

/-- A cache file holding an object with the members `blocks` and `mempoolSizeMB` only. -/
def blocks_only_state : State :=
  { current_source := 0
    cache := CacheFile.parsed (cJSON.object
      [("blocks", cJSON.number 800000), ("mempoolSizeMB", cJSON.number 3)])
    ticks := 0
    tried := [] }

/-- A cache file written at time 905, that is 100 s before the first reading of the clock of
`offline_env`. -/
def cached_state : State :=
  { current_source := 0
    cache := CacheFile.parsed (cJSON.object
      [ ("fastestFee", cJSON.number 12), ("halfHourFee", cJSON.number 8),
        ("hourFee", cJSON.number 5), ("blocks", cJSON.number 800000),
        ("mempoolSizeMB", cJSON.number 3), ("btc_price_usd", cJSON.number 60000),
        ("btc_price_eur", cJSON.number 55000), ("timestamp", cJSON.number 905) ])
    ticks := 0
    tried := [] }

/-- The reply `\x7b"fastestFee":12,"halfHourFee":8,"hourFee":5\x7d`. -/
def fee_reply : cJSON :=
  cJSON.object [ ("fastestFee", cJSON.number 12), ("halfHourFee", cJSON.number 8),
    ("hourFee", cJSON.number 5) ]

/-- A world in which only the fee request to bitcoinfees.earn.com is answered. -/
def fallback_env : Env :=
  { clock := fun k => 1005 + (k : Int)
    curl_init := true
    http := fun url =>
      if url = "https://bitcoinfees.earn.com/api/v1/fees/recommended" then some fee_reply
      else none
    fopen_w := true }

/-- A reply whose primary key `fastestFee` holds a string while the fallback key `2` holds a
number. -/
def mixed_reply : cJSON :=
  cJSON.object [ ("fastestFee", cJSON.string "fast"), ("2", cJSON.number 12),
    ("halfHourFee", cJSON.number 8), ("hourFee", cJSON.number 5) ]

/-- A world in which the fee request to mempool.space is answered with `mixed_reply`. -/
def mixed_env : Env :=
  { clock := fun k => 1005 + (k : Int)
    curl_init := true
    http := fun url =>
      if url = "https://mempool.space/api/v1/fees/recommended" then some mixed_reply else none
    fopen_w := true }

/-! ## Invariants and helpers of the proofs -/

/-- State of a history that has not wrapped yet: the pushed points `ps` fill the first
slots in order, the remaining slots `J` are untouched, and the cursor is still `0`. -/
def PartInv (h : FeeHistory) (N : Nat) (ps : List FeeHistoryPoint) : Prop :=
  h.capacity = (N : Int) ∧ h.size = (ps.length : Int) ∧ h.current = 0 ∧
    ∃ J, h.points = ps ++ J ∧ ps.length + J.length = N

/-- State of a full history: the slots from the cursor to the end hold the older points
`A`, the slots before the cursor hold the newer points `B`. -/
def FullInv (h : FeeHistory) (N : Nat) (chron : List FeeHistoryPoint) : Prop :=
  h.capacity = (N : Int) ∧ h.size = (N : Int) ∧
    ∃ A B, A ≠ [] ∧ h.points = B ++ A ∧ h.current = (B.length : Int) ∧
      chron = A ++ B ∧ A.length + B.length = N

/-- One guarded assignment of `load_from_cache`: `set item` is applied when the member exists. -/
def if_item (o : Option cJSON) (set : cJSON → FeeData → FeeData) (d : FeeData) : FeeData :=
  match o with
  | some item => set item d
  | none => d

/-! ## Trend graph (`draw_trend_graph`) -/

/-- The index `idx1` of step `i` of the inner loop of `draw_trend_graph`. -/
def trend_idx1 (history : FeeHistory) (i : Int) : Int :=
  (history.current - i - 1 + history.capacity).tmod history.capacity

/-- The index `idx2` of step `i` of the inner loop of `draw_trend_graph`. -/
def trend_idx2 (history : FeeHistory) (i : Int) : Int :=
  (history.current - i - 2 + history.capacity).tmod history.capacity

/-- The range check of the inner loop of `draw_trend_graph`: true when step `i` is left by
`continue`. -/
def trend_skipped (history : FeeHistory) (i : Int) : Bool :=
  trend_idx1 history i < 0 || trend_idx2 history i < 0 ||
    trend_idx1 history i ≥ history.size || trend_idx2 history i ≥ history.size

/-- A step of the inner loop of `draw_trend_graph` that reaches the drawing calls: the
column `x + width - 2 - i` and the two slots read. -/
structure TrendStep where
  column : Int
  idx1 : Int
  idx2 : Int
deriving DecidableEq

/-- One pass of the inner loop of `draw_trend_graph` (`i` from 0 while `i < width - 1` and
`i < size - 1`): the steps that pass the range check, in order. The rows computed from the
fees and the characters written are left out. -/
def trend_steps (history : FeeHistory) (x width : Int) : List TrendStep :=
  if history.size < 2 then []
  else
    (List.range (min (width - 1) (history.size - 1)).toNat).filterMap (fun (i : Nat) =>
      if trend_skipped history (i : Int) then none
      else some
        { column := x + width - 2 - (i : Int)
          idx1 := trend_idx1 history (i : Int)
          idx2 := trend_idx2 history (i : Int) })

/-! ## Response buffer (`write_callback`) -/

/-- Function `write_callback` (terminal variant): `contents` holds at least `size * nmemb`
bytes, `response` is the string `*response_ptr` points to (`none` for `NULL`), and
`realloc_ok` tells whether `realloc` returns a block. The result is the value returned and
the string in the buffer. -/
def write_callback (realloc_ok : Bool) (contents : List Char) (size nmemb : Nat)
    (_response : Option (List Char)) : Nat × Option (List Char) :=
  let realsize := (size * nmemb) % 2 ^ 64
  if !realloc_ok then (0, none)
  else (realsize, some (contents.take realsize))

/-- The chunks of one response handed one after the other to `write_callback`, each with
`size = 1` and `nmemb` equal to its length: the values returned and the final buffer. -/
def receive_chunks (chunks : List (List Char)) (response : Option (List Char)) :
    List Nat × Option (List Char) :=
  chunks.foldl (fun acc chunk =>
    let r := write_callback true chunk 1 chunk.length acc.2
    (acc.1 ++ [r.1], r.2)) ([], response)

/-! ## Main loop (`main`)

The screen and the files written by `export_data_to_csv` and `export_history_to_csv` are
left out. -/

/-- The key `getch` returns in one iteration of the main loop; `cycle_source` carries the
content of the uninitialised local `fd` of `cycle_data_source`. -/
inductive Key where
  | no_key
  | quit
  | refresh
  | toggle_history
  | cycle_source (fd : FeeData)
  | export_history
  | other

/-- The place of `main` where `fetch_fee_data` is called. -/
inductive FetchKind where
  | initial
  | timer
  | manual
deriving DecidableEq

/-- Record of one call of `fetch_fee_data` made by `main`: where it was made, the clock
reading `now` of the iteration, whether it succeeded, and the point handed to
`add_to_history` after it, if any. -/
structure FetchRecord where
  kind : FetchKind
  now : Int
  success : Bool
  recorded : Option FeeHistoryPoint
deriving DecidableEq

/-- The variables of `main`, the globals `show_history` and those of `State`, whether the
loop is still running, and the record of the fetches made so far. -/
structure MainState where
  current_fees : FeeData
  last_update : Int
  seconds_until_update : Int
  show_history : Bool
  globals : State
  running : Bool
  fetches : List FetchRecord

/-- The block run by `main` after a successful fetch in the loop: `add_to_history` when
`show_history` is set. The result is the snapshot, the globals and the point added. -/
def record_history (env : Env) (show_history : Bool) (fee_data : FeeData) (st : State) :
    FeeData × State × Option FeeHistoryPoint :=
  if show_history then
    let now := env.clock st.ticks
    ({ fee_data with
        history := add_to_history fee_data.history fee_data.fastestFee fee_data.halfHourFee
          fee_data.hourFee now },
      { st with ticks := st.ticks + 1 },
      some ⟨fee_data.fastestFee, fee_data.halfHourFee, fee_data.hourFee, now⟩)
  else (fee_data, st, none)

/-- First part of an iteration of the main loop: the update made when the interval has
passed; `now` is the clock reading of the iteration. -/
def timer_update (env : Env) (now : Int) (ms : MainState) : MainState :=
  let seconds_until_update := 30 - (now - ms.last_update)
  if seconds_until_update ≤ 0 then
    let r := fetch_fee_data env ms.current_fees ms.globals
    if r.1 ≠ 0 then
      let h := record_history env ms.show_history r.2.1 r.2.2
      { ms with
        current_fees := h.1
        globals := h.2.1
        last_update := now
        seconds_until_update := 30
        fetches := ms.fetches ++ [⟨FetchKind.timer, now, true, h.2.2⟩] }
    else
      { ms with
        current_fees := r.2.1
        globals := r.2.2
        seconds_until_update := 5
        fetches := ms.fetches ++ [⟨FetchKind.timer, now, false, none⟩] }
  else { ms with seconds_until_update := seconds_until_update }

/-- Second part of an iteration of the main loop: the key read by `getch`. -/
def handle_key (env : Env) (now : Int) (key : Key) (ms : MainState) : MainState :=
  match key with
  | Key.quit => { ms with running := false }
  | Key.refresh =>
    let r := fetch_fee_data env ms.current_fees ms.globals
    if r.1 ≠ 0 then
      let h := record_history env ms.show_history r.2.1 r.2.2
      { ms with
        current_fees := h.1
        globals := { h.2.1 with ticks := h.2.1.ticks + 1 }
        last_update := env.clock h.2.1.ticks
        fetches := ms.fetches ++ [⟨FetchKind.manual, now, true, h.2.2⟩] }
    else
      { ms with
        current_fees := r.2.1
        globals := r.2.2
        fetches := ms.fetches ++ [⟨FetchKind.manual, now, false, none⟩] }
  | Key.toggle_history => { ms with show_history := !ms.show_history }
  | Key.cycle_source fd =>
    let st := { ms.globals with
      current_source := (ms.globals.current_source + 1).tmod MAX_SOURCES }
    { ms with globals := (fetch_fee_data env fd st).2.2 }
  | Key.export_history =>
    { ms with globals := { ms.globals with ticks := ms.globals.ticks + 1 } }
  | _ => ms

/-- One iteration of the main loop, with the key `getch` returns. -/
def main_iteration (env : Env) (key : Key) (ms : MainState) : MainState :=
  if !ms.running then ms
  else
    let now := env.clock ms.globals.ticks
    let ms := { ms with globals := { ms.globals with ticks := ms.globals.ticks + 1 } }
    handle_key env now key (timer_update env now ms)

/-- Start of `main`, up to the loop: `mem` is the content of the block `malloc` returns for
the history and `st` the globals at the start. When the initial fetch fails the program
ends and the loop does not run. -/
def main_start (env : Env) (mem : Nat → FeeHistoryPoint) (st : State) : MainState :=
  let current_fees : FeeData :=
    { fastestFee := 0, halfHourFee := 0, hourFee := 0, blocks := 0, mempoolSizeMB := 0,
      btc_price_usd := 0, btc_price_eur := 0, history := init_fee_history mem 60,
      timestamp := 0 }
  let r := fetch_fee_data env current_fees st
  if r.1 = 0 then
    { current_fees := r.2.1, last_update := 0, seconds_until_update := 0,
      show_history := true, globals := r.2.2, running := false,
      fetches := [⟨FetchKind.initial, 0, false, none⟩] }
  else
    { current_fees := r.2.1, last_update := env.clock r.2.2.ticks, seconds_until_update := 0,
      show_history := true, globals := { r.2.2 with ticks := r.2.2.ticks + 1 },
      running := true, fetches := [⟨FetchKind.initial, 0, true, none⟩] }

/-- The iterations of the main loop, one per element of `steps`: the world during the
iteration and the key read. -/
def main_run (steps : List (Env × Key)) (ms : MainState) : MainState :=
  steps.foldl (fun ms s => main_iteration s.1 s.2 ms) ms

/-- The points handed to `add_to_history` by the fetches of a record, in order. -/
def recorded_points (fetches : List FetchRecord) : List FeeHistoryPoint :=
  fetches.filterMap (fun r => r.recorded)

/-- A history of capacity 4 after three pushes. -/
def three_point_history : FeeHistory :=
  push_all (init_fee_history (fun _ => ⟨0, 0, 0, 0⟩) 4)
    [⟨12, 8, 5, 100⟩, ⟨13, 9, 6, 130⟩, ⟨14, 10, 7, 160⟩]

/-- The history of `main` (capacity 60) after three pushes. -/
def young_history : FeeHistory :=
  push_all (init_fee_history (fun _ => ⟨0, 0, 0, 0⟩) 60)
    [⟨12, 8, 5, 100⟩, ⟨13, 9, 6, 130⟩, ⟨14, 10, 7, 160⟩]

/-- A world in which every request fails; the clock reads 1230 five times, then 1231. -/
def retry_env : Env :=
  { clock := fun k => if k < 5 then 1230 else 1231
    curl_init := true, http := fun _ => none, fopen_w := true }

/-- The state of `main` 325 s after the cache file of `cached_state` was written, the last
update having been served from it at time 1200. -/
def stale_main_state : MainState :=
  { current_fees := sample_snapshot, last_update := 1200, seconds_until_update := 30,
    show_history := true, globals := cached_state, running := true, fetches := [] }

/-- A world in which every request fails; the clock reads 1000 twice, then 1001, then
1030. -/
def hidden_history_env : Env :=
  { clock := fun k => if k < 2 then 1000 else if k = 2 then 1001 else 1030
    curl_init := true, http := fun _ => none, fopen_w := true }

end Terminal

namespace Gui

open Terminal (cJSON cJSON_IsNumber cJSON_GetObjectItemCaseSensitive ptr_valuedouble
  ptr_valueint)
open Arith (checked_div)

/-! ## GTK variant (`btc_fee_gui.c`) -/

/-- A row of the table `fee_history`. -/
structure FeeRow where
  timestamp : Int
  fastest_fee : Rat
  half_hour_fee : Rat
  hour_fee : Rat
  economy_fee : Rat
  minimum_fee : Rat
deriving DecidableEq

/-- The global `app_data` (`AppData`): the snapshot fields, the timer and thread control
fields, and the database: `db` is `none` for a `NULL` handle, else the rows of
`fee_history`. -/
structure AppData where
  fastest_fee : Rat
  half_hour_fee : Rat
  hour_fee : Rat
  economy_fee : Rat
  minimum_fee : Rat
  btc_price_usd : Rat
  btc_price_eur : Rat
  price_change_24h : Rat
  mempool_tx_count : Int
  mempool_size_bytes : Int
  mempool_total_fee : Rat
  mempool_avg_fee : Rat
  update_timeout_id : Nat
  update_interval : Int
  is_updating : Bool
  db : Option (List FeeRow)
deriving DecidableEq

/-- The outside world during one call: `now` is the value of `time(NULL)`; `curl_init`
tells whether `curl_easy_init` returns a handle; `http url` is the parsed body of a GET of
`url`, `none` when the transfer fails or the body is not JSON; `prepare_ok` and `step_ok`
tell whether `sqlite3_prepare_v2` and `sqlite3_step` succeed. -/
structure Env where
  now : Int
  curl_init : Bool
  http : String → Option cJSON
  prepare_ok : Bool
  step_ok : Bool

/-- Function `save_fee_data_to_db`. -/
def save_fee_data_to_db (env : Env) (app_data : AppData) : Bool × AppData :=
  match app_data.db with
  | none => (false, app_data)
  | some rows =>
    if !env.prepare_ok then (false, app_data)
    else
      let now := env.now
      let row : FeeRow :=
        { timestamp := now
          fastest_fee := app_data.fastest_fee
          half_hour_fee := app_data.half_hour_fee
          hour_fee := app_data.hour_fee
          economy_fee := app_data.economy_fee
          minimum_fee := app_data.minimum_fee }
      if !env.step_ok then (false, app_data)
      else (true, { app_data with db := some (rows ++ [row]) })

/-- The url `fetch_fee_data` requests. -/
def FEES_URL : String := "https://mempool.space/api/v1/fees/recommended"

/-- Function `fetch_fee_data` (GTK variant). -/
def fetch_fee_data (env : Env) (app_data : AppData) : Bool × AppData :=
  if !env.curl_init then (false, app_data)
  else
    match env.http FEES_URL with
    | none => (false, app_data)
    | some json =>
      let item := cJSON_GetObjectItemCaseSensitive json "fastestFee"
      let app_data := if cJSON_IsNumber item then
        { app_data with fastest_fee := ptr_valuedouble item } else app_data
      let item := cJSON_GetObjectItemCaseSensitive json "halfHourFee"
      let app_data := if cJSON_IsNumber item then
        { app_data with half_hour_fee := ptr_valuedouble item } else app_data
      let item := cJSON_GetObjectItemCaseSensitive json "hourFee"
      let app_data := if cJSON_IsNumber item then
        { app_data with hour_fee := ptr_valuedouble item } else app_data
      let item := cJSON_GetObjectItemCaseSensitive json "economyFee"
      let app_data := if cJSON_IsNumber item then
        { app_data with economy_fee := ptr_valuedouble item } else app_data
      let item := cJSON_GetObjectItemCaseSensitive json "minimumFee"
      let app_data := if cJSON_IsNumber item then
        { app_data with minimum_fee := ptr_valuedouble item } else app_data
      (true, (save_fee_data_to_db env app_data).2)

/-- The url `fetch_mempool_data` requests. -/
def MEMPOOL_URL : String := "https://mempool.space/api/mempool"

/-- Function `fetch_mempool_data`; the result is `none` when the average fee is computed by a
division whose divisor is zero. -/
def fetch_mempool_data (env : Env) (app_data : AppData) : Option (Bool × AppData) :=
  if !env.curl_init then some (false, app_data)
  else
    match env.http MEMPOOL_URL with
    | none => some (false, app_data)
    | some json =>
      let item := cJSON_GetObjectItemCaseSensitive json "count"
      let app_data := if cJSON_IsNumber item then
        { app_data with mempool_tx_count := ptr_valueint item } else app_data
      let item := cJSON_GetObjectItemCaseSensitive json "vsize"
      let app_data := if cJSON_IsNumber item then
        { app_data with mempool_size_bytes := ptr_valueint item } else app_data
      let item := cJSON_GetObjectItemCaseSensitive json "total_fee"
      let app_data := if cJSON_IsNumber item then
        { app_data with mempool_total_fee := ptr_valuedouble item } else app_data
      if app_data.mempool_size_bytes > 0 then
        match checked_div (app_data.mempool_total_fee * 100000000)
            (app_data.mempool_size_bytes : Rat) with
        | some q => some (true, { app_data with mempool_avg_fee := q })
        | none => none
      else some (true, { app_data with mempool_avg_fee := 0 })

/-- The url `fetch_btc_price` requests (GTK variant). -/
def PRICE_URL : String :=
  "https://api.coingecko.com/api/v3/simple/price?ids=bitcoin&vs_currencies=usd,eur&include_24hr_change=true"

/-- Function `fetch_btc_price` (GTK variant). -/
def fetch_btc_price (env : Env) (app_data : AppData) : Bool × AppData :=
  if !env.curl_init then (false, app_data)
  else
    match env.http PRICE_URL with
    | none => (false, app_data)
    | some json =>
      match cJSON_GetObjectItemCaseSensitive json "bitcoin" with
      | none => (true, app_data)
      | some bitcoin =>
        let usd := cJSON_GetObjectItemCaseSensitive bitcoin "usd"
        let eur := cJSON_GetObjectItemCaseSensitive bitcoin "eur"
        let change := cJSON_GetObjectItemCaseSensitive bitcoin "usd_24h_change"
        let app_data := if cJSON_IsNumber usd then
          { app_data with btc_price_usd := ptr_valuedouble usd } else app_data
        let app_data := if cJSON_IsNumber eur then
          { app_data with btc_price_eur := ptr_valuedouble eur } else app_data
        let app_data := if cJSON_IsNumber change then
          { app_data with price_change_24h := ptr_valuedouble change } else app_data
        (true, app_data)

/-! ## Response buffer (`write_callback`) -/

/-- Function `write_callback` (GTK variant): `contents` holds at least `size * nmemb` bytes
and `response` is the content of the `GString`. The result is the value returned and the
content after `g_string_append_len`. -/
def write_callback (contents : List Char) (size nmemb : Nat) (response : List Char) :
    Nat × List Char :=
  let realsize := (size * nmemb) % 2 ^ 64
  (realsize, response ++ contents.take realsize)

/-- The chunks of one response handed one after the other to `write_callback`, each with
`size = 1` and `nmemb` equal to its length: the values returned and the final buffer. -/
def receive_chunks (chunks : List (List Char)) (response : List Char) :
    List Nat × List Char :=
  chunks.foldl (fun acc chunk =>
    let r := write_callback chunk 1 chunk.length acc.2
    (acc.1 ++ [r.1], r.2)) ([], response)

/-! ## Alerts (`check_alerts`) -/

/-- The message of an alert, given by the arguments handed to `snprintf` with the format of
the alert: the fee, the direction and the magnitude of the price change, or the number of
transactions. -/
inductive AlertText where
  | low_fee (fastest_fee : Rat)
  | price_change (direction : String) (magnitude : Rat)
  | congestion (tx_count : Int)
deriving DecidableEq

/-- A call of `show_notification`: the title, the message and the icon. -/
structure Notification where
  title : String
  message : AlertText
  icon : String
deriving DecidableEq

/-- Function `check_alerts`: `shown` holds the calls of `show_notification` made so far,
the result those made after the call. -/
def check_alerts (app_data : AppData) (shown : List Notification) : List Notification :=
  let shown :=
    if app_data.fastest_fee < 10 then
      shown ++ [⟨"¡Oferta de tarifas bajas!", AlertText.low_fee app_data.fastest_fee,
        "dialog-information"⟩]
    else shown
  let shown :=
    if |app_data.price_change_24h| > 2 then
      let direction := if app_data.price_change_24h > 0 then "subido" else "bajado"
      shown ++ [⟨"Cambio significativo de precio",
        AlertText.price_change direction |app_data.price_change_24h|, "stock_market-up"⟩]
    else shown
  if app_data.mempool_tx_count > 50000 then
    shown ++ [⟨"Congestión en la Mempool", AlertText.congestion app_data.mempool_tx_count,
      "dialog-warning"⟩]
  else shown

/-! ## Update cycle (`update_data`, `update_data_thread`)

The worker thread is taken as one step of a sequential step relation: its body runs when
the event `worker_done` occurs. -/

/-- The application: `app_data`, the number of worker threads started and not finished,
the number of worker threads started so far, whether the timeout source installed by
`schedule_next_update` still exists, the number of calls of `update_ui` queued by
`g_idle_add`, and the calls of `show_notification` made so far. -/
structure AppState where
  app_data : AppData
  workers : Nat
  started : Nat
  timer_armed : Bool
  pending_ui : Nat
  shown : List Notification
deriving DecidableEq

/-- Function `update_data_thread`, the body of the worker thread. The average fee of
`fetch_mempool_data` is computed under the guard `mempool_size_bytes > 0`, so its result is
never `none`. -/
def update_data_thread (env : Env) (app_data : AppData) : AppData :=
  let app_data := (fetch_fee_data env app_data).2
  let app_data := (fetch_btc_price env app_data).2
  let app_data :=
    match fetch_mempool_data env app_data with
    | some r => r.2
    | none => app_data
  { app_data with is_updating := false }

/-- Function `update_data`: `thread_created` tells whether `g_thread_new` returns a thread.
The result is the value returned and the state after the call. -/
def update_data (thread_created : Bool) (s : AppState) : Bool × AppState :=
  if s.app_data.is_updating then (false, s)
  else
    let s := { s with app_data := { s.app_data with is_updating := true } }
    if !thread_created then
      (false, { s with app_data := { s.app_data with is_updating := false } })
    else (false, { s with workers := s.workers + 1, started := s.started + 1 })

/-- Function `on_refresh_clicked`. -/
def on_refresh_clicked (thread_created : Bool) (s : AppState) : AppState :=
  if !s.app_data.is_updating then (update_data thread_created s).2 else s

/-- Function `update_ui`, as far as the alerts go. -/
def update_ui (s : AppState) : AppState :=
  { s with shown := check_alerts s.app_data s.shown }

/-- What happens to the application: the timeout expires, the refresh button is clicked, a
worker thread runs to its end, or the main loop runs a queued call of `update_ui`. -/
inductive AppEvent where
  | timer (thread_created : Bool)
  | refresh (thread_created : Bool)
  | worker_done (env : Env)
  | idle

/-- One event applied to the application. A timeout source whose callback returns `FALSE`
is removed by GLib, one whose callback returns `TRUE` is kept. -/
def app_step (s : AppState) : AppEvent → AppState
  | AppEvent.timer thread_created =>
    if s.timer_armed then
      let r := update_data thread_created s
      { r.2 with timer_armed := r.1 }
    else s
  | AppEvent.refresh thread_created => on_refresh_clicked thread_created s
  | AppEvent.worker_done env =>
    if s.workers = 0 then s
    else
      { s with
        app_data := update_data_thread env s.app_data
        workers := s.workers - 1
        pending_ui := s.pending_ui + 1 }
  | AppEvent.idle =>
    if s.pending_ui = 0 then s
    else update_ui { s with pending_ui := s.pending_ui - 1 }

/-- Function `activate`, as far as the update cycle goes: `init_app_data` (with `db` the
handle `init_database` leaves), the first call of `update_data` and
`schedule_next_update`, where `g_timeout_add_seconds` returns `source_id`. -/
def activate (thread_created : Bool) (db : Option (List FeeRow)) (source_id : Nat) :
    AppState :=
  let app_data : AppData :=
    { fastest_fee := 0, half_hour_fee := 0, hour_fee := 0, economy_fee := 0, minimum_fee := 0,
      btc_price_usd := 0, btc_price_eur := 0, price_change_24h := 0, mempool_tx_count := 0,
      mempool_size_bytes := 0, mempool_total_fee := 0, mempool_avg_fee := 0,
      update_timeout_id := 0, update_interval := 300, is_updating := false, db := db }
  let s : AppState :=
    { app_data := app_data, workers := 0, started := 0, timer_armed := false,
      pending_ui := 0, shown := [] }
  let s := (update_data thread_created s).2
  { s with
    app_data := { s.app_data with update_timeout_id := source_id }
    timer_armed := true }

/-- The state after `activate` and the events `events`. -/
def app_run (thread_created : Bool) (db : Option (List FeeRow)) (source_id : Nat)
    (events : List AppEvent) : AppState :=
  events.foldl app_step (activate thread_created db source_id)

/-- The conditions of `check_alerts` that hold on a snapshot, counted. -/
def satisfied_conditions (app_data : AppData) : Nat :=
  (if app_data.fastest_fee < 10 then 1 else 0) +
  (if |app_data.price_change_24h| > 2 then 1 else 0) +
  (if app_data.mempool_tx_count > 50000 then 1 else 0)

/-! ## Helpers of the proofs -/

/-- One guarded assignment of `fetch_fee_data`: `set` is applied when `b` holds. -/
def upd_if (b : Bool) (set : AppData → AppData) (a : AppData) : AppData :=
  if b then set a else a

/-- The snapshot after the five guarded assignments of `fetch_fee_data`. -/
def updated_fees (json : cJSON) (app_data : AppData) : AppData :=
  upd_if (cJSON_IsNumber (cJSON_GetObjectItemCaseSensitive json "minimumFee"))
    (fun x => { x with
      minimum_fee := ptr_valuedouble (cJSON_GetObjectItemCaseSensitive json "minimumFee") })
  (upd_if (cJSON_IsNumber (cJSON_GetObjectItemCaseSensitive json "economyFee"))
    (fun x => { x with
      economy_fee := ptr_valuedouble (cJSON_GetObjectItemCaseSensitive json "economyFee") })
  (upd_if (cJSON_IsNumber (cJSON_GetObjectItemCaseSensitive json "hourFee"))
    (fun x => { x with
      hour_fee := ptr_valuedouble (cJSON_GetObjectItemCaseSensitive json "hourFee") })
  (upd_if (cJSON_IsNumber (cJSON_GetObjectItemCaseSensitive json "halfHourFee"))
    (fun x => { x with
      half_hour_fee := ptr_valuedouble (cJSON_GetObjectItemCaseSensitive json "halfHourFee") })
  (upd_if (cJSON_IsNumber (cJSON_GetObjectItemCaseSensitive json "fastestFee"))
    (fun x => { x with
      fastest_fee := ptr_valuedouble (cJSON_GetObjectItemCaseSensitive json "fastestFee") })
    app_data))))

/-- The snapshot after the three guarded assignments of `fetch_mempool_data`. -/
def updated_mempool (json : cJSON) (app_data : AppData) : AppData :=
  upd_if (cJSON_IsNumber (cJSON_GetObjectItemCaseSensitive json "total_fee"))
    (fun x => { x with
      mempool_total_fee := ptr_valuedouble (cJSON_GetObjectItemCaseSensitive json "total_fee") })
  (upd_if (cJSON_IsNumber (cJSON_GetObjectItemCaseSensitive json "vsize"))
    (fun x => { x with
      mempool_size_bytes := ptr_valueint (cJSON_GetObjectItemCaseSensitive json "vsize") })
  (upd_if (cJSON_IsNumber (cJSON_GetObjectItemCaseSensitive json "count"))
    (fun x => { x with
      mempool_tx_count := ptr_valueint (cJSON_GetObjectItemCaseSensitive json "count") })
    app_data))

/-! ## Concrete inputs -/

/-- A snapshot with fees 20, 15, 10, 5, 1 and an open, empty database. -/
def sample_app : AppData :=
  { fastest_fee := 20, half_hour_fee := 15, hour_fee := 10, economy_fee := 5, minimum_fee := 1,
    btc_price_usd := 60000, btc_price_eur := 55000, price_change_24h := 0,
    mempool_tx_count := 0, mempool_size_bytes := 0, mempool_total_fee := 0,
    mempool_avg_fee := 0, update_timeout_id := 0, update_interval := 60,
    is_updating := false, db := some [] }

/-- A world in which the fee request is answered with the object `\x7b\x7d`. -/
def empty_reply_env : Env :=
  { now := 1000, curl_init := true, http := fun _ => some (cJSON.object []),
    prepare_ok := true, step_ok := true }

/-- A world in which the mempool request is answered with a size of 2000000 bytes and a
total fee of 3. -/
def mempool_reply_env : Env :=
  { now := 1000, curl_init := true
    http := fun _ => some (cJSON.object
      [ ("count", cJSON.number 40000), ("vsize", cJSON.number 2000000),
        ("total_fee", cJSON.number 3) ])
    prepare_ok := true, step_ok := true }

/-- A world in which the mempool request is answered with a size of 0 bytes. -/
def empty_mempool_env : Env :=
  { now := 1000, curl_init := true
    http := fun _ => some (cJSON.object
      [ ("count", cJSON.number 0), ("vsize", cJSON.number 0),
        ("total_fee", cJSON.number 3) ])
    prepare_ok := true, step_ok := true }

/-- A snapshot on which the three conditions of `check_alerts` hold: a fee of 5, a price
change of -3 percent and 60000 transactions. -/
def alerting_app : AppData :=
  { sample_app with fastest_fee := 5, price_change_24h := -3, mempool_tx_count := 60000 }

/-- The application with `sample_app` and no update in progress. -/
def idle_state : AppState :=
  { app_data := sample_app, workers := 0, started := 0, timer_armed := true, pending_ui := 0,
    shown := [] }

/-- The application with `sample_app` and one update in progress. -/
def busy_state : AppState :=
  { app_data := { sample_app with is_updating := true }, workers := 1, started := 1,
    timer_armed := true, pending_ui := 0, shown := [] }

end Gui

namespace Chart

open Arith (checked_div)

/-! ## Chart engine (`chart_utils.c`)

The GTK widget, the title and the redraw requests are left out: they carry no data of the
chart. `width` and `height` are the `int` values of the allocation. -/

/-- A colour (`GdkRGBA`). -/
structure GdkRGBA where
  red : Rat
  green : Rat
  blue : Rat
  alpha : Rat
deriving DecidableEq

/-- A data point (`ChartDataPoint`). -/
structure ChartDataPoint where
  x : Rat
  y : Rat
deriving DecidableEq

/-- A series (`ChartSeries`); `data` is the content of the `GArray`, a `NULL` array being the
empty content. -/
structure ChartSeries where
  label : String
  color : GdkRGBA
  data : List ChartDataPoint
  show_points : Bool
  visible : Bool
deriving DecidableEq

/-- The chart (`ChartConfig`). The field `pan_offset` is `none` when it is not a number:
the value of a computation that divided zero by zero. -/
structure ChartConfig where
  series : List ChartSeries
  bg_color : GdkRGBA
  grid_color : GdkRGBA
  text_color : GdkRGBA
  min_x : Rat
  max_x : Rat
  min_y : Rat
  max_y : Rat
  zoom_level : Rat
  pan_offset : Option Rat
deriving DecidableEq

/-- The palette `DEFAULT_COLORS`. -/
def DEFAULT_COLORS : List GdkRGBA :=
  [ ⟨95 / 100, 26 / 100, 21 / 100, 1⟩,
    ⟨96 / 100, 80 / 100, 9 / 100, 1⟩,
    ⟨16 / 100, 63 / 100, 60 / 100, 1⟩,
    ⟨40 / 100, 65 / 100, 99 / 100, 1⟩,
    ⟨74 / 100, 18 / 100, 95 / 100, 1⟩,
    ⟨1, 44 / 100, 37 / 100, 1⟩,
    ⟨30 / 100, 69 / 100, 31 / 100, 1⟩ ]

/-- Function `get_default_color`: the `int` index is converted to `size_t` before the
remainder by the number of colours is taken. -/
def get_default_color (index : Int) : GdkRGBA :=
  DEFAULT_COLORS.getD (((index % 2 ^ 64) % 7).toNat) ⟨0, 0, 0, 0⟩

/-- Function `chart_config_new`: the colours are those of `#1E1E2E`, `#45475A`, `#CDD6F4`. -/
def chart_config_new : ChartConfig :=
  { series := []
    bg_color := ⟨30 / 255, 30 / 255, 46 / 255, 1⟩
    grid_color := ⟨69 / 255, 71 / 255, 90 / 255, 1⟩
    text_color := ⟨205 / 255, 214 / 255, 244 / 255, 1⟩
    min_x := 0
    max_x := 1
    min_y := 0
    max_y := 1
    zoom_level := 1
    pan_offset := some 0 }

/-- Function `chart_add_series`, for a chart and a label that are not `NULL`; `color` is
`none` for a `NULL` colour. -/
def chart_add_series (config : ChartConfig) (label : String) (color : Option GdkRGBA)
    (show_points : Bool) : ChartConfig :=
  let series : ChartSeries :=
    { label := label
      color := match color with
        | some c => c
        | none => get_default_color (config.series.length : Int)
      show_points := show_points
      visible := true
      data := [] }
  { config with series := config.series ++ [series] }

/-- The search loop of `chart_add_point`: position of the first series whose label is
`series_name`. -/
def find_series (series_name : String) : List ChartSeries → Option Nat
  | [] => none
  | s :: rest =>
    if s.label = series_name then some 0
    else match find_series series_name rest with
      | some i => some (i + 1)
      | none => none

/-- The series at position `i` with `point` appended to its data (`g_array_append_val`). -/
def append_point (point : ChartDataPoint) : Nat → List ChartSeries → List ChartSeries
  | _, [] => []
  | 0, s :: rest => { s with data := s.data ++ [point] } :: rest
  | i + 1, s :: rest => s :: append_point point i rest

/-- The bound `min_y` after the widening step of `chart_add_point`. -/
def widened_min_y (chart : ChartConfig) (value : Rat) : Rat :=
  if value < chart.min_y then value * (95 / 100) else chart.min_y

/-- The bound `max_y` after the widening step of `chart_add_point`. -/
def widened_max_y (chart : ChartConfig) (value : Rat) : Rat :=
  if value > chart.max_y then value * (105 / 100) else chart.max_y

/-- Last block of `chart_add_point` (update of the chart bounds). -/
def update_bounds (chart : ChartConfig) (value : Rat) : ChartConfig :=
  let min_y := widened_min_y chart value
  let max_y := widened_max_y chart value
  if min_y = max_y then
    { chart with min_y := min_y * (9 / 10), max_y := max_y * (11 / 10) }
  else
    { chart with min_y := min_y, max_y := max_y }

/-- Function `chart_add_point`, for a chart and a name that are not `NULL`. -/
def chart_add_point (chart : ChartConfig) (series_name : String) (timestamp : Int)
    (value : Rat) : ChartConfig :=
  let point : ChartDataPoint := { x := (timestamp : Rat), y := value }
  match find_series series_name chart.series with
  | some i =>
    update_bounds { chart with series := append_point point i chart.series } value
  | none =>
    let color := get_default_color (chart.series.length : Int)
    let chart := chart_add_series chart series_name (some color) true
    -- the series taken is the last of the list
    let i := chart.series.length - 1
    update_bounds { chart with series := append_point point i chart.series } value

/-- The element `g_list_nth` returns: the `int` index is converted to `guint`. -/
def g_list_nth (series : List ChartSeries) (n : Int) : Option ChartSeries :=
  series[(n % 2 ^ 32).toNat]?

/-- Function `chart_add_data`; `now` is the value `time(NULL)` returns. -/
def chart_add_data (config : ChartConfig) (series_index : Int) (value : Rat) (now : Int) :
    ChartConfig :=
  match g_list_nth config.series series_index with
  | none => config
  | some series => chart_add_point config series.label now value

/-- The series at position `i` with its data removed (`g_array_remove_range`). -/
def clear_at : Nat → List ChartSeries → List ChartSeries
  | _, [] => []
  | 0, s :: rest => { s with data := [] } :: rest
  | i + 1, s :: rest => s :: clear_at i rest

/-- Function `chart_clear_series`. -/
def chart_clear_series (config : ChartConfig) (series_index : Int) : ChartConfig :=
  match g_list_nth config.series series_index with
  | none => config
  | some _ => { config with series := clear_at (series_index % 2 ^ 32).toNat config.series }

/-- Function `chart_set_time_range`. -/
def chart_set_time_range (config : ChartConfig) (start finish : Int) : ChartConfig :=
  { config with min_x := (start : Rat), max_x := (finish : Rat) }

/-! ## Rendering of the series -/

/-- A call made on the cairo context. -/
inductive DrawOp where
  | set_source (color : GdkRGBA)
  | paint
  | set_line_width (w : Rat)
  | move_to (x y : Rat)
  | line_to (x y : Rat)
  | arc (x y radius : Rat)
  | rectangle (x y width height : Rat)
  | show_layout (text : String)
  | fill
  | stroke
deriving DecidableEq

/-- The mapping computation of the first two loops of `chart_draw_series`
(`(point->x - min_x) * width / (max_x - min_x)` and its counterpart for `y`); `none` when a
division has a zero divisor. -/
def map_point_mul_div (config : ChartConfig) (width height : Int) (point : ChartDataPoint) :
    Option (Rat × Rat) :=
  match checked_div ((point.x - config.min_x) * (width : Rat))
      (config.max_x - config.min_x) with
  | none => none
  | some x =>
    match checked_div ((point.y - config.min_y) * (height : Rat))
        (config.max_y - config.min_y) with
    | none => none
    | some q => some (x, (height : Rat) - q)

/-- The mapping computation of the third loop of `chart_draw_series`
(`((point->x - min_x) / (max_x - min_x)) * width` and its counterpart for `y`); `none` when
a division has a zero divisor. -/
def map_point_div_mul (config : ChartConfig) (width height : Int) (point : ChartDataPoint) :
    Option (Rat × Rat) :=
  match checked_div (point.x - config.min_x) (config.max_x - config.min_x) with
  | none => none
  | some qx =>
    match checked_div (point.y - config.min_y) (config.max_y - config.min_y) with
    | none => none
    | some qy => some (qx * (width : Rat), (height : Rat) - qy * (height : Rat))

/-- First loop of `chart_draw_series` (the line), with the mapping computation `map`: the
calls made and the final value of `first`. -/
def line_loop (map : ChartDataPoint → Option (Rat × Rat)) :
    Bool → List ChartDataPoint → Option (List DrawOp × Bool)
  | first, [] => some ([], first)
  | first, point :: rest =>
    match map point with
    | none => none
    | some (x, y) =>
      match line_loop map false rest with
      | none => none
      | some (ops, last) =>
        some ((if first then DrawOp.move_to x y else DrawOp.line_to x y) :: ops, last)

/-- Second loop of `chart_draw_series` (the point markers), with the mapping computation
`map`. -/
def points_loop (map : ChartDataPoint → Option (Rat × Rat)) :
    List ChartDataPoint → Option (List DrawOp)
  | [] => some []
  | point :: rest =>
    match map point with
    | none => none
    | some (x, y) =>
      match points_loop map rest with
      | none => none
      | some ops => some (DrawOp.arc x y 3 :: DrawOp.fill :: ops)

/-- Third loop of `chart_draw_series`, with the mapping computation `map`: the calls made and
the final value of `first`. -/
def path_loop (map : ChartDataPoint → Option (Rat × Rat)) (show_points : Bool) :
    Bool → List ChartDataPoint → Option (List DrawOp × Bool)
  | first, [] => some ([], first)
  | first, point :: rest =>
    match map point with
    | none => none
    | some (x, y) =>
      match path_loop map show_points false rest with
      | none => none
      | some (ops, last) =>
        some ((if first then DrawOp.move_to x y else DrawOp.line_to x y) ::
          ((if show_points then [DrawOp.arc x y (5 / 2), DrawOp.fill] else []) ++ ops), last)

/-- Body of the loop of `chart_draw_series` for one series, with the mapping computations
`map1` (first two loops) and `map2` (third loop). -/
def draw_one_series (map1 map2 : ChartDataPoint → Option (Rat × Rat)) (series : ChartSeries) :
    Option (List DrawOp) :=
  if series.visible && !series.data.isEmpty then
    match line_loop map1 true series.data with
    | none => none
    | some (line, first) =>
      match (if series.show_points then points_loop map1 series.data else some []) with
      | none => none
      | some markers =>
        match path_loop map2 series.show_points first series.data with
        | none => none
        | some (path, _) =>
          some ([DrawOp.set_source series.color, DrawOp.set_line_width 2] ++ line ++
            [DrawOp.stroke] ++ markers ++ path ++ [DrawOp.stroke])
  else some []

/-- The loop of `chart_draw_series` over the list of series. -/
def draw_series_list (map1 map2 : ChartDataPoint → Option (Rat × Rat)) :
    List ChartSeries → Option (List DrawOp)
  | [] => some []
  | series :: rest =>
    match draw_one_series map1 map2 series with
    | none => none
    | some ops =>
      match draw_series_list map1 map2 rest with
      | none => none
      | some more => some (ops ++ more)

/-- Function `chart_draw_series`: the calls made on the cairo context, `none` when a
division with a zero divisor is evaluated. -/
def chart_draw_series (config : ChartConfig) (width height : Int) : Option (List DrawOp) :=
  draw_series_list (map_point_mul_div config width height)
    (map_point_div_mul config width height) config.series

/-- Function `chart_draw_grid`: the background, then six vertical and six horizontal lines;
the positions `(width * i) / 5` and `(height * i) / 5` are quotients of `int` values. -/
def chart_draw_grid (config : ChartConfig) (width height : Int) : List DrawOp :=
  [DrawOp.set_source config.bg_color, DrawOp.paint, DrawOp.set_line_width (1 / 2),
    DrawOp.set_source config.grid_color] ++
  ((List.range 6).map (fun (i : Nat) =>
    let x : Int := Int.tdiv (width * (i : Int)) 5
    [DrawOp.move_to (x : Rat) 0, DrawOp.line_to (x : Rat) (height : Rat),
      DrawOp.stroke])).flatten ++
  ((List.range 6).map (fun (i : Nat) =>
    let y : Int := Int.tdiv (height * (i : Int)) 5
    [DrawOp.move_to 0 (y : Rat), DrawOp.line_to (width : Rat) (y : Rat),
      DrawOp.stroke])).flatten

/-- The count `visible_count` of `chart_draw_legend`. -/
def visible_count : List ChartSeries → Int
  | [] => 0
  | series :: rest => (if series.visible then 1 else 0) + visible_count rest

/-- Second loop of `chart_draw_legend`: one swatch and one label for each visible series,
`item_y` advancing by the height of an item. -/
def legend_items (config : ChartConfig) (legend_x : Int) : Int → List ChartSeries → List DrawOp
  | _, [] => []
  | item_y, series :: rest =>
    if series.visible then
      [DrawOp.set_source series.color,
        DrawOp.rectangle ((legend_x + 10 : Int) : Rat) (item_y : Rat) 12 12,
        DrawOp.fill,
        DrawOp.set_source config.text_color,
        DrawOp.move_to ((legend_x + 10 + 12 + 5 : Int) : Rat) ((item_y - 3 : Int) : Rat),
        DrawOp.show_layout series.label] ++
      legend_items config legend_x (item_y + 20) rest
    else legend_items config legend_x item_y rest

/-- Function `chart_draw_legend`. -/
def chart_draw_legend (config : ChartConfig) (width _height : Int) : List DrawOp :=
  if config.series.isEmpty then []
  else
    let count := visible_count config.series
    if count = 0 then []
    else
      let legend_width : Int := 150
      let legend_height : Int := count * 20 + 2 * 10
      let legend_x : Int := width - legend_width - 10
      let legend_y : Int := 10
      [DrawOp.set_source ⟨1 / 10, 1 / 10, 1 / 10, 8 / 10⟩,
        DrawOp.rectangle (legend_x : Rat) (legend_y : Rat) (legend_width : Rat)
          (legend_height : Rat),
        DrawOp.fill] ++
      legend_items config legend_x (legend_y + 10) config.series

/-- Function `chart_draw_cb`: the background, the grid, the series and the legend; `none`
when the drawing of the series evaluates a division with a zero divisor. -/
def chart_draw_cb (config : ChartConfig) (width height : Int) : Option (List DrawOp) :=
  match chart_draw_series config width height with
  | none => none
  | some series_ops =>
    some ([DrawOp.set_source config.bg_color, DrawOp.paint] ++
      chart_draw_grid config width height ++ series_ops ++
      chart_draw_legend config width height)

/-! ## Pan and zoom -/

/-- Comparison `a > b` of two `double` values: false when one is not a number. -/
def gt_num (a b : Option Rat) : Bool :=
  match a, b with
  | some x, some y => decide (x > y)
  | _, _ => false

/-- Comparison `a < b` of two `double` values: false when one is not a number. -/
def lt_num (a b : Option Rat) : Bool :=
  match a, b with
  | some x, some y => decide (x < y)
  | _, _ => false

/-- The clamp of both handlers: `if (pan > max_pan) pan = max_pan; if (pan < 0) pan = 0;`. -/
def clamp_pan (pan max_pan : Option Rat) : Option Rat :=
  let pan := if gt_num pan max_pan then max_pan else pan
  if lt_num pan (some 0) then some 0 else pan

/-- Function `chart_scroll_cb`: `direction_up` tells whether the direction is
`GDK_SCROLL_UP`, `event_x` is the pointer position and `widget_width` the allocated width. -/
def chart_scroll_cb (config : ChartConfig) (direction_up : Bool) (event_x : Rat)
    (widget_width : Int) : ChartConfig :=
  let zoom_factor : Rat := if direction_up then 11 / 10 else 9 / 10
  let new_zoom := config.zoom_level * zoom_factor
  let new_zoom := if new_zoom < 1 then 1 else new_zoom
  let new_zoom := if new_zoom > 20 then 20 else new_zoom
  if new_zoom ≠ config.zoom_level then
    let range := config.max_x - config.min_x
    let visible_range := checked_div range config.zoom_level
    let data_x : Option Rat :=
      (checked_div event_x (widget_width : Rat)).bind fun q =>
      visible_range.bind fun vr => some (config.min_x + q * vr)
    let new_visible_range := checked_div range new_zoom
    let pan : Option Rat :=
      data_x.bind fun dx =>
      new_visible_range.bind fun nvr =>
      visible_range.bind fun vr =>
      (checked_div nvr vr).bind fun ratio => some ((dx - config.min_x) * (1 - ratio))
    let max_pan : Option Rat :=
      (checked_div 1 new_zoom).bind fun inv => some (range * (1 - inv))
    { config with zoom_level := new_zoom, pan_offset := clamp_pan pan max_pan }
  else config

/-- The chart together with the static variable `last_x` of `chart_motion_notify_cb`. -/
structure ChartState where
  config : ChartConfig
  last_x : Rat
deriving DecidableEq

/-- Function `chart_motion_notify_cb`: `button1` tells whether `GDK_BUTTON1_MASK` is set in
the state of the event, `event_x` is the pointer position and `width` the allocated width. -/
def chart_motion_notify_cb (st : ChartState) (button1 : Bool) (event_x : Rat) (width : Int) :
    ChartState :=
  if button1 then
    let config := st.config
    let config :=
      if st.last_x > 0 then
        let dx := event_x - st.last_x
        let range := config.max_x - config.min_x
        let visible_range := checked_div range config.zoom_level
        let pan : Option Rat :=
          config.pan_offset.bind fun p =>
          visible_range.bind fun vr =>
          (checked_div vr (width : Rat)).bind fun step => some (p + dx * step)
        let max_pan : Option Rat :=
          (checked_div 1 config.zoom_level).bind fun inv => some (range * (1 - inv))
        { config with pan_offset := clamp_pan pan max_pan }
      else config
    { config := config, last_x := event_x }
  else st

/-- The calls and events a chart receives. -/
inductive ChartEvent where
  | add_series (label : String) (color : Option GdkRGBA) (show_points : Bool)
  | add_point (series_name : String) (timestamp : Int) (value : Rat)
  | add_data (series_index : Int) (value : Rat) (now : Int)
  | clear_series (series_index : Int)
  | set_time_range (start finish : Int)
  | scroll (direction_up : Bool) (event_x : Rat) (widget_width : Int)
  | motion (button1 : Bool) (event_x : Rat) (width : Int)

/-- One call or event applied to the state of a chart. -/
def step (st : ChartState) : ChartEvent → ChartState
  | ChartEvent.add_series label color show_points =>
    { st with config := chart_add_series st.config label color show_points }
  | ChartEvent.add_point series_name timestamp value =>
    { st with config := chart_add_point st.config series_name timestamp value }
  | ChartEvent.add_data series_index value now =>
    { st with config := chart_add_data st.config series_index value now }
  | ChartEvent.clear_series series_index =>
    { st with config := chart_clear_series st.config series_index }
  | ChartEvent.set_time_range start finish =>
    { st with config := chart_set_time_range st.config start finish }
  | ChartEvent.scroll direction_up event_x widget_width =>
    { st with config := chart_scroll_cb st.config direction_up event_x widget_width }
  | ChartEvent.motion button1 event_x width =>
    chart_motion_notify_cb st button1 event_x width

/-- The state after `chart_config_new` followed by the calls and events `events`. -/
def run (events : List ChartEvent) : ChartState :=
  events.foldl step { config := chart_config_new, last_x := 0 }

/-! ## Reference notions and concrete inputs -/

/-- The coordinate mapping of the design: `(x - min_x) / (max_x - min_x) * width`. -/
def screen_x (config : ChartConfig) (width : Int) (x : Rat) : Rat :=
  (x - config.min_x) / (config.max_x - config.min_x) * (width : Rat)

/-- The coordinate mapping of the design:
`height - (y - min_y) / (max_y - min_y) * height`. -/
def screen_y (config : ChartConfig) (height : Int) (y : Rat) : Rat :=
  (height : Rat) - (y - config.min_y) / (config.max_y - config.min_y) * (height : Rat)

/-- The zoom level `chart_scroll_cb` computes: the product with the factor, limited to
`[1, 20]`. -/
def clamped_zoom (config : ChartConfig) (direction_up : Bool) : Rat :=
  let new_zoom := config.zoom_level * (if direction_up then 11 / 10 else 9 / 10)
  let new_zoom := if new_zoom < 1 then 1 else new_zoom
  if new_zoom > 20 then 20 else new_zoom

/-- The data x-value under the pixel `p` of a widget `width` wide, as the pivot property
reads it: `min_x + pan_offset + (p / width) * range / zoom_level`; `none` when the pan
offset is not a number. -/
def data_at_pixel (config : ChartConfig) (width : Int) (p : Rat) : Option Rat :=
  config.pan_offset.map fun pan =>
    config.min_x + pan + p / (width : Rat) * ((config.max_x - config.min_x) / config.zoom_level)

/-- The mapping of a point by the two formulas of the design. -/
def plot (config : ChartConfig) (width height : Int) (point : ChartDataPoint) :
    Option (Rat × Rat) :=
  some (screen_x config width point.x, screen_y config height point.y)

/-- Number of series of the chart that bear `label`. -/
def label_count (config : ChartConfig) (label : String) : Nat :=
  (config.series.filter (fun s => s.label = label)).length

/-- Whether a call draws part of a series or of the legend: every call other than those of
the background and of the grid lines. -/
def DrawOp.beyond_grid : DrawOp → Bool
  | DrawOp.arc _ _ _ => true
  | DrawOp.rectangle _ _ _ _ => true
  | DrawOp.show_layout _ => true
  | DrawOp.fill => true
  | _ => false

/-- A new chart with one series `a` that has no data, as left by `chart_add_series`. -/
def empty_series_chart : ChartConfig :=
  chart_add_series chart_config_new "a" none true

/-- A new chart with the time range `[0, 1000]`, as left by
`chart_set_time_range(c, 0, 1000)`. -/
def ranged_chart : ChartConfig :=
  chart_set_time_range chart_config_new 0 1000

/-- The chart `ranged_chart` after a scroll up at pixel 0 of a widget 600 wide. -/
def zoomed_left_chart : ChartConfig :=
  chart_scroll_cb ranged_chart true 0 600

/-- The chart `ranged_chart` after a scroll up at pixel 600 of a widget 600 wide. -/
def zoomed_right_chart : ChartConfig :=
  chart_scroll_cb ranged_chart true 600 600

/-- A chart with one point whose time range is the single instant 7, as left by
`chart_set_time_range(c, 7, 7)`. -/
def instant_chart : ChartConfig :=
  chart_set_time_range (chart_add_point chart_config_new "a" 5 2) 7 7

/-- A new chart whose time range is the single instant 5, as left by
`chart_set_time_range(c, 5, 5)`. -/
def collapsed_chart : ChartConfig :=
  chart_set_time_range chart_config_new 5 5

/-- The state after `chart_set_time_range(c, 0, 1000)` on a new chart, a scroll up at pixel 0
and a motion event with button 1 held at position 100, on a widget 600 wide: zoom 1.1, pan
0 and the pointer last seen at position 100. -/
def dragging_zoomed_state : ChartState :=
  run [ChartEvent.set_time_range 0 1000, ChartEvent.scroll true 0 600,
    ChartEvent.motion true 100 600]

/-- A chart with the two series `fast` and `slow`, the second holding one point. -/
def two_series_chart : ChartConfig :=
  { chart_config_new with
    series :=
      [ { label := "fast", color := ⟨1, 0, 0, 1⟩, data := [], show_points := true,
          visible := true },
        { label := "slow", color := ⟨0, 1, 0, 1⟩, data := [⟨100, 7⟩], show_points := false,
          visible := true } ] }

end Chart

namespace Arith

/-! ## Lemmas on the checked division -/

theorem checked_div_of_ne (a b : Rat) (h : b ≠ 0) : checked_div a b = some (a / b) := by
  simp [checked_div, h]

theorem checked_div_zero (a : Rat) : checked_div a 0 = none := by
  simp [checked_div]

theorem checked_div_eq_none_iff (a b : Rat) : checked_div a b = none ↔ b = 0 := by
  unfold checked_div
  split <;> simp [*]

end Arith

namespace Terminal

/-! ## Lemmas on the history buffer -/

theorem push_all_nil (h : FeeHistory) : push_all h [] = h := rfl

theorem push_all_cons (h : FeeHistory) (p : FeeHistoryPoint) (ps : List FeeHistoryPoint) :
    push_all h (p :: ps) =
      push_all (add_to_history h p.fastest p.halfHour p.hour p.timestamp) ps := rfl

theorem push_all_append (h : FeeHistory) (ps qs : List FeeHistoryPoint) :
    push_all h (ps ++ qs) = push_all (push_all h ps) qs := by
  simp [push_all, List.foldl_append]

theorem add_to_history_capacity (h : FeeHistory) (a b c : Rat) (t : Int) :
    (add_to_history h a b c t).capacity = h.capacity := by
  unfold add_to_history
  split <;> rfl

theorem add_to_history_size (h : FeeHistory) (a b c : Rat) (t : Int)
    (hle : h.size ≤ h.capacity) :
    (add_to_history h a b c t).size = min (h.size + 1) h.capacity := by
  unfold add_to_history
  split
  · simp only []
    omega
  · simp only []
    omega

theorem push_all_size (ps : List FeeHistoryPoint) (h : FeeHistory)
    (hle : h.size ≤ h.capacity) :
    (push_all h ps).size = min (h.size + (ps.length : Int)) h.capacity ∧
      (push_all h ps).capacity = h.capacity := by
  induction ps generalizing h with
  | nil => simp [push_all_nil, hle]
  | cons p ps ih =>
    rw [push_all_cons]
    have hs := add_to_history_size h p.fastest p.halfHour p.hour p.timestamp hle
    have hc := add_to_history_capacity h p.fastest p.halfHour p.hour p.timestamp
    have hle2 : (add_to_history h p.fastest p.halfHour p.hour p.timestamp).size ≤
        (add_to_history h p.fastest p.halfHour p.hour p.timestamp).capacity := by
      rw [hs, hc]; omega
    obtain ⟨h1, h2⟩ := ih _ hle2
    rw [hs, hc] at h1
    rw [hc] at h2
    refine ⟨?_, h2⟩
    rw [h1]
    simp only [List.length_cons, Nat.cast_add, Nat.cast_one]
    omega

theorem tmod_toNat (a b : Nat) : ((a : Int).tmod (b : Int)).toNat = a % b := by
  rw [← Int.ofNat_tmod, Int.toNat_ofNat]

theorem init_partInv (mem : Nat → FeeHistoryPoint) (N : Nat) :
    PartInv (init_fee_history mem (N : Int)) N [] := by
  refine ⟨rfl, rfl, rfl, (List.range N).map mem, ?_, ?_⟩
  · simp [init_fee_history]
  · simp

theorem add_partInv (h : FeeHistory) (N : Nat) (ps : List FeeHistoryPoint)
    (p : FeeHistoryPoint) (hinv : PartInv h N ps) (hlt : ps.length < N) :
    PartInv (add_to_history h p.fastest p.halfHour p.hour p.timestamp) N (ps ++ [p]) := by
  obtain ⟨hc, hs, hcur, J, hp, hlen⟩ := hinv
  have hlt2 : h.size < h.capacity := by rw [hc, hs]; exact_mod_cast hlt
  cases J with
  | nil => simp at hlen; omega
  | cons j J =>
    unfold add_to_history
    rw [if_pos hlt2]
    refine ⟨hc, ?_, hcur, J, ?_, ?_⟩
    · simp only [hs, List.length_append, List.length_singleton, Nat.cast_add, Nat.cast_one]
    · simp only [hs, hp, Int.toNat_ofNat]
      rw [List.set_append_right _ _ (le_refl _)]
      simp
    · simp only [List.length_append, List.length_cons, List.length_nil] at hlen ⊢
      omega

theorem push_all_partInv (qs : List FeeHistoryPoint) (h : FeeHistory) (N : Nat)
    (ps : List FeeHistoryPoint) (hinv : PartInv h N ps) (hlen : ps.length + qs.length ≤ N) :
    PartInv (push_all h qs) N (ps ++ qs) := by
  induction qs generalizing h ps with
  | nil => simpa [push_all_nil] using hinv
  | cons q qs ih =>
    rw [push_all_cons]
    simp only [List.length_cons] at hlen
    have h1 := add_partInv h N ps q hinv (by omega)
    have h2 := ih _ (ps ++ [q]) h1 (by simp; omega)
    simpa using h2

theorem partInv_full (h : FeeHistory) (N : Nat) (ps : List FeeHistoryPoint)
    (hinv : PartInv h N ps) (hN : 1 ≤ N) (hlen : ps.length = N) : FullInv h N ps := by
  obtain ⟨hc, hs, hcur, J, hp, hl⟩ := hinv
  have hJ : J = [] := List.length_eq_zero.mp (by omega)
  subst hJ
  refine ⟨hc, by rw [hs, hlen], ps, [], ?_, by simpa using hp, by simpa using hcur,
    by simp, by simpa using hlen⟩
  intro hnil
  rw [hnil] at hlen
  simp at hlen
  omega

theorem add_fullInv (h : FeeHistory) (N : Nat) (chron : List FeeHistoryPoint)
    (p : FeeHistoryPoint) (hinv : FullInv h N chron) :
    FullInv (add_to_history h p.fastest p.halfHour p.hour p.timestamp) N
      (chron.tail ++ [p]) := by
  obtain ⟨hc, hs, A, B, hA, hp, hcur, hch, hl⟩ := hinv
  have hge : ¬ h.size < h.capacity := by rw [hc, hs]; exact lt_irrefl _
  cases A with
  | nil => exact absurd rfl hA
  | cons a A =>
    unfold add_to_history
    rw [if_neg hge]
    simp only [List.length_cons] at hl
    have hset : h.points.set h.current.toNat p = (B ++ [p]) ++ A := by
      rw [hp, hcur, Int.toNat_ofNat, List.set_append_right _ _ (le_refl _)]
      simp
    have hpe : (⟨p.fastest, p.halfHour, p.hour, p.timestamp⟩ : FeeHistoryPoint) = p := rfl
    rw [hpe]
    refine ⟨hc, hs, ?_⟩
    simp only []
    rw [hset, hcur, hc]
    cases A with
    | nil =>
      have hB : B.length + 1 = N := by
        simp only [List.length_nil] at hl
        omega
      refine ⟨B ++ [p], [], by simp, by simp, ?_, by simp [hch], by simpa using hB⟩
      have : ((B.length : Int) + 1).tmod (N : Int) = 0 := by
        have h1 : ((B.length : Int) + 1) = ((B.length + 1 : Nat) : Int) := by push_cast; rfl
        rw [h1, hB, ← Int.ofNat_tmod, Nat.mod_self]
        rfl
      simpa using this
    | cons a2 A =>
      refine ⟨a2 :: A, B ++ [p], by simp, rfl, ?_, by simp [hch], ?_⟩
      · simp only [List.length_cons] at hl
        have h1 : ((B.length : Int) + 1) = ((B.length + 1 : Nat) : Int) := by push_cast; rfl
        rw [h1, ← Int.ofNat_tmod, Nat.mod_eq_of_lt (by omega)]
        simp
      · simp only [List.length_cons, List.length_append, List.length_nil] at hl ⊢
        omega

theorem fullInv_length (h : FeeHistory) (N : Nat) (chron : List FeeHistoryPoint)
    (hinv : FullInv h N chron) : chron.length = N ∧ 1 ≤ N := by
  obtain ⟨_, _, A, B, hA, _, _, hch, hl⟩ := hinv
  refine ⟨by simp [hch, hl], ?_⟩
  cases A with
  | nil => exact absurd rfl hA
  | cons a A => simp only [List.length_cons] at hl; omega

theorem push_all_fullInv (qs : List FeeHistoryPoint) (h : FeeHistory) (N : Nat)
    (chron : List FeeHistoryPoint) (hinv : FullInv h N chron) :
    FullInv (push_all h qs) N ((chron ++ qs).drop qs.length) := by
  induction qs generalizing h chron with
  | nil => simpa [push_all_nil] using hinv
  | cons q qs ih =>
    rw [push_all_cons]
    have h1 := add_fullInv h N chron q hinv
    have h2 := ih _ _ h1
    obtain ⟨hlen, hN⟩ := fullInv_length h N chron hinv
    cases chron with
    | nil => simp at hlen; omega
    | cons c cs => simpa using h2

theorem read_from_cursor_fullInv (h : FeeHistory) (N : Nat) (chron : List FeeHistoryPoint)
    (hinv : FullInv h N chron) : read_from_cursor h = chron.map some := by
  obtain ⟨hc, hs, A, B, hA, hp, hcur, hch, hl⟩ := hinv
  unfold read_from_cursor
  rw [hc, hp, hcur, hch, Int.toNat_ofNat]
  apply List.ext_getElem?
  intro i
  rw [List.getElem?_map, List.getElem?_map]
  by_cases hi : i < N
  · rw [List.getElem?_range hi]
    simp only [Option.map_some']
    have h1 : ((B.length : Int) + (i : Int)) = ((B.length + i : Nat) : Int) := by push_cast; rfl
    rw [h1, tmod_toNat]
    by_cases hiA : i < A.length
    · rw [Nat.mod_eq_of_lt (by omega), List.getElem?_append_right (by omega),
        List.getElem?_append_left hiA]
      have h2 : B.length + i - B.length = i := by omega
      rw [h2]
      rw [List.getElem?_eq_getElem hiA]
      rfl
    · have h3 : (B.length + i) % N = i - A.length := by
        rw [Nat.mod_eq_sub_mod (by omega), Nat.mod_eq_of_lt (by omega)]
        omega
      rw [h3, List.getElem?_append_left (by omega), List.getElem?_append_right (by omega)]
      rw [List.getElem?_eq_getElem (by omega)]
      rfl
  · have h4 : (List.range N)[i]? = none := by
      rw [List.getElem?_eq_none_iff]; simpa using hi
    have h5 : (A ++ B)[i]? = none := by
      rw [List.getElem?_eq_none_iff]; simp; omega
    rw [h4, h5]
    rfl

/-! ## Lemmas on the fetcher -/

theorem selected_item_eq (json : cJSON) (p f : String) :
    (if (cJSON_GetObjectItemCaseSensitive json p).isNone then
        cJSON_GetObjectItemCaseSensitive json f
      else cJSON_GetObjectItemCaseSensitive json p) = selected_item json p f := by
  unfold selected_item
  cases cJSON_GetObjectItemCaseSensitive json p <;> simp

theorem fee_request_spec (env : Env) (src : DataSource) (fd : FeeData) (hinit : env.curl_init = true) :
    match provider_fees env src with
    | some (a, b, c) => fee_request env src fd =
        (1, { fd with fastestFee := a, halfHourFee := b, hourFee := c })
    | none => fee_request env src fd = (0, fd) := by
  unfold provider_fees fee_request
  simp only [selected_item_eq, hinit, if_true]
  cases env.http src.fee_url with
  | none => simp
  | some json =>
    simp only []
    rcases h1 : selected_item json "fastestFee" "2" with _ | (_ | _ | a | _ | _ | _) <;>
    rcases h2 : selected_item json "halfHourFee" "6" with _ | (_ | _ | b | _ | _ | _) <;>
    rcases h3 : selected_item json "hourFee" "144" with _ | (_ | _ | c | _ | _ | _) <;>
    simp [cJSON_IsNumber, ptr_valuedouble, valuedouble]

theorem save_to_cache_frame (env : Env) (d : FeeData) (st : State) :
    (save_to_cache env d st).2.tried = st.tried ∧
      (save_to_cache env d st).2.current_source = st.current_source := by
  unfold save_to_cache
  cases env.fopen_w <;> simp

theorem fetch_from_source_tried (env : Env) (src : DataSource) (fd : FeeData) (st : State) :
    (fetch_from_source env src fd st).2.2.tried = st.tried ++ [src.name] ∧
    (fetch_from_source env src fd st).2.2.current_source = st.current_source := by
  unfold fetch_from_source
  cases env.curl_init
  · simp
  · simp only [Bool.not_true, Bool.false_eq_true, if_false]
    generalize fee_request env src _ = r
    by_cases h : r.1 = 0
    · simp [h]
    · simp only [ne_eq, h, not_false_eq_true, if_true]
      rw [(save_to_cache_frame _ _ _).1, (save_to_cache_frame _ _ _).2]
      simp

theorem mempool_request_frame (env : Env) (url : String) (fd : FeeData) :
    (mempool_request env url fd).fastestFee = fd.fastestFee ∧
      (mempool_request env url fd).halfHourFee = fd.halfHourFee ∧
      (mempool_request env url fd).hourFee = fd.hourFee ∧
      (mempool_request env url fd).timestamp = fd.timestamp := by
  unfold mempool_request
  cases env.http url with
  | none => simp
  | some json =>
    simp only []
    generalize (if (cJSON_GetObjectItemCaseSensitive json "count").isNone = true then _
      else _) = count
    generalize (if (cJSON_GetObjectItemCaseSensitive json "vsize").isNone = true then _
      else _) = vsize
    cases cJSON_IsNumber count <;> cases cJSON_IsNumber vsize <;> simp

theorem fetch_btc_price_frame (env : Env) (fd : FeeData) :
    (fetch_btc_price env fd).2.fastestFee = fd.fastestFee ∧
      (fetch_btc_price env fd).2.halfHourFee = fd.halfHourFee ∧
      (fetch_btc_price env fd).2.hourFee = fd.hourFee ∧
      (fetch_btc_price env fd).2.timestamp = fd.timestamp := by
  unfold fetch_btc_price
  cases env.curl_init
  · simp
  · simp only [Bool.not_true, Bool.false_eq_true, if_false]
    cases env.http COINGECKO_URL with
    | none => simp
    | some json =>
      simp only []
      cases cJSON_GetObjectItemCaseSensitive json "bitcoin" with
      | none => simp
      | some bitcoin =>
        simp only []
        split <;> simp

theorem mempool_request_fastestFee (env : Env) (url : String) (fd : FeeData) :
    (mempool_request env url fd).fastestFee = fd.fastestFee :=
  (mempool_request_frame env url fd).1

theorem mempool_request_halfHourFee (env : Env) (url : String) (fd : FeeData) :
    (mempool_request env url fd).halfHourFee = fd.halfHourFee :=
  (mempool_request_frame env url fd).2.1

theorem mempool_request_hourFee (env : Env) (url : String) (fd : FeeData) :
    (mempool_request env url fd).hourFee = fd.hourFee :=
  (mempool_request_frame env url fd).2.2.1

theorem fetch_btc_price_fastestFee (env : Env) (fd : FeeData) :
    (fetch_btc_price env fd).2.fastestFee = fd.fastestFee :=
  (fetch_btc_price_frame env fd).1

theorem fetch_btc_price_halfHourFee (env : Env) (fd : FeeData) :
    (fetch_btc_price env fd).2.halfHourFee = fd.halfHourFee :=
  (fetch_btc_price_frame env fd).2.1

theorem fetch_btc_price_hourFee (env : Env) (fd : FeeData) :
    (fetch_btc_price env fd).2.hourFee = fd.hourFee :=
  (fetch_btc_price_frame env fd).2.2.1

/-- What `fetch_from_source` returns, in terms of the triplet the provider hands out. -/
theorem fetch_from_source_spec (env : Env) (src : DataSource) (fd : FeeData) (st : State) :
    match provider_fees env src with
    | some (a, b, c) =>
      (fetch_from_source env src fd st).1 = 1 ∧
        (fetch_from_source env src fd st).2.1.fastestFee = a ∧
        (fetch_from_source env src fd st).2.1.halfHourFee = b ∧
        (fetch_from_source env src fd st).2.1.hourFee = c
    | none => (fetch_from_source env src fd st).1 = 0 := by
  cases hinit : env.curl_init
  · have hp : provider_fees env src = none := by simp [provider_fees, hinit]
    rw [hp]
    simp [fetch_from_source, hinit]
  · have hf := fee_request_spec env src { fd with timestamp := env.clock st.ticks } hinit
    unfold fetch_from_source
    simp only [hinit, Bool.not_true, Bool.false_eq_true, if_false]
    cases hp : provider_fees env src with
    | none =>
      rw [hp] at hf
      simp only [] at hf
      rw [hf]
    | some t =>
      obtain ⟨a, b, c⟩ := t
      rw [hp] at hf
      simp only [] at hf
      rw [hf]
      simp only [ne_eq, one_ne_zero, not_false_eq_true, if_true, decide_True, Bool.true_and]
      cases src.mempool_url <;> cases src.price_url <;>
        simp [mempool_request_fastestFee, mempool_request_halfHourFee, mempool_request_hourFee,
          fetch_btc_price_fastestFee, fetch_btc_price_halfHourFee, fetch_btc_price_hourFee]

/-! ## Lemmas on the cache store -/

theorem load_from_cache_parsed (d : FeeData) (st : State) (root : cJSON)
    (hc : st.cache = CacheFile.parsed root) :
    load_from_cache d st = (1,
      if_item (cJSON_GetObjectItem root "timestamp")
        (fun item x => { x with timestamp := trunc (valuedouble item) })
      (if_item (cJSON_GetObjectItem root "btc_price_eur")
        (fun item x => { x with btc_price_eur := valuedouble item })
      (if_item (cJSON_GetObjectItem root "btc_price_usd")
        (fun item x => { x with btc_price_usd := valuedouble item })
      (if_item (cJSON_GetObjectItem root "mempoolSizeMB")
        (fun item x => { x with mempoolSizeMB := valuedouble item })
      (if_item (cJSON_GetObjectItem root "blocks")
        (fun item x => { x with blocks := valueint item })
      (if_item (cJSON_GetObjectItem root "hourFee")
        (fun item x => { x with hourFee := valuedouble item })
      (if_item (cJSON_GetObjectItem root "halfHourFee")
        (fun item x => { x with halfHourFee := valuedouble item })
      (if_item (cJSON_GetObjectItem root "fastestFee")
        (fun item x => { x with fastestFee := valuedouble item }) d)))))))) := by
  unfold load_from_cache
  rw [hc]
  rfl

theorem if_item_proj {β : Type} (π : FeeData → β) (o : Option cJSON)
    (set : cJSON → FeeData → FeeData) (d : FeeData) (h : ∀ i x, π (set i x) = π x) :
    π (if_item o set d) = π d := by
  cases o with
  | none => rfl
  | some i => exact h i d

theorem if_item_set {β : Type} (π : FeeData → β) (o : Option cJSON) (v : cJSON → β)
    (set : cJSON → FeeData → FeeData) (d : FeeData) (h : ∀ i x, π (set i x) = v i) :
    π (if_item o set d) = (match o with
      | some i => v i
      | none => π d) := by
  cases o with
  | none => rfl
  | some i => exact h i d

theorem load_fields (d : FeeData) (st : State) (root : cJSON) (hc : st.cache = CacheFile.parsed root) :
    (load_from_cache d st).1 = 1 ∧
    (load_from_cache d st).2.fastestFee =
      (match cJSON_GetObjectItem root "fastestFee" with
        | some item => valuedouble item
        | none => d.fastestFee) ∧
    (load_from_cache d st).2.halfHourFee =
      (match cJSON_GetObjectItem root "halfHourFee" with
        | some item => valuedouble item
        | none => d.halfHourFee) ∧
    (load_from_cache d st).2.hourFee =
      (match cJSON_GetObjectItem root "hourFee" with
        | some item => valuedouble item
        | none => d.hourFee) ∧
    (load_from_cache d st).2.timestamp =
      (match cJSON_GetObjectItem root "timestamp" with
        | some item => trunc (valuedouble item)
        | none => d.timestamp) := by
  rw [load_from_cache_parsed d st root hc]
  refine ⟨rfl, ?_, ?_, ?_, ?_⟩
  · simp only []
    iterate 7 (rw [if_item_proj FeeData.fastestFee]; swap; exact fun _ _ => rfl)
    rw [if_item_set FeeData.fastestFee _ valuedouble]
    exact fun _ _ => rfl
  · simp only []
    iterate 6 (rw [if_item_proj FeeData.halfHourFee]; swap; exact fun _ _ => rfl)
    rw [if_item_set FeeData.halfHourFee _ valuedouble, if_item_proj FeeData.halfHourFee]
    all_goals exact fun _ _ => rfl
  · simp only []
    iterate 5 (rw [if_item_proj FeeData.hourFee]; swap; exact fun _ _ => rfl)
    rw [if_item_set FeeData.hourFee _ valuedouble, if_item_proj FeeData.hourFee,
      if_item_proj FeeData.hourFee]
    all_goals exact fun _ _ => rfl
  · simp only []
    rw [if_item_set FeeData.timestamp _ (fun i => trunc (valuedouble i))]; swap
    · exact fun _ _ => rfl
    iterate 6 (rw [if_item_proj FeeData.timestamp]; swap; exact fun _ _ => rfl)
    rw [if_item_proj FeeData.timestamp]
    exact fun _ _ => rfl

theorem trunc_intCast (n : Int) : trunc (n : Rat) = n := by
  simp [trunc]

theorem valueint_intCast (n : Int) (h1 : INT_MIN ≤ n) (h2 : n ≤ INT_MAX) :
    valueint (cJSON.number (n : Rat)) = n := by
  unfold valueint
  simp only []
  split_ifs with h3 h4
  · have : INT_MAX ≤ n := by exact_mod_cast h3
    omega
  · have : n ≤ INT_MIN := by exact_mod_cast h4
    omega
  · exact trunc_intCast n

/-! ## Lemmas on the fallback loop -/

theorem fetch_loop_done (env : Env) (n : Nat) (s : Int) (fd : FeeData) (st : State)
    (hs : s ≠ 0) : fetch_loop env n s fd st = (s, fd, st) := by
  cases n <;> simp [fetch_loop, hs]

theorem fetch_loop_step (env : Env) (n : Nat) (fd : FeeData) (st : State) :
    fetch_loop env (n + 1) 0 fd st =
      fetch_loop env n
        (fetch_from_source env (data_source_at ((st.current_source + 1).tmod MAX_SOURCES)) fd
          { st with current_source := (st.current_source + 1).tmod MAX_SOURCES }).1
        (fetch_from_source env (data_source_at ((st.current_source + 1).tmod MAX_SOURCES)) fd
          { st with current_source := (st.current_source + 1).tmod MAX_SOURCES }).2.1
        (fetch_from_source env (data_source_at ((st.current_source + 1).tmod MAX_SOURCES)) fd
          { st with current_source := (st.current_source + 1).tmod MAX_SOURCES }).2.2 := by
  simp [fetch_loop]

theorem tried_source_zero (c : Int) (h0 : 0 ≤ c) :
    (c + 1).tmod MAX_SOURCES = tried_source c 0 := by
  unfold tried_source MAX_SOURCES
  rw [Int.tmod_eq_emod (by omega) (by norm_num)]
  simp

theorem tried_source_nonneg (c : Int) (j : Nat) : 0 ≤ tried_source c j := by
  unfold tried_source MAX_SOURCES
  omega

theorem tried_source_lt (c : Int) (j : Nat) : tried_source c j < MAX_SOURCES := by
  unfold tried_source MAX_SOURCES
  omega

theorem tried_source_succ (c : Int) (j : Nat) :
    tried_source (tried_source c 0) j = tried_source c (j + 1) := by
  unfold tried_source MAX_SOURCES
  push_cast
  omega

theorem tried_names_succ (c : Int) (n : Nat) :
    tried_names c (n + 1) =
      (data_source_at (tried_source c 0)).name :: tried_names (tried_source c 0) n := by
  unfold tried_names
  rw [List.range_succ_eq_map, List.map_cons, List.map_map]
  congr 1
  apply List.map_congr_left
  intro j _
  simp only [Function.comp, Nat.succ_eq_add_one]
  rw [tried_source_succ]

theorem fetch_loop_success (env : Env) (a b d : Rat) (n : Nat) :
    ∀ (j : Nat) (fd : FeeData) (st : State), 0 ≤ st.current_source → j < n →
      (∀ i, i < j →
        provider_fees env (data_source_at (tried_source st.current_source i)) = none) →
      provider_fees env (data_source_at (tried_source st.current_source j)) = some (a, b, d) →
      (fetch_loop env n 0 fd st).1 = 1 ∧
        (fetch_loop env n 0 fd st).2.2.current_source = tried_source st.current_source j ∧
        (fetch_loop env n 0 fd st).2.2.tried =
          st.tried ++ tried_names st.current_source (j + 1) ∧
        (fetch_loop env n 0 fd st).2.1.fastestFee = a ∧
        (fetch_loop env n 0 fd st).2.1.halfHourFee = b ∧
        (fetch_loop env n 0 fd st).2.1.hourFee = d := by
  induction n with
  | zero => intro j fd st _ hj; omega
  | succ n ih =>
    intro j fd st h0 hj hprev hj_ok
    rw [fetch_loop_step, tried_source_zero _ h0]
    have hspec := fetch_from_source_spec env (data_source_at (tried_source st.current_source 0))
      fd { st with current_source := tried_source st.current_source 0 }
    have hfr := fetch_from_source_tried env (data_source_at (tried_source st.current_source 0))
      fd { st with current_source := tried_source st.current_source 0 }
    cases j with
    | zero =>
      rw [hj_ok] at hspec
      simp only [] at hspec
      rw [fetch_loop_done _ _ _ _ _ (by rw [hspec.1]; decide)]
      refine ⟨hspec.1, hfr.2, ?_, hspec.2.1, hspec.2.2.1, hspec.2.2.2⟩
      rw [hfr.1]
      simp [tried_names, List.range_succ]
    | succ j =>
      rw [hprev 0 (by omega)] at hspec
      simp only [] at hspec
      rw [hspec]
      have hcur := hfr.2
      simp only [] at hcur
      have h := ih j
        (fetch_from_source env (data_source_at (tried_source st.current_source 0)) fd
          { st with current_source := tried_source st.current_source 0 }).2.1
        (fetch_from_source env (data_source_at (tried_source st.current_source 0)) fd
          { st with current_source := tried_source st.current_source 0 }).2.2
        (by rw [hcur]; exact tried_source_nonneg _ _) (by omega)
        (by
          intro i hi
          rw [hcur, tried_source_succ]
          exact hprev (i + 1) (by omega))
        (by rw [hcur, tried_source_succ]; exact hj_ok)
      rw [hcur, tried_source_succ, hfr.1] at h
      refine ⟨h.1, h.2.1, ?_, h.2.2.2⟩
      rw [h.2.2.1, tried_names_succ st.current_source (j + 1)]
      simp

theorem fetch_loop_failure (env : Env) (n : Nat) :
    ∀ (fd : FeeData) (st : State), 0 ≤ st.current_source →
      (∀ i, i < n →
        provider_fees env (data_source_at (tried_source st.current_source i)) = none) →
      (fetch_loop env n 0 fd st).1 = 0 ∧
        (fetch_loop env n 0 fd st).2.2.tried = st.tried ++ tried_names st.current_source n := by
  induction n with
  | zero => intro fd st _ _; simp [fetch_loop, tried_names]
  | succ n ih =>
    intro fd st h0 hall
    rw [fetch_loop_step, tried_source_zero _ h0]
    have hspec := fetch_from_source_spec env (data_source_at (tried_source st.current_source 0))
      fd { st with current_source := tried_source st.current_source 0 }
    have hfr := fetch_from_source_tried env (data_source_at (tried_source st.current_source 0))
      fd { st with current_source := tried_source st.current_source 0 }
    rw [hall 0 (by omega)] at hspec
    simp only [] at hspec
    rw [hspec]
    have hcur := hfr.2
    simp only [] at hcur
    have h := ih
      (fetch_from_source env (data_source_at (tried_source st.current_source 0)) fd
        { st with current_source := tried_source st.current_source 0 }).2.1
      (fetch_from_source env (data_source_at (tried_source st.current_source 0)) fd
        { st with current_source := tried_source st.current_source 0 }).2.2
      (by rw [hcur]; exact tried_source_nonneg _ _)
      (by
        intro i hi
        rw [hcur, tried_source_succ]
        exact hall (i + 1) (by omega))
    rw [hcur, hfr.1] at h
    refine ⟨h.1, ?_⟩
    rw [h.2, tried_names_succ st.current_source n]
    simp

/-- With no fresh cache, `fetch_fee_data` is the fallback loop run from a state that differs
from the entry state in the clock readings only. -/
theorem fetch_fee_data_stale (env : Env) (fd : FeeData) (st : State)
    (hstale : (load_from_cache fd st).1 = 0 ∨
      300 ≤ env.clock st.ticks - (load_from_cache fd st).2.timestamp) :
    ∃ fd1 k, fetch_fee_data env fd st =
      fetch_loop env MAX_SOURCES.toNat 0 fd1 { st with ticks := k } := by
  unfold fetch_fee_data
  by_cases h : (load_from_cache fd st).1 = 0
  · refine ⟨fd, st.ticks, ?_⟩
    simp [h]
  · rcases hstale with h1 | h1
    · exact absurd h1 h
    · refine ⟨(load_from_cache fd st).2, st.ticks + 1, ?_⟩
      have h2 : ¬ env.clock st.ticks - (load_from_cache fd st).2.timestamp < 300 := by omega
      simp [h, h2]

theorem fetch_loop_tried_extends (env : Env) (n : Nat) :
    ∀ (s : Int) (fd : FeeData) (st : State),
      ∃ rest, (fetch_loop env n s fd st).2.2.tried = st.tried ++ rest := by
  induction n with
  | zero => intro s fd st; exact ⟨[], by simp [fetch_loop]⟩
  | succ n ih =>
    intro s fd st
    by_cases hs : s = 0
    · subst hs
      rw [fetch_loop_step]
      obtain ⟨rest, hrest⟩ := ih
        (fetch_from_source env (data_source_at ((st.current_source + 1).tmod MAX_SOURCES)) fd
          { st with current_source := (st.current_source + 1).tmod MAX_SOURCES }).1
        (fetch_from_source env (data_source_at ((st.current_source + 1).tmod MAX_SOURCES)) fd
          { st with current_source := (st.current_source + 1).tmod MAX_SOURCES }).2.1
        (fetch_from_source env (data_source_at ((st.current_source + 1).tmod MAX_SOURCES)) fd
          { st with current_source := (st.current_source + 1).tmod MAX_SOURCES }).2.2
      rw [hrest, (fetch_from_source_tried _ _ _ _).1]
      exact ⟨(data_source_at ((st.current_source + 1).tmod MAX_SOURCES)).name :: rest,
        by simp⟩
    · rw [fetch_loop_done _ _ _ _ _ hs]
      exact ⟨[], by simp⟩

theorem provider_fees_some_iff (env : Env) (src : DataSource) (a b c : Rat) :
    provider_fees env src = some (a, b, c) ↔
      (env.curl_init = true ∧ ∃ json, env.http src.fee_url = some json ∧
        selected_item json "fastestFee" "2" = some (cJSON.number a) ∧
        selected_item json "halfHourFee" "6" = some (cJSON.number b) ∧
        selected_item json "hourFee" "144" = some (cJSON.number c)) := by
  unfold provider_fees
  cases env.curl_init
  · simp
  · simp only [if_true, true_and]
    cases env.http src.fee_url with
    | none => simp
    | some json =>
      simp only [Option.some.injEq, exists_eq_left']
      rcases selected_item json "fastestFee" "2" with _ | (_ | _ | x | _ | _ | _) <;>
      rcases selected_item json "halfHourFee" "6" with _ | (_ | _ | y | _ | _ | _) <;>
      rcases selected_item json "hourFee" "144" with _ | (_ | _ | z | _ | _ | _) <;>
      simp

theorem fetch_from_source_result (env : Env) (src : DataSource) (fd : FeeData) (st : State) :
    (fetch_from_source env src fd st).1 = if (provider_fees env src).isSome then 1 else 0 := by
  have h := fetch_from_source_spec env src fd st
  cases hp : provider_fees env src with
  | none => rw [hp] at h; simpa using h
  | some t =>
    obtain ⟨a, b, c⟩ := t
    rw [hp] at h
    simpa using h.1

/-- With no fresh cache the first source handed to `fetch_from_source` is the one after
`current_source`. -/
theorem first_source_tried (env : Env) (fd : FeeData) (st : State) :
    ((load_from_cache fd st).1 = 0 ∨
        300 ≤ env.clock st.ticks - (load_from_cache fd st).2.timestamp) →
      ∃ rest, (fetch_fee_data env fd st).2.2.tried =
        st.tried ++ (data_source_at ((st.current_source + 1).tmod MAX_SOURCES)).name :: rest := by
  intro hstale
  obtain ⟨fd1, k, heq⟩ := fetch_fee_data_stale env fd st hstale
  rw [heq]
  have h3 : MAX_SOURCES.toNat = 2 + 1 := by decide
  rw [h3, fetch_loop_step]
  obtain ⟨rest, hrest⟩ := fetch_loop_tried_extends env 2
    (fetch_from_source env (data_source_at ((st.current_source + 1).tmod MAX_SOURCES)) fd1
      { current_source := (st.current_source + 1).tmod MAX_SOURCES, cache := st.cache,
        ticks := k, tried := st.tried }).1
    (fetch_from_source env (data_source_at ((st.current_source + 1).tmod MAX_SOURCES)) fd1
      { current_source := (st.current_source + 1).tmod MAX_SOURCES, cache := st.cache,
        ticks := k, tried := st.tried }).2.1
    (fetch_from_source env (data_source_at ((st.current_source + 1).tmod MAX_SOURCES)) fd1
      { current_source := (st.current_source + 1).tmod MAX_SOURCES, cache := st.cache,
        ticks := k, tried := st.tried }).2.2
  refine ⟨rest, ?_⟩
  rw [hrest, (fetch_from_source_tried _ _ _ _).1]
  simp

/-! ## Lemmas on the cache object -/

theorem cache_object_fastestFee (a b c d e f g h : Rat) :
    cJSON_GetObjectItem (cache_object a b c d e f g h) "fastestFee" = some (cJSON.number a) :=
  rfl

theorem cache_object_halfHourFee (a b c d e f g h : Rat) :
    cJSON_GetObjectItem (cache_object a b c d e f g h) "halfHourFee" = some (cJSON.number b) :=
  rfl

theorem cache_object_hourFee (a b c d e f g h : Rat) :
    cJSON_GetObjectItem (cache_object a b c d e f g h) "hourFee" = some (cJSON.number c) :=
  rfl

theorem cache_object_blocks (a b c d e f g h : Rat) :
    cJSON_GetObjectItem (cache_object a b c d e f g h) "blocks" = some (cJSON.number d) :=
  rfl

theorem cache_object_mempoolSizeMB (a b c d e f g h : Rat) :
    cJSON_GetObjectItem (cache_object a b c d e f g h) "mempoolSizeMB" =
      some (cJSON.number e) :=
  rfl

theorem cache_object_btc_price_usd (a b c d e f g h : Rat) :
    cJSON_GetObjectItem (cache_object a b c d e f g h) "btc_price_usd" =
      some (cJSON.number f) :=
  rfl

theorem cache_object_btc_price_eur (a b c d e f g h : Rat) :
    cJSON_GetObjectItem (cache_object a b c d e f g h) "btc_price_eur" =
      some (cJSON.number g) :=
  rfl

theorem cache_object_timestamp (a b c d e f g h : Rat) :
    cJSON_GetObjectItem (cache_object a b c d e f g h) "timestamp" = some (cJSON.number h) :=
  rfl

theorem load_cache_object (a b c d e f g h : Rat) (data : FeeData) (st : State)
    (hc : st.cache = CacheFile.parsed (cache_object a b c d e f g h)) :
    load_from_cache data st = (1,
      { data with
        fastestFee := a, halfHourFee := b, hourFee := c, blocks := valueint (cJSON.number d),
        mempoolSizeMB := e, btc_price_usd := f, btc_price_eur := g, timestamp := trunc h }) := by
  rw [load_from_cache_parsed data st _ hc]
  simp only [cache_object_fastestFee, cache_object_halfHourFee, cache_object_hourFee,
    cache_object_blocks, cache_object_mempoolSizeMB, cache_object_btc_price_usd,
    cache_object_btc_price_eur, cache_object_timestamp, if_item, valuedouble]

/-! ## Lemmas on the main loop -/

theorem load_from_cache_history (d : FeeData) (st : State) :
    (load_from_cache d st).2.history = d.history := by
  cases hc : st.cache with
  | missing => unfold load_from_cache; rw [hc]
  | unparsable => unfold load_from_cache; rw [hc]
  | parsed root =>
    rw [load_from_cache_parsed d st root hc]
    simp only []
    iterate 7 (rw [if_item_proj FeeData.history]; swap; exact fun _ _ => rfl)
    rw [if_item_proj FeeData.history]
    exact fun _ _ => rfl

theorem fee_request_history (env : Env) (src : DataSource) (fd : FeeData) :
    (fee_request env src fd).2.history = fd.history := by
  unfold fee_request
  cases env.http src.fee_url with
  | none => rfl
  | some json =>
    simp only [apply_ite Prod.snd, apply_ite FeeData.history, ite_self]

theorem mempool_request_history (env : Env) (url : String) (fd : FeeData) :
    (mempool_request env url fd).history = fd.history := by
  unfold mempool_request
  cases env.http url with
  | none => rfl
  | some json =>
    simp only []
    generalize (if (cJSON_GetObjectItemCaseSensitive json "count").isNone = true then _
      else _) = count
    generalize (if (cJSON_GetObjectItemCaseSensitive json "vsize").isNone = true then _
      else _) = vsize
    cases cJSON_IsNumber count <;> cases cJSON_IsNumber vsize <;> simp

theorem fetch_btc_price_history (env : Env) (fd : FeeData) :
    (fetch_btc_price env fd).2.history = fd.history := by
  unfold fetch_btc_price
  cases env.curl_init
  · simp
  · simp only [Bool.not_true, Bool.false_eq_true, if_false]
    cases env.http COINGECKO_URL with
    | none => simp
    | some json =>
      simp only []
      cases cJSON_GetObjectItemCaseSensitive json "bitcoin" with
      | none => simp
      | some bitcoin =>
        simp only []
        split <;> simp

theorem fetch_from_source_history (env : Env) (src : DataSource) (fd : FeeData) (st : State) :
    (fetch_from_source env src fd st).2.1.history = fd.history := by
  unfold fetch_from_source
  cases env.curl_init
  · simp
  · simp only [Bool.not_true, Bool.false_eq_true, if_false]
    have h1 := fee_request_history env src { fd with timestamp := env.clock st.ticks }
    generalize fee_request env src _ = r at h1
    by_cases h : r.1 = 0
    · cases src.mempool_url <;> simp [h, h1]
    · cases hm : src.mempool_url <;> cases hp : src.price_url <;>
        simp [h, h1, mempool_request_history, fetch_btc_price_history]

theorem fetch_loop_history (env : Env) (n : Nat) :
    ∀ (s : Int) (fd : FeeData) (st : State),
      (fetch_loop env n s fd st).2.1.history = fd.history := by
  induction n with
  | zero => intro s fd st; rfl
  | succ n ih =>
    intro s fd st
    unfold fetch_loop
    by_cases h : s = 0
    · simp only [h, ne_eq, not_true_eq_false, if_false]
      rw [ih, fetch_from_source_history]
    · simp [h]

theorem fetch_fee_data_history (env : Env) (fd : FeeData) (st : State) :
    (fetch_fee_data env fd st).2.1.history = fd.history := by
  unfold fetch_fee_data
  simp only []
  split
  · split
    · exact load_from_cache_history fd st
    · rw [fetch_loop_history]
      exact load_from_cache_history fd st
  · exact fetch_loop_history env _ 0 fd st

theorem recorded_points_append (fs : List FetchRecord) (r : FetchRecord) :
    recorded_points (fs ++ [r]) = recorded_points fs ++ r.recorded.toList := by
  unfold recorded_points
  rw [List.filterMap_append]
  cases h : r.recorded <;> simp [List.filterMap, h]

theorem record_history_push (env : Env) (show_history : Bool) (fd : FeeData) (st : State) :
    (record_history env show_history fd st).1.history =
      push_all fd.history (record_history env show_history fd st).2.2.toList := by
  cases show_history <;> rfl

theorem timer_update_history (env : Env) (now : Int) (ms : MainState)
    (base : FeeHistory)
    (h : ms.current_fees.history = push_all base (recorded_points ms.fetches)) :
    (timer_update env now ms).current_fees.history =
      push_all base (recorded_points (timer_update env now ms).fetches) := by
  unfold timer_update
  simp only []
  split
  · split
    · simp only []
      rw [recorded_points_append, push_all_append, ← h, record_history_push,
        fetch_fee_data_history]
    · simp only []
      rw [recorded_points_append, fetch_fee_data_history, h]
      simp [push_all_nil]
  · exact h

theorem handle_key_history (env : Env) (now : Int) (key : Key) (ms : MainState)
    (base : FeeHistory)
    (h : ms.current_fees.history = push_all base (recorded_points ms.fetches)) :
    (handle_key env now key ms).current_fees.history =
      push_all base (recorded_points (handle_key env now key ms).fetches) := by
  cases key with
  | refresh =>
    unfold handle_key
    simp only []
    split
    · simp only []
      rw [recorded_points_append, push_all_append, ← h, record_history_push,
        fetch_fee_data_history]
    · simp only []
      rw [recorded_points_append, fetch_fee_data_history, h]
      simp [push_all_nil]
  | _ => exact h

theorem main_iteration_history (env : Env) (key : Key) (ms : MainState) (base : FeeHistory)
    (h : ms.current_fees.history = push_all base (recorded_points ms.fetches)) :
    (main_iteration env key ms).current_fees.history =
      push_all base (recorded_points (main_iteration env key ms).fetches) := by
  unfold main_iteration
  split
  · exact h
  · exact handle_key_history env _ key _ base (timer_update_history env _ _ base h)

theorem main_run_history (steps : List (Env × Key)) (base : FeeHistory) :
    ∀ ms : MainState,
      ms.current_fees.history = push_all base (recorded_points ms.fetches) →
      (main_run steps ms).current_fees.history =
        push_all base (recorded_points (main_run steps ms).fetches) := by
  induction steps with
  | nil => intro ms h; exact h
  | cons s rest ih =>
    intro ms h
    exact ih (main_iteration s.1 s.2 ms) (main_iteration_history s.1 s.2 ms base h)

theorem main_start_history (env : Env) (mem : Nat → FeeHistoryPoint) (st : State) :
    (main_start env mem st).current_fees.history =
      push_all (init_fee_history mem 60) (recorded_points (main_start env mem st).fetches) := by
  unfold main_start
  simp only []
  split <;> exact fetch_fee_data_history env _ st

theorem timer_update_fetches (env : Env) (now : Int) (ms : MainState) :
    (timer_update env now ms).fetches =
      ms.fetches ++
        (if 30 - (now - ms.last_update) ≤ 0 then
          [{ kind := FetchKind.timer
             now := now
             success := decide ((fetch_fee_data env ms.current_fees ms.globals).1 ≠ 0)
             recorded :=
               if (fetch_fee_data env ms.current_fees ms.globals).1 ≠ 0 ∧
                   ms.show_history = true then
                 some
                   ⟨(fetch_fee_data env ms.current_fees ms.globals).2.1.fastestFee,
                    (fetch_fee_data env ms.current_fees ms.globals).2.1.halfHourFee,
                    (fetch_fee_data env ms.current_fees ms.globals).2.1.hourFee,
                    env.clock (fetch_fee_data env ms.current_fees ms.globals).2.2.ticks⟩
               else none }]
        else []) := by
  unfold timer_update
  simp only []
  split
  · split
    · rename_i h1 h2
      cases hs : ms.show_history <;> simp [record_history, h2, hs]
    · rename_i h1 h2
      simp [h2]
  · simp

theorem refresh_fetches (env : Env) (now : Int) (ms : MainState) :
    (handle_key env now Key.refresh ms).fetches =
      ms.fetches ++
        [{ kind := FetchKind.manual
           now := now
           success := decide ((fetch_fee_data env ms.current_fees ms.globals).1 ≠ 0)
           recorded :=
             if (fetch_fee_data env ms.current_fees ms.globals).1 ≠ 0 ∧
                 ms.show_history = true then
               some
                 ⟨(fetch_fee_data env ms.current_fees ms.globals).2.1.fastestFee,
                  (fetch_fee_data env ms.current_fees ms.globals).2.1.halfHourFee,
                  (fetch_fee_data env ms.current_fees ms.globals).2.1.hourFee,
                  env.clock (fetch_fee_data env ms.current_fees ms.globals).2.2.ticks⟩
             else none }] := by
  unfold handle_key
  simp only []
  split
  · rename_i h2
    cases hs : ms.show_history <;> simp [record_history, h2, hs]
  · rename_i h2
    simp [h2]

theorem load_fields_rest (d : FeeData) (st : State) (root : cJSON)
    (hc : st.cache = CacheFile.parsed root) :
    (load_from_cache d st).2.blocks =
      (match cJSON_GetObjectItem root "blocks" with
        | some item => valueint item
        | none => d.blocks) ∧
    (load_from_cache d st).2.mempoolSizeMB =
      (match cJSON_GetObjectItem root "mempoolSizeMB" with
        | some item => valuedouble item
        | none => d.mempoolSizeMB) ∧
    (load_from_cache d st).2.btc_price_usd =
      (match cJSON_GetObjectItem root "btc_price_usd" with
        | some item => valuedouble item
        | none => d.btc_price_usd) ∧
    (load_from_cache d st).2.btc_price_eur =
      (match cJSON_GetObjectItem root "btc_price_eur" with
        | some item => valuedouble item
        | none => d.btc_price_eur) := by
  rw [load_from_cache_parsed d st root hc]
  refine ⟨?_, ?_, ?_, ?_⟩
  · simp only []
    iterate 4 (rw [if_item_proj FeeData.blocks]; swap; exact fun _ _ => rfl)
    rw [if_item_set FeeData.blocks _ valueint, if_item_proj FeeData.blocks, if_item_proj FeeData.blocks, if_item_proj FeeData.blocks]
    all_goals exact fun _ _ => rfl
  · simp only []
    iterate 3 (rw [if_item_proj FeeData.mempoolSizeMB]; swap; exact fun _ _ => rfl)
    rw [if_item_set FeeData.mempoolSizeMB _ valuedouble, if_item_proj FeeData.mempoolSizeMB, if_item_proj FeeData.mempoolSizeMB, if_item_proj FeeData.mempoolSizeMB, if_item_proj FeeData.mempoolSizeMB]
    all_goals exact fun _ _ => rfl
  · simp only []
    iterate 2 (rw [if_item_proj FeeData.btc_price_usd]; swap; exact fun _ _ => rfl)
    rw [if_item_set FeeData.btc_price_usd _ valuedouble, if_item_proj FeeData.btc_price_usd, if_item_proj FeeData.btc_price_usd, if_item_proj FeeData.btc_price_usd, if_item_proj FeeData.btc_price_usd, if_item_proj FeeData.btc_price_usd]
    all_goals exact fun _ _ => rfl
  · simp only []
    iterate 1 (rw [if_item_proj FeeData.btc_price_eur]; swap; exact fun _ _ => rfl)
    rw [if_item_set FeeData.btc_price_eur _ valuedouble, if_item_proj FeeData.btc_price_eur, if_item_proj FeeData.btc_price_eur, if_item_proj FeeData.btc_price_eur, if_item_proj FeeData.btc_price_eur, if_item_proj FeeData.btc_price_eur, if_item_proj FeeData.btc_price_eur]
    all_goals exact fun _ _ => rfl
end Terminal

namespace Gui

open Terminal (cJSON cJSON_IsNumber cJSON_GetObjectItemCaseSensitive ptr_valuedouble
  ptr_valueint)
open Arith (checked_div)

/-! ## Lemmas on the GTK variant -/

/-- The call `save_fee_data_to_db` changes the database only: it appends one row of the current
snapshot when the handle is open and the insert succeeds. -/
theorem save_fee_data_to_db_result (env : Env) (app : AppData) :
    (save_fee_data_to_db env app).2 =
      { app with
        db := match app.db with
          | some rows =>
            if env.prepare_ok && env.step_ok then
              some (rows ++ [⟨env.now, app.fastest_fee, app.half_hour_fee, app.hour_fee,
                app.economy_fee, app.minimum_fee⟩])
            else some rows
          | none => none } := by
  unfold save_fee_data_to_db
  cases hdb : app.db with
  | none =>
    simp only []
    cases app
    simp_all
  | some rows =>
    cases env.prepare_ok <;> cases env.step_ok <;> simp <;> cases app <;> simp_all

theorem fetch_fee_data_parsed (env : Env) (app : AppData) (json : cJSON)
    (hinit : env.curl_init = true) (hjson : env.http FEES_URL = some json) :
    fetch_fee_data env app = (true, (save_fee_data_to_db env (updated_fees json app)).2) := by
  unfold fetch_fee_data
  rw [hinit, hjson]
  rfl

theorem upd_if_proj {β : Type} (π : AppData → β) (b : Bool) (set : AppData → AppData)
    (a : AppData) (h : ∀ x, π (set x) = π x) : π (upd_if b set a) = π a := by
  cases b
  · rfl
  · exact h a

theorem upd_if_set {β : Type} (π : AppData → β) (b : Bool) (v : β)
    (set : AppData → AppData) (a : AppData) (h : ∀ x, π (set x) = v) :
    π (upd_if b set a) = if b then v else π a := by
  cases b
  · rfl
  · exact h a

theorem updated_fees_fields (json : cJSON) (app : AppData) :
    (updated_fees json app).fastest_fee =
      (if cJSON_IsNumber (cJSON_GetObjectItemCaseSensitive json "fastestFee") then
        ptr_valuedouble (cJSON_GetObjectItemCaseSensitive json "fastestFee")
      else app.fastest_fee) ∧
    (updated_fees json app).half_hour_fee =
      (if cJSON_IsNumber (cJSON_GetObjectItemCaseSensitive json "halfHourFee") then
        ptr_valuedouble (cJSON_GetObjectItemCaseSensitive json "halfHourFee")
      else app.half_hour_fee) ∧
    (updated_fees json app).hour_fee =
      (if cJSON_IsNumber (cJSON_GetObjectItemCaseSensitive json "hourFee") then
        ptr_valuedouble (cJSON_GetObjectItemCaseSensitive json "hourFee")
      else app.hour_fee) ∧
    (updated_fees json app).db = app.db := by
  unfold updated_fees
  refine ⟨?_, ?_, ?_, ?_⟩
  · iterate 4 (rw [upd_if_proj AppData.fastest_fee]; swap; exact fun _ => rfl)
    rw [upd_if_set AppData.fastest_fee]
    exact fun _ => rfl
  · iterate 3 (rw [upd_if_proj AppData.half_hour_fee]; swap; exact fun _ => rfl)
    rw [upd_if_set AppData.half_hour_fee, upd_if_proj AppData.half_hour_fee]
    all_goals exact fun _ => rfl
  · iterate 2 (rw [upd_if_proj AppData.hour_fee]; swap; exact fun _ => rfl)
    rw [upd_if_set AppData.hour_fee, upd_if_proj AppData.hour_fee,
      upd_if_proj AppData.hour_fee]
    all_goals exact fun _ => rfl
  · iterate 4 (rw [upd_if_proj AppData.db]; swap; exact fun _ => rfl)
    rw [upd_if_proj AppData.db]
    exact fun _ => rfl

/-- The average fee computed at the end of `fetch_mempool_data`, for the size and the total
fee of the snapshot `a`. -/
theorem mempool_avg_step (a : AppData) :
    ∃ a1, (if a.mempool_size_bytes > 0 then
        match checked_div (a.mempool_total_fee * 100000000) (a.mempool_size_bytes : Rat) with
        | some q => some (true, { a with mempool_avg_fee := q })
        | none => none
      else some (true, { a with mempool_avg_fee := 0 })) = some (true, a1) ∧
      a1.mempool_size_bytes = a.mempool_size_bytes ∧
      a1.mempool_total_fee = a.mempool_total_fee ∧
      a1.mempool_avg_fee =
        (if a.mempool_size_bytes > 0 then
          a.mempool_total_fee * 100000000 / (a.mempool_size_bytes : Rat)
        else 0) := by
  by_cases hs : a.mempool_size_bytes > 0
  · have hne : (a.mempool_size_bytes : Rat) ≠ 0 := by
      have : (0 : Rat) < (a.mempool_size_bytes : Rat) := by exact_mod_cast hs
      exact ne_of_gt this
    rw [if_pos hs, Arith.checked_div_of_ne _ _ hne]
    exact ⟨_, rfl, rfl, rfl, by simp [hs]⟩
  · rw [if_neg hs]
    exact ⟨_, rfl, rfl, rfl, by simp [hs]⟩

theorem fetch_mempool_data_parsed (env : Env) (app : AppData) (json : cJSON)
    (hinit : env.curl_init = true) (hjson : env.http MEMPOOL_URL = some json) :
    fetch_mempool_data env app =
      (if (updated_mempool json app).mempool_size_bytes > 0 then
        match checked_div ((updated_mempool json app).mempool_total_fee * 100000000)
            ((updated_mempool json app).mempool_size_bytes : Rat) with
        | some q => some (true, { updated_mempool json app with mempool_avg_fee := q })
        | none => none
      else some (true, { updated_mempool json app with mempool_avg_fee := 0 })) := by
  unfold fetch_mempool_data
  rw [hinit, hjson]
  rfl

theorem updated_mempool_fields (json : cJSON) (app : AppData) :
    (updated_mempool json app).mempool_size_bytes =
      (if cJSON_IsNumber (cJSON_GetObjectItemCaseSensitive json "vsize") then
        ptr_valueint (cJSON_GetObjectItemCaseSensitive json "vsize")
      else app.mempool_size_bytes) ∧
    (updated_mempool json app).mempool_total_fee =
      (if cJSON_IsNumber (cJSON_GetObjectItemCaseSensitive json "total_fee") then
        ptr_valuedouble (cJSON_GetObjectItemCaseSensitive json "total_fee")
      else app.mempool_total_fee) := by
  unfold updated_mempool
  refine ⟨?_, ?_⟩
  · rw [upd_if_proj AppData.mempool_size_bytes]; swap
    · exact fun _ => rfl
    rw [upd_if_set AppData.mempool_size_bytes, upd_if_proj AppData.mempool_size_bytes]
    all_goals exact fun _ => rfl
  · rw [upd_if_set AppData.mempool_total_fee, upd_if_proj AppData.mempool_total_fee,
      upd_if_proj AppData.mempool_total_fee]
    all_goals exact fun _ => rfl

/-! ## Lemmas on the update cycle -/

theorem update_data_thread_flag (env : Env) (a : AppData) :
    (update_data_thread env a).is_updating = false := rfl

theorem update_data_busy (tc : Bool) (s : AppState) (h : s.app_data.is_updating = true) :
    update_data tc s = (false, s) := by
  unfold update_data
  rw [h]
  rfl

theorem update_data_started (s : AppState) (h : s.app_data.is_updating = false) :
    update_data true s =
      (false, { s with
        app_data := { s.app_data with is_updating := true }
        workers := s.workers + 1
        started := s.started + 1 }) := by
  unfold update_data
  rw [h]
  rfl

theorem update_data_no_thread (s : AppState) (h : s.app_data.is_updating = false) :
    update_data false s = (false, s) := by
  unfold update_data
  rw [h]
  obtain ⟨a, w, st, t, p, sh⟩ := s
  obtain ⟨f1, f2, f3, f4, f5, f6, f7, f8, f9, f10, f11, f12, f13, f14, f15, f16⟩ := a
  simp only at h
  subst h
  rfl

theorem update_data_inv (tc : Bool) (s : AppState)
    (h : s.workers = if s.app_data.is_updating then 1 else 0) :
    (update_data tc s).2.workers = if (update_data tc s).2.app_data.is_updating then 1 else 0 := by
  cases hu : s.app_data.is_updating
  · cases tc
    · rw [update_data_no_thread s hu, hu]
      rw [hu] at h
      exact h
    · rw [update_data_started s hu]
      rw [hu] at h
      simp [h]
  · rw [update_data_busy tc s hu, hu]
    rw [hu] at h
    exact h

theorem on_refresh_clicked_busy (tc : Bool) (s : AppState)
    (h : s.app_data.is_updating = true) : on_refresh_clicked tc s = s := by
  unfold on_refresh_clicked
  rw [h]
  rfl

theorem on_refresh_clicked_idle (tc : Bool) (s : AppState)
    (h : s.app_data.is_updating = false) :
    on_refresh_clicked tc s = (update_data tc s).2 := by
  unfold on_refresh_clicked
  rw [h]
  rfl

theorem app_step_inv (s : AppState) (e : AppEvent)
    (h : s.workers = if s.app_data.is_updating then 1 else 0) :
    (app_step s e).workers = if (app_step s e).app_data.is_updating then 1 else 0 := by
  cases e with
  | timer tc =>
    by_cases ht : s.timer_armed = true
    · have e : app_step s (AppEvent.timer tc) =
          { (update_data tc s).2 with timer_armed := (update_data tc s).1 } := by
        simp only [app_step, if_pos ht]
      rw [e]
      exact update_data_inv tc s h
    · have e : app_step s (AppEvent.timer tc) = s := by
        simp only [app_step, if_neg ht]
      rw [e]
      exact h
  | refresh tc =>
    cases hu : s.app_data.is_updating
    · have e : app_step s (AppEvent.refresh tc) = (update_data tc s).2 :=
        on_refresh_clicked_idle tc s hu
      rw [e]
      exact update_data_inv tc s h
    · have e : app_step s (AppEvent.refresh tc) = s := on_refresh_clicked_busy tc s hu
      rw [e]
      exact h
  | worker_done env =>
    by_cases hw : s.workers = 0
    · have e : app_step s (AppEvent.worker_done env) = s := by
        simp only [app_step, if_pos hw]
      rw [e]
      exact h
    · have e : app_step s (AppEvent.worker_done env) =
          { s with
            app_data := update_data_thread env s.app_data
            workers := s.workers - 1
            pending_ui := s.pending_ui + 1 } := by
        simp only [app_step, if_neg hw]
      rw [e]
      simp only [update_data_thread_flag]
      cases hu : s.app_data.is_updating
      · rw [hu] at h
        exact absurd h hw
      · rw [hu] at h
        simp [h]
  | idle =>
    by_cases hp : s.pending_ui = 0
    · have e : app_step s AppEvent.idle = s := by
        simp only [app_step, if_pos hp]
      rw [e]
      exact h
    · have e : app_step s AppEvent.idle =
          update_ui { s with pending_ui := s.pending_ui - 1 } := by
        simp only [app_step, if_neg hp]
      rw [e]
      exact h

theorem activate_inv (tc : Bool) (db : Option (List FeeRow)) (id : Nat) :
    (activate tc db id).workers = if (activate tc db id).app_data.is_updating then 1 else 0 := by
  cases tc <;> rfl

theorem app_run_inv (tc : Bool) (db : Option (List FeeRow)) (id : Nat)
    (events : List AppEvent) :
    (app_run tc db id events).workers =
      if (app_run tc db id events).app_data.is_updating then 1 else 0 := by
  have hfold : ∀ (es : List AppEvent) (s : AppState),
      (s.workers = if s.app_data.is_updating then 1 else 0) →
      ((es.foldl app_step s).workers =
        if (es.foldl app_step s).app_data.is_updating then 1 else 0) := by
    intro es
    induction es with
    | nil => intro s h; exact h
    | cons e es ih => intro s h; exact ih (app_step s e) (app_step_inv s e h)
  exact hfold events _ (activate_inv tc db id)

end Gui

namespace Chart

open Arith (checked_div)

/-! ## Lemmas on the series of a chart -/

theorem update_bounds_series (chart : ChartConfig) (value : Rat) :
    (update_bounds chart value).series = chart.series := by
  unfold update_bounds
  simp only []
  split <;> rfl

theorem find_series_none (name : String) (l : List ChartSeries)
    (h : ∀ s ∈ l, s.label ≠ name) : find_series name l = none := by
  induction l with
  | nil => rfl
  | cons s rest ih =>
    have hs : s.label ≠ name := h s (List.mem_cons_self _ _)
    have hr := ih (fun x hx => h x (List.mem_cons_of_mem _ hx))
    simp [find_series, hs, hr]

theorem find_series_first (name : String) (pre : List ChartSeries) (s : ChartSeries)
    (post : List ChartSeries) (hpre : ∀ x ∈ pre, x.label ≠ name) (hs : s.label = name) :
    find_series name (pre ++ s :: post) = some pre.length := by
  induction pre with
  | nil => simp [find_series, hs]
  | cons a pre ih =>
    have ha : a.label ≠ name := hpre a (List.mem_cons_self _ _)
    have hr := ih (fun x hx => hpre x (List.mem_cons_of_mem _ hx))
    simp [find_series, ha, hr]

theorem append_point_at (point : ChartDataPoint) (pre : List ChartSeries) (s : ChartSeries)
    (post : List ChartSeries) :
    append_point point pre.length (pre ++ s :: post) =
      pre ++ { s with data := s.data ++ [point] } :: post := by
  induction pre with
  | nil => rfl
  | cons a pre ih => simp [append_point, ih]

theorem chart_add_series_series (config : ChartConfig) (label : String)
    (color : Option GdkRGBA) (show_points : Bool) :
    (chart_add_series config label color show_points).series =
      config.series ++
        [{ label := label
           color := match color with
             | some c => c
             | none => get_default_color (config.series.length : Int)
           data := []
           show_points := show_points
           visible := true }] := rfl

theorem get_default_color_nat (n : Nat) (h : n < 2 ^ 64) :
    get_default_color (n : Int) = DEFAULT_COLORS.getD (n % 7) ⟨0, 0, 0, 0⟩ := by
  unfold get_default_color
  have h1 : ((n : Int) % 2 ^ 64) = (n : Int) := by
    apply Int.emod_eq_of_lt (by positivity)
    exact_mod_cast h
  rw [h1]
  have h2 : ((n : Int) % 7).toNat = n % 7 := by omega
  rw [h2]

theorem chart_add_point_new (chart : ChartConfig) (label : String) (t : Int) (v : Rat)
    (hno : ∀ s ∈ chart.series, s.label ≠ label) :
    (chart_add_point chart label t v).series =
      chart.series ++
        [{ label := label
           color := get_default_color (chart.series.length : Int)
           data := [⟨(t : Rat), v⟩]
           show_points := true
           visible := true }] := by
  have hf := find_series_none label chart.series hno
  unfold chart_add_point
  rw [hf]
  simp only [update_bounds_series, chart_add_series_series, List.length_append,
    List.length_singleton, Nat.add_sub_cancel]
  exact append_point_at _ chart.series _ []

theorem chart_add_point_existing (chart : ChartConfig) (label : String) (t : Int) (v : Rat)
    (pre : List ChartSeries) (s : ChartSeries) (post : List ChartSeries)
    (hsplit : chart.series = pre ++ s :: post) (hpre : ∀ x ∈ pre, x.label ≠ label)
    (hlabel : s.label = label) :
    (chart_add_point chart label t v).series =
      pre ++ { s with data := s.data ++ [⟨(t : Rat), v⟩] } :: post := by
  have hf : find_series label chart.series = some pre.length := by
    rw [hsplit]; exact find_series_first label pre s post hpre hlabel
  unfold chart_add_point
  rw [hf]
  simp only [update_bounds_series]
  rw [hsplit]
  exact append_point_at _ pre s post

/-! ## Lemmas on the bounds of a chart -/

theorem update_bounds_min_y (chart : ChartConfig) (v : Rat) :
    (update_bounds chart v).min_y =
      if widened_min_y chart v = widened_max_y chart v then widened_min_y chart v * (9 / 10)
      else widened_min_y chart v := by
  unfold update_bounds
  simp only []
  split <;> rfl

theorem update_bounds_max_y (chart : ChartConfig) (v : Rat) :
    (update_bounds chart v).max_y =
      if widened_min_y chart v = widened_max_y chart v then widened_max_y chart v * (11 / 10)
      else widened_max_y chart v := by
  unfold update_bounds
  simp only []
  split <;> rfl

theorem update_bounds_congr (c1 c2 : ChartConfig) (v : Rat) (h1 : c1.min_y = c2.min_y)
    (h2 : c1.max_y = c2.max_y) :
    (update_bounds c1 v).min_y = (update_bounds c2 v).min_y ∧
    (update_bounds c1 v).max_y = (update_bounds c2 v).max_y := by
  rw [update_bounds_min_y, update_bounds_min_y, update_bounds_max_y, update_bounds_max_y]
  unfold widened_min_y widened_max_y
  rw [h1, h2]
  exact ⟨rfl, rfl⟩

theorem chart_add_point_bounds (chart : ChartConfig) (name : String) (t : Int) (v : Rat) :
    (chart_add_point chart name t v).min_y = (update_bounds chart v).min_y ∧
    (chart_add_point chart name t v).max_y = (update_bounds chart v).max_y := by
  unfold chart_add_point
  cases find_series name chart.series
  · exact update_bounds_congr _ _ _ rfl rfl
  · exact update_bounds_congr _ _ _ rfl rfl

/-! ## Lemmas on the rendering -/

theorem map_point_mul_div_eq_plot (config : ChartConfig) (width height : Int)
    (point : ChartDataPoint) (hx : config.max_x ≠ config.min_x)
    (hy : config.max_y ≠ config.min_y) :
    map_point_mul_div config width height point = plot config width height point := by
  have dx : config.max_x - config.min_x ≠ 0 := sub_ne_zero.mpr hx
  have dy : config.max_y - config.min_y ≠ 0 := sub_ne_zero.mpr hy
  unfold map_point_mul_div plot screen_x screen_y
  rw [Arith.checked_div_of_ne _ _ dx, Arith.checked_div_of_ne _ _ dy]
  simp only [Option.some.injEq, Prod.mk.injEq]
  constructor
  · field_simp
  · field_simp

theorem map_point_div_mul_eq_plot (config : ChartConfig) (width height : Int)
    (point : ChartDataPoint) (hx : config.max_x ≠ config.min_x)
    (hy : config.max_y ≠ config.min_y) :
    map_point_div_mul config width height point = plot config width height point := by
  have dx : config.max_x - config.min_x ≠ 0 := sub_ne_zero.mpr hx
  have dy : config.max_y - config.min_y ≠ 0 := sub_ne_zero.mpr hy
  unfold map_point_div_mul plot screen_x screen_y
  rw [Arith.checked_div_of_ne _ _ dx, Arith.checked_div_of_ne _ _ dy]

theorem map_point_mul_div_degenerate (config : ChartConfig) (width height : Int)
    (point : ChartDataPoint)
    (h : config.max_x = config.min_x ∨ config.max_y = config.min_y) :
    map_point_mul_div config width height point = none := by
  unfold map_point_mul_div
  rcases h with h | h
  · rw [h, sub_self, Arith.checked_div_zero]
  · rw [h, sub_self, Arith.checked_div_zero]
    cases checked_div ((point.x - config.min_x) * (width : Rat))
      (config.max_x - config.min_x) <;> rfl

theorem line_loop_isSome (map : ChartDataPoint → Option (Rat × Rat))
    (hmap : ∀ p, (map p).isSome = true) (points : List ChartDataPoint) :
    ∀ first, (line_loop map first points).isSome = true := by
  induction points with
  | nil => intro first; rfl
  | cons p rest ih =>
    intro first
    have h1 := hmap p
    have h2 := ih false
    unfold line_loop
    cases hp : map p with
    | none => rw [hp] at h1; cases h1
    | some xy =>
      cases hl : line_loop map false rest with
      | none => rw [hl] at h2; cases h2
      | some r => rfl

theorem points_loop_isSome (map : ChartDataPoint → Option (Rat × Rat))
    (hmap : ∀ p, (map p).isSome = true) (points : List ChartDataPoint) :
    (points_loop map points).isSome = true := by
  induction points with
  | nil => rfl
  | cons p rest ih =>
    have h1 := hmap p
    unfold points_loop
    cases hp : map p with
    | none => rw [hp] at h1; cases h1
    | some xy =>
      cases hl : points_loop map rest with
      | none => rw [hl] at ih; cases ih
      | some r => rfl

theorem path_loop_isSome (map : ChartDataPoint → Option (Rat × Rat)) (show_points : Bool)
    (hmap : ∀ p, (map p).isSome = true) (points : List ChartDataPoint) :
    ∀ first, (path_loop map show_points first points).isSome = true := by
  induction points with
  | nil => intro first; rfl
  | cons p rest ih =>
    intro first
    have h1 := hmap p
    have h2 := ih false
    unfold path_loop
    cases hp : map p with
    | none => rw [hp] at h1; cases h1
    | some xy =>
      cases hl : path_loop map show_points false rest with
      | none => rw [hl] at h2; cases h2
      | some r => rfl

theorem draw_one_series_isSome (map1 map2 : ChartDataPoint → Option (Rat × Rat))
    (h1 : ∀ p, (map1 p).isSome = true) (h2 : ∀ p, (map2 p).isSome = true)
    (series : ChartSeries) : (draw_one_series map1 map2 series).isSome = true := by
  unfold draw_one_series
  split
  · have ha := line_loop_isSome map1 h1 series.data true
    cases hl : line_loop map1 true series.data with
    | none => rw [hl] at ha; cases ha
    | some r =>
      obtain ⟨line, first⟩ := r
      have hb : (if series.show_points then points_loop map1 series.data
          else some []).isSome = true := by
        split
        · exact points_loop_isSome map1 h1 series.data
        · rfl
      cases hm : (if series.show_points then points_loop map1 series.data else some []) with
      | none => rw [hm] at hb; cases hb
      | some markers =>
        have hc := path_loop_isSome map2 series.show_points h2 series.data first
        cases hq : path_loop map2 series.show_points first series.data with
        | none => rw [hq] at hc; cases hc
        | some r2 =>
          simp only []
          rw [hq]
          rfl
  · rfl

theorem draw_series_list_isSome (map1 map2 : ChartDataPoint → Option (Rat × Rat))
    (h1 : ∀ p, (map1 p).isSome = true) (h2 : ∀ p, (map2 p).isSome = true)
    (l : List ChartSeries) : (draw_series_list map1 map2 l).isSome = true := by
  induction l with
  | nil => rfl
  | cons s rest ih =>
    have ha := draw_one_series_isSome map1 map2 h1 h2 s
    unfold draw_series_list
    cases hs : draw_one_series map1 map2 s with
    | none => rw [hs] at ha; cases ha
    | some ops =>
      cases hr : draw_series_list map1 map2 rest with
      | none => rw [hr] at ih; cases ih
      | some more => rfl

theorem draw_one_series_none (map1 map2 : ChartDataPoint → Option (Rat × Rat))
    (h1 : ∀ p, map1 p = none) (series : ChartSeries) (hv : series.visible = true)
    (hd : series.data ≠ []) : draw_one_series map1 map2 series = none := by
  unfold draw_one_series
  cases hdata : series.data with
  | nil => exact absurd hdata hd
  | cons p rest =>
    simp only [hv, List.isEmpty_cons, Bool.not_false, Bool.and_self, if_true, line_loop, h1 p]

theorem draw_one_series_skip (map1 map2 : ChartDataPoint → Option (Rat × Rat))
    (series : ChartSeries) (h : ¬ (series.visible = true ∧ series.data ≠ [])) :
    draw_one_series map1 map2 series = some [] := by
  unfold draw_one_series
  have hc : (series.visible && !series.data.isEmpty) = false := by
    cases hv : series.visible
    · rfl
    · cases hdata : series.data with
      | nil => rfl
      | cons p rest => exact absurd ⟨hv, by rw [hdata]; exact List.cons_ne_nil _ _⟩ h
  rw [hc]
  rfl

theorem draw_series_list_none_iff (map1 map2 : ChartDataPoint → Option (Rat × Rat))
    (h1 : ∀ p, map1 p = none) (l : List ChartSeries) :
    draw_series_list map1 map2 l = none ↔
      ∃ s ∈ l, s.visible = true ∧ s.data ≠ [] := by
  induction l with
  | nil => simp [draw_series_list]
  | cons s rest ih =>
    unfold draw_series_list
    by_cases hs : s.visible = true ∧ s.data ≠ []
    · rw [draw_one_series_none map1 map2 h1 s hs.1 hs.2]
      simp only [true_iff]
      exact ⟨s, List.mem_cons_self _ _, hs⟩
    · rw [draw_one_series_skip map1 map2 s hs]
      simp only []
      cases hr : draw_series_list map1 map2 rest with
      | none =>
        simp only [true_iff]
        obtain ⟨x, hx, hx2⟩ := ih.mp hr
        exact ⟨x, List.mem_cons_of_mem _ hx, hx2⟩
      | some more =>
        constructor
        · intro h
          cases h
        rintro ⟨x, hx, hx2⟩
        rcases List.mem_cons.mp hx with rfl | hx3
        · exact absurd hx2 hs
        · have := ih.mpr ⟨x, hx3, hx2⟩
          rw [hr] at this
          cases this

/-- The division by zero of `chart_draw_series`: it occurs exactly when a range is zero and
a visible series holds a point. -/
theorem chart_draw_series_none_iff (config : ChartConfig) (width height : Int) :
    chart_draw_series config width height = none ↔
      (config.max_x = config.min_x ∨ config.max_y = config.min_y) ∧
        ∃ s ∈ config.series, s.visible = true ∧ s.data ≠ [] := by
  unfold chart_draw_series
  by_cases hdeg : config.max_x = config.min_x ∨ config.max_y = config.min_y
  · rw [draw_series_list_none_iff _ _
      (fun p => map_point_mul_div_degenerate config width height p hdeg)]
    simp [hdeg]
  · have hx : config.max_x ≠ config.min_x := fun h => hdeg (Or.inl h)
    have hy : config.max_y ≠ config.min_y := fun h => hdeg (Or.inr h)
    have hsome := draw_series_list_isSome (map_point_mul_div config width height)
      (map_point_div_mul config width height)
      (fun p => by rw [map_point_mul_div_eq_plot config width height p hx hy]; rfl)
      (fun p => by rw [map_point_div_mul_eq_plot config width height p hx hy]; rfl)
      config.series
    constructor
    · intro h
      rw [h] at hsome
      cases hsome
    · rintro ⟨h, _⟩
      exact absurd h hdeg

/-! ## Lemmas on pan and zoom -/

theorem update_bounds_zoom_level (chart : ChartConfig) (v : Rat) :
    (update_bounds chart v).zoom_level = chart.zoom_level := by
  unfold update_bounds
  simp only []
  split <;> rfl

theorem chart_add_point_zoom_level (chart : ChartConfig) (name : String) (t : Int) (v : Rat) :
    (chart_add_point chart name t v).zoom_level = chart.zoom_level := by
  unfold chart_add_point
  cases find_series name chart.series <;> simp only [update_bounds_zoom_level]
  rfl

theorem chart_add_data_zoom_level (config : ChartConfig) (i : Int) (v : Rat) (now : Int) :
    (chart_add_data config i v now).zoom_level = config.zoom_level := by
  unfold chart_add_data
  cases g_list_nth config.series i
  · rfl
  · exact chart_add_point_zoom_level _ _ _ _

theorem chart_clear_series_zoom_level (config : ChartConfig) (i : Int) :
    (chart_clear_series config i).zoom_level = config.zoom_level := by
  unfold chart_clear_series
  cases g_list_nth config.series i <;> rfl

theorem chart_motion_zoom_level (st : ChartState) (button1 : Bool) (x : Rat) (width : Int) :
    (chart_motion_notify_cb st button1 x width).config.zoom_level = st.config.zoom_level := by
  unfold chart_motion_notify_cb
  cases button1
  · rfl
  · simp only [if_true]
    split <;> rfl

theorem clamped_zoom_bounds (config : ChartConfig) (up : Bool) :
    1 ≤ clamped_zoom config up ∧ clamped_zoom config up ≤ 20 := by
  unfold clamped_zoom
  simp only []
  split_ifs <;> constructor <;> linarith

theorem chart_scroll_cb_eq (config : ChartConfig) (up : Bool) (event_x : Rat)
    (widget_width : Int) :
    chart_scroll_cb config up event_x widget_width =
      if clamped_zoom config up ≠ config.zoom_level then
        { config with
          zoom_level := clamped_zoom config up
          pan_offset := clamp_pan
            (((checked_div event_x (widget_width : Rat)).bind fun q =>
                (checked_div (config.max_x - config.min_x) config.zoom_level).bind fun vr =>
                some (config.min_x + q * vr)).bind fun dx =>
              (checked_div (config.max_x - config.min_x) (clamped_zoom config up)).bind
                fun nvr =>
              (checked_div (config.max_x - config.min_x) config.zoom_level).bind fun vr =>
              (checked_div nvr vr).bind fun ratio => some ((dx - config.min_x) * (1 - ratio)))
            ((checked_div 1 (clamped_zoom config up)).bind fun inv =>
              some ((config.max_x - config.min_x) * (1 - inv))) }
      else config := rfl

theorem chart_scroll_zoom_level (config : ChartConfig) (up : Bool) (event_x : Rat)
    (widget_width : Int) :
    (chart_scroll_cb config up event_x widget_width).zoom_level = clamped_zoom config up := by
  rw [chart_scroll_cb_eq]
  by_cases h : clamped_zoom config up = config.zoom_level
  · simp [h]
  · simp [h]

theorem clamp_pan_some (a m : Rat) : clamp_pan (some a) (some m) = some (max 0 (min a m)) := by
  unfold clamp_pan gt_num lt_num
  by_cases h1 : a > m
  · by_cases h2 : m < 0
    · simp [h1, h2, min_eq_right (le_of_lt h1), max_eq_left (le_of_lt h2)]
    · simp [h1, h2, min_eq_right (le_of_lt h1), max_eq_right (not_lt.mp h2)]
  · have h3 : a ≤ m := not_lt.mp h1
    by_cases h2 : a < 0
    · simp [h1, h2, min_eq_left h3, max_eq_left (le_of_lt h2)]
    · simp [h1, h2, min_eq_left h3, max_eq_right (not_lt.mp h2)]

theorem clamp_pan_none (m : Option Rat) : clamp_pan none m = none := by
  unfold clamp_pan gt_num lt_num
  rfl

theorem max_pan_nonneg (range zoom : Rat) (hrange : 0 ≤ range) (hzoom : 1 ≤ zoom) :
    0 ≤ range * (1 - 1 / zoom) := by
  have hpos : (0 : Rat) < zoom := by linarith
  have hinv : 1 / zoom ≤ 1 := by
    rw [div_le_one hpos]
    exact hzoom
  exact mul_nonneg hrange (by linarith)

theorem clamp_bounds (a m : Rat) (hm : 0 ≤ m) :
    0 ≤ max 0 (min a m) ∧ max 0 (min a m) ≤ m :=
  ⟨le_max_left _ _, max_le hm (min_le_right _ _)⟩

theorem chart_motion_pan (st : ChartState) (width : Int) (x p : Rat)
    (hzoom : st.config.zoom_level ≠ 0) (hw : (width : Rat) ≠ 0) (hlast : 0 < st.last_x)
    (hp : st.config.pan_offset = some p) :
    (chart_motion_notify_cb st true x width).config.pan_offset =
      some (max 0 (min
        (p + (x - st.last_x) *
          ((st.config.max_x - st.config.min_x) / st.config.zoom_level / (width : Rat)))
        ((st.config.max_x - st.config.min_x) * (1 - 1 / st.config.zoom_level)))) := by
  have h1 : ∀ a : Rat, checked_div a st.config.zoom_level = some (a / st.config.zoom_level) :=
    fun a => Arith.checked_div_of_ne a _ hzoom
  have h2 : ∀ a : Rat, checked_div a (width : Rat) = some (a / (width : Rat)) :=
    fun a => Arith.checked_div_of_ne a _ hw
  unfold chart_motion_notify_cb
  simp only [if_true, hlast, gt_iff_lt, hp, h1, h2, Option.bind, clamp_pan_some]

theorem chart_scroll_pan (config : ChartConfig) (up : Bool) (event_x : Rat) (width : Int)
    (hzoom : config.zoom_level ≠ 0) (hw : (width : Rat) ≠ 0)
    (hrange : config.max_x - config.min_x ≠ 0)
    (hchange : clamped_zoom config up ≠ config.zoom_level) :
    ∃ a : Rat, (chart_scroll_cb config up event_x width).pan_offset =
      some (max 0 (min a
        ((config.max_x - config.min_x) * (1 - 1 / clamped_zoom config up)))) := by
  have hnz : clamped_zoom config up ≠ 0 := by
    have := (clamped_zoom_bounds config up).1
    intro h0
    rw [h0] at this
    linarith
  have hvr : (config.max_x - config.min_x) / config.zoom_level ≠ 0 :=
    div_ne_zero hrange hzoom
  have h1 : ∀ a : Rat, checked_div a config.zoom_level = some (a / config.zoom_level) :=
    fun a => Arith.checked_div_of_ne a _ hzoom
  have h2 : ∀ a : Rat, checked_div a (width : Rat) = some (a / (width : Rat)) :=
    fun a => Arith.checked_div_of_ne a _ hw
  have h3 : ∀ a : Rat, checked_div a (clamped_zoom config up) =
      some (a / clamped_zoom config up) :=
    fun a => Arith.checked_div_of_ne a _ hnz
  have h4 : ∀ a : Rat, checked_div a ((config.max_x - config.min_x) / config.zoom_level) =
      some (a / ((config.max_x - config.min_x) / config.zoom_level)) :=
    fun a => Arith.checked_div_of_ne a _ hvr
  rw [chart_scroll_cb_eq]
  simp only [if_pos hchange, h1, h2, h3, h4, Option.bind, clamp_pan_some]
  exact ⟨_, rfl⟩

/-! ## Lemmas on the y-bounds along the calls and events -/

theorem widened_bounds_inv (chart : ChartConfig) (v : Rat)
    (h : chart.min_y ≤ 0 ∧ 1 ≤ chart.max_y) :
    widened_min_y chart v ≤ 0 ∧ 1 ≤ widened_max_y chart v := by
  unfold widened_min_y widened_max_y
  split_ifs <;> constructor <;> linarith

theorem widened_bounds_ne (chart : ChartConfig) (v : Rat)
    (h : chart.min_y ≤ 0 ∧ 1 ≤ chart.max_y) :
    widened_min_y chart v ≠ widened_max_y chart v := by
  have hw := widened_bounds_inv chart v h
  intro heq
  rw [heq] at hw
  linarith [hw.1, hw.2]

theorem chart_add_point_bounds_inv (chart : ChartConfig) (name : String) (t : Int) (v : Rat)
    (h : chart.min_y ≤ 0 ∧ 1 ≤ chart.max_y) :
    (chart_add_point chart name t v).min_y = widened_min_y chart v ∧
    (chart_add_point chart name t v).max_y = widened_max_y chart v := by
  rw [(chart_add_point_bounds _ _ _ _).1, (chart_add_point_bounds _ _ _ _).2,
    update_bounds_min_y, update_bounds_max_y, if_neg (widened_bounds_ne chart v h),
    if_neg (widened_bounds_ne chart v h)]
  exact ⟨rfl, rfl⟩

theorem chart_scroll_y_bounds (config : ChartConfig) (up : Bool) (x : Rat) (w : Int) :
    (chart_scroll_cb config up x w).min_y = config.min_y ∧
    (chart_scroll_cb config up x w).max_y = config.max_y := by
  rw [chart_scroll_cb_eq]
  split <;> exact ⟨rfl, rfl⟩

theorem chart_motion_y_bounds (st : ChartState) (button1 : Bool) (x : Rat) (width : Int) :
    (chart_motion_notify_cb st button1 x width).config.min_y = st.config.min_y ∧
    (chart_motion_notify_cb st button1 x width).config.max_y = st.config.max_y := by
  unfold chart_motion_notify_cb
  cases button1
  · exact ⟨rfl, rfl⟩
  · simp only [if_true]
    split <;> exact ⟨rfl, rfl⟩

theorem step_y_bounds (st : ChartState) (e : ChartEvent)
    (h : st.config.min_y ≤ 0 ∧ 1 ≤ st.config.max_y) :
    (step st e).config.min_y ≤ 0 ∧ 1 ≤ (step st e).config.max_y := by
  cases e with
  | add_series label color show_points => exact h
  | add_point series_name timestamp value =>
    simp only [step]
    rw [(chart_add_point_bounds_inv _ _ _ _ h).1, (chart_add_point_bounds_inv _ _ _ _ h).2]
    exact widened_bounds_inv _ _ h
  | add_data series_index value now =>
    simp only [step, chart_add_data]
    cases g_list_nth st.config.series series_index with
    | none => exact h
    | some series =>
      simp only []
      rw [(chart_add_point_bounds_inv _ _ _ _ h).1, (chart_add_point_bounds_inv _ _ _ _ h).2]
      exact widened_bounds_inv _ _ h
  | clear_series series_index =>
    simp only [step, chart_clear_series]
    cases g_list_nth st.config.series series_index <;> exact h
  | set_time_range start finish => exact h
  | scroll direction_up event_x widget_width =>
    simp only [step]
    rw [(chart_scroll_y_bounds _ _ _ _).1, (chart_scroll_y_bounds _ _ _ _).2]
    exact h
  | motion button1 event_x width =>
    simp only [step]
    rw [(chart_motion_y_bounds _ _ _ _).1, (chart_motion_y_bounds _ _ _ _).2]
    exact h

theorem run_y_bounds (events : List ChartEvent) :
    (run events).config.min_y ≤ 0 ∧ 1 ≤ (run events).config.max_y := by
  have hfold : ∀ (es : List ChartEvent) (st : ChartState),
      (st.config.min_y ≤ 0 ∧ 1 ≤ st.config.max_y) →
      ((es.foldl step st).config.min_y ≤ 0 ∧ 1 ≤ (es.foldl step st).config.max_y) := by
    intro es
    induction es with
    | nil => intro st h; exact h
    | cons e es ih => intro st h; exact ih (step st e) (step_y_bounds st e h)
  exact hfold events _ (by decide)

/-! ## Lemmas on the drawing of a chart without data -/

theorem draw_series_list_empty_data (map1 map2 : ChartDataPoint → Option (Rat × Rat))
    (l : List ChartSeries) (h : ∀ s ∈ l, s.data = []) :
    draw_series_list map1 map2 l = some [] := by
  induction l with
  | nil => rfl
  | cons s rest ih =>
    have hs : draw_one_series map1 map2 s = some [] := by
      unfold draw_one_series
      rw [h s (List.mem_cons_self _ _)]
      simp
    unfold draw_series_list
    rw [hs, ih (fun x hx => h x (List.mem_cons_of_mem _ hx))]
    rfl

theorem chart_draw_grid_all (config : ChartConfig) (width height : Int) :
    (chart_draw_grid config width height).all (fun op => !op.beyond_grid) = true := by
  simp [chart_draw_grid, List.range_succ, DrawOp.beyond_grid]

theorem chart_draw_grid_ops (config : ChartConfig) (width height : Int) :
    ∀ op ∈ chart_draw_grid config width height, op.beyond_grid = false := by
  intro op hop
  have h := List.all_eq_true.mp (chart_draw_grid_all config width height) op hop
  simpa using h

theorem visible_count_nonneg (l : List ChartSeries) : 0 ≤ visible_count l := by
  induction l with
  | nil => exact le_refl _
  | cons s rest ih =>
    unfold visible_count
    split <;> linarith

theorem visible_count_eq_zero (l : List ChartSeries) (h : ∀ s ∈ l, s.visible = false) :
    visible_count l = 0 := by
  induction l with
  | nil => rfl
  | cons s rest ih =>
    unfold visible_count
    rw [h s (List.mem_cons_self _ _), ih (fun x hx => h x (List.mem_cons_of_mem _ hx))]
    rfl

theorem visible_count_pos (l : List ChartSeries) (h : ∃ s ∈ l, s.visible = true) :
    0 < visible_count l := by
  induction l with
  | nil =>
    obtain ⟨s, hs, _⟩ := h
    cases hs
  | cons s rest ih =>
    unfold visible_count
    have hn := visible_count_nonneg rest
    obtain ⟨x, hx, hv⟩ := h
    rcases List.mem_cons.mp hx with hx | hx
    · subst hx
      rw [hv]
      simp only [if_true]
      linarith
    · have := ih ⟨x, hx, hv⟩
      split <;> linarith

theorem chart_draw_cb_empty_data (config : ChartConfig) (width height : Int)
    (h : ∀ s ∈ config.series, s.data = []) :
    chart_draw_cb config width height =
      some ([DrawOp.set_source config.bg_color, DrawOp.paint] ++
        chart_draw_grid config width height ++ chart_draw_legend config width height) := by
  have hs : chart_draw_series config width height = some [] :=
    draw_series_list_empty_data _ _ config.series h
  unfold chart_draw_cb
  rw [hs]
  simp

/-! ## Lemmas on the data value under a pixel -/

theorem chart_scroll_pan_value (config : ChartConfig) (up : Bool) (event_x : Rat) (width : Int)
    (hzoom : config.zoom_level ≠ 0) (hw : (width : Rat) ≠ 0)
    (hrange : config.max_x - config.min_x ≠ 0)
    (hchange : clamped_zoom config up ≠ config.zoom_level) :
    (chart_scroll_cb config up event_x width).pan_offset =
      some (max 0 (min
        ((config.min_x + event_x / (width : Rat) *
            ((config.max_x - config.min_x) / config.zoom_level) - config.min_x) *
          (1 - (config.max_x - config.min_x) / clamped_zoom config up /
            ((config.max_x - config.min_x) / config.zoom_level)))
        ((config.max_x - config.min_x) * (1 - 1 / clamped_zoom config up)))) := by
  have hnz : clamped_zoom config up ≠ 0 := by
    have := (clamped_zoom_bounds config up).1
    intro h0
    rw [h0] at this
    linarith
  have hvr : (config.max_x - config.min_x) / config.zoom_level ≠ 0 :=
    div_ne_zero hrange hzoom
  have h1 : ∀ a : Rat, checked_div a config.zoom_level = some (a / config.zoom_level) :=
    fun a => Arith.checked_div_of_ne a _ hzoom
  have h2 : ∀ a : Rat, checked_div a (width : Rat) = some (a / (width : Rat)) :=
    fun a => Arith.checked_div_of_ne a _ hw
  have h3 : ∀ a : Rat, checked_div a (clamped_zoom config up) =
      some (a / clamped_zoom config up) :=
    fun a => Arith.checked_div_of_ne a _ hnz
  have h4 : ∀ a : Rat, checked_div a ((config.max_x - config.min_x) / config.zoom_level) =
      some (a / ((config.max_x - config.min_x) / config.zoom_level)) :=
    fun a => Arith.checked_div_of_ne a _ hvr
  rw [chart_scroll_cb_eq]
  simp only [if_pos hchange, h1, h2, h3, h4, Option.bind, clamp_pan_some]

theorem unclamped_pan_eq (m q r z n : Rat) (hr : r ≠ 0) (hz : z ≠ 0) (hn : n ≠ 0) :
    (m + q * (r / z) - m) * (1 - r / n / (r / z)) = q * (r / z - r / n) := by
  field_simp
  ring

theorem clamped_zoom_up_ge (config : ChartConfig) (hz2 : config.zoom_level ≤ 20)
    (hz1 : 1 ≤ config.zoom_level) :
    config.zoom_level ≤ clamped_zoom config true := by
  unfold clamped_zoom
  simp only [if_true]
  split_ifs <;> linarith

theorem clamped_zoom_down_le (config : ChartConfig) (hz1 : 1 ≤ config.zoom_level)
    (hz2 : config.zoom_level ≤ 20) :
    clamped_zoom config false ≤ config.zoom_level := by
  unfold clamped_zoom
  simp only [Bool.false_eq_true, if_false]
  split_ifs <;> linarith

theorem chart_scroll_x_bounds (config : ChartConfig) (up : Bool) (x : Rat) (w : Int) :
    (chart_scroll_cb config up x w).min_x = config.min_x ∧
    (chart_scroll_cb config up x w).max_x = config.max_x := by
  rw [chart_scroll_cb_eq]
  split <;> exact ⟨rfl, rfl⟩

theorem data_at_pixel_scroll (config : ChartConfig) (up : Bool) (x : Rat) (w : Int) (p : Rat) :
    data_at_pixel (chart_scroll_cb config up x w) w p =
      (chart_scroll_cb config up x w).pan_offset.map fun pan =>
        config.min_x + pan +
          p / (w : Rat) * ((config.max_x - config.min_x) / clamped_zoom config up) := by
  unfold data_at_pixel
  rw [(chart_scroll_x_bounds config up x w).1, (chart_scroll_x_bounds config up x w).2,
    chart_scroll_zoom_level]

theorem zoom_in_pan (q r z n : Rat) (hq0 : 0 ≤ q) (hq1 : q ≤ 1) (hr : 0 < r) (hz : 1 ≤ z)
    (hzn : z ≤ n) :
    max 0 (min (q * (r / z - r / n)) (r * (1 - 1 / n))) = q * (r / z - r / n) := by
  have hzpos : (0 : Rat) < z := by linarith
  have hnpos : (0 : Rat) < n := by linarith
  have h1 : r / n ≤ r / z := div_le_div_of_nonneg_left (le_of_lt hr) hzpos hzn
  have h2 : r / z ≤ r := div_le_self (le_of_lt hr) hz
  have h3 : 0 ≤ q * (r / z - r / n) := mul_nonneg hq0 (by linarith)
  have h4 : q * (r / z - r / n) ≤ r / z - r / n := by
    have := mul_le_mul_of_nonneg_right hq1 (show (0 : Rat) ≤ r / z - r / n by linarith)
    linarith
  have h5 : r * (1 - 1 / n) = r - r / n := by
    field_simp
    ring
  rw [h5, min_eq_left (by linarith), max_eq_right h3]

theorem zoom_out_pan (q r z n : Rat) (hq0 : 0 ≤ q) (hr : 0 < r) (hn : 1 ≤ n) (hnz : n ≤ z) :
    max 0 (min (q * (r / z - r / n)) (r * (1 - 1 / n))) = 0 := by
  have hnpos : (0 : Rat) < n := by linarith
  have h1 : r / z ≤ r / n := div_le_div_of_nonneg_left (le_of_lt hr) hnpos hnz
  have h3 : q * (r / z - r / n) ≤ 0 := mul_nonpos_of_nonneg_of_nonpos hq0 (by linarith)
  exact max_eq_left (le_trans (min_le_left _ _) h3)

theorem scroll_eval (config : ChartConfig) (up : Bool) (x : Rat) (w : Int) (n : Rat)
    (hn : clamped_zoom config up = n) (hchange : n ≠ config.zoom_level)
    (hzoom : config.zoom_level ≠ 0) (hw : (w : Rat) ≠ 0)
    (hrange : config.max_x - config.min_x ≠ 0) :
    chart_scroll_cb config up x w =
      { config with
        zoom_level := n
        pan_offset := some (max 0 (min
          (x / (w : Rat) * ((config.max_x - config.min_x) / config.zoom_level -
            (config.max_x - config.min_x) / n))
          ((config.max_x - config.min_x) * (1 - 1 / n)))) } := by
  have hn0 : n ≠ 0 := by
    have := (clamped_zoom_bounds config up).1
    rw [hn] at this
    intro h0
    rw [h0] at this
    linarith
  have hc : clamped_zoom config up ≠ config.zoom_level := by rw [hn]; exact hchange
  have hp := chart_scroll_pan_value config up x w hzoom hw hrange hc
  rw [hn, unclamped_pan_eq _ _ _ _ _ hrange hzoom hn0] at hp
  rw [chart_scroll_cb_eq, if_pos hc] at hp ⊢
  dsimp only at hp
  rw [hp, hn]

theorem zoomed_left_chart_eq :
    zoomed_left_chart = { ranged_chart with zoom_level := 11 / 10, pan_offset := some 0 } := by
  have hn : clamped_zoom ranged_chart true = 11 / 10 := by
    norm_num [clamped_zoom, ranged_chart, chart_set_time_range, chart_config_new]
  unfold zoomed_left_chart
  rw [scroll_eval ranged_chart true 0 600 (11 / 10) hn
    (by norm_num [ranged_chart, chart_set_time_range, chart_config_new])
    (by norm_num [ranged_chart, chart_set_time_range, chart_config_new])
    (by norm_num)
    (by norm_num [ranged_chart, chart_set_time_range, chart_config_new])]
  norm_num [ranged_chart, chart_set_time_range, chart_config_new]

theorem zoomed_right_chart_eq :
    zoomed_right_chart =
      { ranged_chart with zoom_level := 11 / 10, pan_offset := some (1000 / 11) } := by
  have hn : clamped_zoom ranged_chart true = 11 / 10 := by
    norm_num [clamped_zoom, ranged_chart, chart_set_time_range, chart_config_new]
  unfold zoomed_right_chart
  rw [scroll_eval ranged_chart true 600 600 (11 / 10) hn
    (by norm_num [ranged_chart, chart_set_time_range, chart_config_new])
    (by norm_num [ranged_chart, chart_set_time_range, chart_config_new])
    (by norm_num)
    (by norm_num [ranged_chart, chart_set_time_range, chart_config_new])]
  norm_num [ranged_chart, chart_set_time_range, chart_config_new]

theorem chart_scroll_pan_degenerate (config : ChartConfig) (up : Bool) (x : Rat) (w : Int)
    (h : config.max_x = config.min_x)
    (hc : clamped_zoom config up ≠ config.zoom_level) :
    (chart_scroll_cb config up x w).pan_offset = none := by
  rw [chart_scroll_cb_eq, if_pos hc]
  dsimp only
  have hpan : ((checked_div x (w : Rat)).bind fun q =>
      (checked_div (config.max_x - config.min_x) config.zoom_level).bind fun vr =>
      some (config.min_x + q * vr)).bind (fun dx =>
      (checked_div (config.max_x - config.min_x) (clamped_zoom config up)).bind fun nvr =>
      (checked_div (config.max_x - config.min_x) config.zoom_level).bind fun vr =>
      (checked_div nvr vr).bind fun ratio => some ((dx - config.min_x) * (1 - ratio))) =
      none := by
    rw [h, sub_self]
    unfold checked_div
    by_cases h1 : (w : Rat) = 0 <;> by_cases h2 : config.zoom_level = 0 <;>
      by_cases h3 : clamped_zoom config up = 0 <;> simp [h1, h2, h3]
  rw [hpan]
  exact clamp_pan_none _

theorem dragging_zoomed_state_eq :
    dragging_zoomed_state =
      { config := { ranged_chart with zoom_level := 11 / 10, pan_offset := some 0 }
        last_x := 100 } := by
  have h : dragging_zoomed_state =
      chart_motion_notify_cb { config := zoomed_left_chart, last_x := 0 } true 100 600 := rfl
  rw [h, zoomed_left_chart_eq]
  simp [chart_motion_notify_cb]

theorem scroll_from_zero_pan (config : ChartConfig) (width : Int) (p : Rat)
    (hx : config.min_x < config.max_x) (hz1 : 1 ≤ config.zoom_level)
    (hz2 : config.zoom_level ≤ 20) (hw : 0 < width) (hp0 : 0 ≤ p) (hp1 : p ≤ (width : Rat))
    (hpan : config.pan_offset = some 0) :
    data_at_pixel config width p =
      some (config.min_x +
        p / (width : Rat) * ((config.max_x - config.min_x) / config.zoom_level)) ∧
    data_at_pixel (chart_scroll_cb config true p width) width p =
      data_at_pixel config width p ∧
    (chart_scroll_cb config false p width).pan_offset = some 0 ∧
    data_at_pixel (chart_scroll_cb config false p width) width p =
      some (config.min_x +
        p / (width : Rat) *
          ((config.max_x - config.min_x) /
            (chart_scroll_cb config false p width).zoom_level)) := by
  have hz : config.zoom_level ≠ 0 := by
    intro h0
    rw [h0] at hz1
    linarith
  have hwpos : (0 : Rat) < (width : Rat) := by exact_mod_cast hw
  have hwq : (width : Rat) ≠ 0 := ne_of_gt hwpos
  have hr : 0 < config.max_x - config.min_x := sub_pos.mpr hx
  have hq0 : 0 ≤ p / (width : Rat) := div_nonneg hp0 (le_of_lt hwpos)
  have hq1 : p / (width : Rat) ≤ 1 := (div_le_one hwpos).mpr hp1
  have hbefore : data_at_pixel config width p =
      some (config.min_x +
        p / (width : Rat) * ((config.max_x - config.min_x) / config.zoom_level)) := by
    unfold data_at_pixel
    rw [hpan]
    simp
  have hval : ∀ up : Bool, clamped_zoom config up ≠ config.zoom_level →
      (chart_scroll_cb config up p width).pan_offset =
        some (max 0 (min
          (p / (width : Rat) * ((config.max_x - config.min_x) / config.zoom_level -
            (config.max_x - config.min_x) / clamped_zoom config up))
          ((config.max_x - config.min_x) * (1 - 1 / clamped_zoom config up)))) := by
    intro up hc
    have hn0 : clamped_zoom config up ≠ 0 := by
      have := (clamped_zoom_bounds config up).1
      intro h0
      rw [h0] at this
      linarith
    rw [chart_scroll_pan_value config up p width hz hwq (ne_of_gt hr) hc,
      unclamped_pan_eq _ _ _ _ _ (ne_of_gt hr) hz hn0]
  refine ⟨hbefore, ?_, ?_, ?_⟩
  · by_cases hc : clamped_zoom config true = config.zoom_level
    · rw [chart_scroll_cb_eq, if_neg (not_not.mpr hc)]
    · rw [data_at_pixel_scroll, hval true hc,
        zoom_in_pan _ _ _ _ hq0 hq1 hr hz1 (clamped_zoom_up_ge config hz2 hz1), hbefore]
      simp only [Option.map_some']
      congr 1
      ring
  · by_cases hc : clamped_zoom config false = config.zoom_level
    · rw [chart_scroll_cb_eq, if_neg (not_not.mpr hc)]
      exact hpan
    · rw [hval false hc, zoom_out_pan _ _ _ _ hq0 hr (clamped_zoom_bounds config false).1
        (clamped_zoom_down_le config hz1 hz2)]
  · have hp2 : (chart_scroll_cb config false p width).pan_offset = some 0 := by
      by_cases hc : clamped_zoom config false = config.zoom_level
      · rw [chart_scroll_cb_eq, if_neg (not_not.mpr hc)]
        exact hpan
      · rw [hval false hc, zoom_out_pan _ _ _ _ hq0 hr (clamped_zoom_bounds config false).1
          (clamped_zoom_down_le config hz1 hz2)]
    rw [data_at_pixel_scroll, hp2, chart_scroll_zoom_level]
    simp

end Chart

namespace Terminal

/-! ## Claims -/

/-- C1: for every capacity `N ≥ 1` and every sequence of `k` pushes on a freshly initialised
history, the size is `min k N`. -/
theorem history_size_min (mem : Nat → FeeHistoryPoint) (N : Int) (hN : 1 ≤ N)
    (ps : List FeeHistoryPoint) :
    (push_all (init_fee_history mem N) ps).size = min (ps.length : Int) N := by
  have h := (push_all_size ps (init_fee_history mem N) (by simp [init_fee_history]; omega)).1
  simpa [init_fee_history] using h

theorem history_size_min_witness :
    (1 : Int) ≤ 2 ∧
      (push_all (init_fee_history (fun _ => ⟨0, 0, 0, 0⟩) 2)
        [⟨12, 8, 5, 100⟩, ⟨13, 9, 6, 130⟩, ⟨14, 10, 7, 160⟩]).size = min ((3 : Nat) : Int) 2 :=
  ⟨by decide, history_size_min (fun _ => ⟨0, 0, 0, 0⟩) 2 (by decide)
    [⟨12, 8, 5, 100⟩, ⟨13, 9, 6, 130⟩, ⟨14, 10, 7, 160⟩]⟩

/-- C2: for every capacity `N ≥ 1` and every sequence `ps` of more than `N` pushes on a
freshly initialised history, reading the `N` slots from the cursor forward modulo `N` yields
exactly the last `N` pushed points, oldest first. -/
theorem history_read_recent (mem : Nat → FeeHistoryPoint) (N : Nat) (hN : 1 ≤ N)
    (ps : List FeeHistoryPoint) (hk : N < ps.length) :
    read_from_cursor (push_all (init_fee_history mem (N : Int)) ps) =
      (ps.drop (ps.length - N)).map some := by
  have hsplit : ps = ps.take N ++ ps.drop N := (List.take_append_drop N ps).symm
  have htake : (ps.take N).length = N := by simp; omega
  have h1 : PartInv (push_all (init_fee_history mem (N : Int)) (ps.take N)) N (ps.take N) := by
    have := push_all_partInv (ps.take N) _ N [] (init_partInv mem N) (by simp)
    simpa using this
  have h2 := partInv_full _ N _ h1 hN htake
  have h3 := push_all_fullInv (ps.drop N) _ N _ h2
  rw [← push_all_append, ← hsplit] at h3
  have h4 := read_from_cursor_fullInv _ N _ h3
  rw [h4]
  simp [List.length_drop]

theorem history_read_recent_witness :
    1 ≤ 2 ∧ 2 < ([⟨12, 8, 5, 100⟩, ⟨13, 9, 6, 130⟩, ⟨14, 10, 7, 160⟩] :
        List FeeHistoryPoint).length ∧
      read_from_cursor (push_all (init_fee_history (fun _ => ⟨0, 0, 0, 0⟩) ((2 : Nat) : Int))
        [⟨12, 8, 5, 100⟩, ⟨13, 9, 6, 130⟩, ⟨14, 10, 7, 160⟩]) =
      (([⟨12, 8, 5, 100⟩, ⟨13, 9, 6, 130⟩, ⟨14, 10, 7, 160⟩] : List FeeHistoryPoint).drop
        (([⟨12, 8, 5, 100⟩, ⟨13, 9, 6, 130⟩, ⟨14, 10, 7, 160⟩] :
          List FeeHistoryPoint).length - 2)).map some :=
  ⟨by decide, by decide, history_read_recent (fun _ => ⟨0, 0, 0, 0⟩) 2 (by decide)
    [⟨12, 8, 5, 100⟩, ⟨13, 9, 6, 130⟩, ⟨14, 10, 7, 160⟩] (by decide)⟩

/-- C3: the code at a wrapped history. After pushes `p1, p2, p3` on a history of capacity 2,
`export_history_to_csv` writes the header and `size = 2` data rows, and the rows are in slot
order: the newest point `p3` comes first and the older point `p2` last, while the
chronological read from the cursor yields `p2, p3`. -/
theorem export_wrapped_history_rows :
    export_history_to_csv true (push_all (init_fee_history (fun _ => ⟨0, 0, 0, 0⟩) 2)
        [⟨12, 8, 5, 100⟩, ⟨13, 9, 6, 130⟩, ⟨14, 10, 7, 160⟩]) =
      some [CsvLine.header "timestamp,fastest_fee,half_hour_fee,hour_fee",
        CsvLine.row 160 14 10 7, CsvLine.row 130 13 9 6] ∧
    read_from_cursor (push_all (init_fee_history (fun _ => ⟨0, 0, 0, 0⟩) 2)
        [⟨12, 8, 5, 100⟩, ⟨13, 9, 6, 130⟩, ⟨14, 10, 7, 160⟩]) =
      [some ⟨13, 9, 6, 130⟩, some ⟨14, 10, 7, 160⟩] := by
  decide

/-- C4, as stated, fails: a snapshot stamped 1000 and saved when the clock reads 1005 loads
back with timestamp 1005. -/
theorem cache_round_trip_timestamp_counterexample :
    (save_to_cache offline_env sample_snapshot empty_state).1 = 1 ∧
    ¬ ((load_from_cache old_snapshot (save_to_cache offline_env sample_snapshot empty_state).2).1
        = 1 ∧
      (load_from_cache old_snapshot
        (save_to_cache offline_env sample_snapshot empty_state).2).2.timestamp =
        sample_snapshot.timestamp) := by
  decide

/-- C4, amended: loading the file `save_to_cache s` has just written succeeds and yields the
seven fields `fastestFee`, `halfHourFee`, `hourFee`, `blocks`, `mempoolSizeMB`,
`btc_price_usd`, `btc_price_eur` of `s` (`blocks` being a C `int`); the loaded timestamp is
the clock reading made by `save_to_cache`. -/
theorem cache_round_trip (env : Env) (s d : FeeData) (st : State)
    (hsave : (save_to_cache env s st).1 = 1)
    (hmin : INT_MIN ≤ s.blocks) (hmax : s.blocks ≤ INT_MAX) :
    (load_from_cache d (save_to_cache env s st).2).1 = 1 ∧
    (load_from_cache d (save_to_cache env s st).2).2.fastestFee = s.fastestFee ∧
    (load_from_cache d (save_to_cache env s st).2).2.halfHourFee = s.halfHourFee ∧
    (load_from_cache d (save_to_cache env s st).2).2.hourFee = s.hourFee ∧
    (load_from_cache d (save_to_cache env s st).2).2.blocks = s.blocks ∧
    (load_from_cache d (save_to_cache env s st).2).2.mempoolSizeMB = s.mempoolSizeMB ∧
    (load_from_cache d (save_to_cache env s st).2).2.btc_price_usd = s.btc_price_usd ∧
    (load_from_cache d (save_to_cache env s st).2).2.btc_price_eur = s.btc_price_eur ∧
    (load_from_cache d (save_to_cache env s st).2).2.timestamp = env.clock st.ticks := by
  have hw : env.fopen_w = true := by
    cases h : env.fopen_w
    · simp [save_to_cache, h] at hsave
    · rfl
  have hc : (save_to_cache env s st).2.cache = CacheFile.parsed
      (cache_object s.fastestFee s.halfHourFee s.hourFee (s.blocks : Rat) s.mempoolSizeMB
        s.btc_price_usd s.btc_price_eur ((env.clock st.ticks : Int) : Rat)) := by
    simp only [save_to_cache, hw]
    rfl
  rw [load_cache_object _ _ _ _ _ _ _ _ d _ hc]
  exact ⟨rfl, rfl, rfl, rfl, valueint_intCast s.blocks hmin hmax, rfl, rfl, rfl,
    trunc_intCast (env.clock st.ticks)⟩

theorem cache_round_trip_witness :
    (load_from_cache old_snapshot (save_to_cache offline_env sample_snapshot empty_state).2).1
      = 1 ∧
    (load_from_cache old_snapshot
      (save_to_cache offline_env sample_snapshot empty_state).2).2.fastestFee = 12 ∧
    (load_from_cache old_snapshot
      (save_to_cache offline_env sample_snapshot empty_state).2).2.blocks = 800000 ∧
    (load_from_cache old_snapshot
      (save_to_cache offline_env sample_snapshot empty_state).2).2.timestamp = 1005 :=
  have h := cache_round_trip offline_env sample_snapshot old_snapshot empty_state
    (by decide) (by decide) (by decide)
  ⟨h.1, h.2.1, h.2.2.2.2.1, h.2.2.2.2.2.2.2.2⟩

/-- C5, as stated, fails: a cache file holding an object without any of the mandatory fields
is loaded with success. -/
theorem load_from_cache_missing_fields_counterexample :
    ¬ ((cJSON_GetObjectItem (cJSON.object []) "fastestFee").isNone = true →
      (load_from_cache old_snapshot empty_object_state).1 = 0) := by
  decide

/-- C5, amended: `load_from_cache` returns failure exactly when the cache file is missing
(or unreadable) or its content does not parse as JSON, and then leaves the snapshot
untouched; whenever the content parses it returns success, and each of the eight fields
(the fee triplet, the timestamp, `blocks`, `mempoolSizeMB` and the two prices) is taken
from the member when there is one and keeps its value otherwise; the history is left as it
was. -/
theorem load_from_cache_result (d : FeeData) (st : State) :
    ((load_from_cache d st).1 = 0 ↔
      (st.cache = CacheFile.missing ∨ st.cache = CacheFile.unparsable)) ∧
    ((load_from_cache d st).1 = 0 → (load_from_cache d st).2 = d) ∧
    (∀ root, st.cache = CacheFile.parsed root →
      (load_from_cache d st).1 = 1 ∧
      (load_from_cache d st).2.fastestFee =
        (match cJSON_GetObjectItem root "fastestFee" with
          | some item => valuedouble item
          | none => d.fastestFee) ∧
      (load_from_cache d st).2.halfHourFee =
        (match cJSON_GetObjectItem root "halfHourFee" with
          | some item => valuedouble item
          | none => d.halfHourFee) ∧
      (load_from_cache d st).2.hourFee =
        (match cJSON_GetObjectItem root "hourFee" with
          | some item => valuedouble item
          | none => d.hourFee) ∧
      (load_from_cache d st).2.timestamp =
        (match cJSON_GetObjectItem root "timestamp" with
          | some item => trunc (valuedouble item)
          | none => d.timestamp) ∧
      (load_from_cache d st).2.blocks =
        (match cJSON_GetObjectItem root "blocks" with
          | some item => valueint item
          | none => d.blocks) ∧
      (load_from_cache d st).2.mempoolSizeMB =
        (match cJSON_GetObjectItem root "mempoolSizeMB" with
          | some item => valuedouble item
          | none => d.mempoolSizeMB) ∧
      (load_from_cache d st).2.btc_price_usd =
        (match cJSON_GetObjectItem root "btc_price_usd" with
          | some item => valuedouble item
          | none => d.btc_price_usd) ∧
      (load_from_cache d st).2.btc_price_eur =
        (match cJSON_GetObjectItem root "btc_price_eur" with
          | some item => valuedouble item
          | none => d.btc_price_eur) ∧
      (load_from_cache d st).2.history = d.history) := by
  refine ⟨?_, ?_, fun root hc =>
    ⟨(load_fields d st root hc).1, (load_fields d st root hc).2.1,
      (load_fields d st root hc).2.2.1, (load_fields d st root hc).2.2.2.1,
      (load_fields d st root hc).2.2.2.2, (load_fields_rest d st root hc).1,
      (load_fields_rest d st root hc).2.1, (load_fields_rest d st root hc).2.2.1,
      (load_fields_rest d st root hc).2.2.2, load_from_cache_history d st⟩⟩
  · cases hc : st.cache with
    | missing => simp [load_from_cache, hc]
    | unparsable => simp [load_from_cache, hc]
    | parsed root => simp [(load_fields d st root hc).1]
  · cases hc : st.cache with
    | missing => simp [load_from_cache, hc]
    | unparsable => simp [load_from_cache, hc]
    | parsed root => simp [(load_fields d st root hc).1]

theorem load_from_cache_result_witness :
    (load_from_cache old_snapshot empty_object_state).1 = 1 ∧
    (load_from_cache old_snapshot empty_object_state).2.fastestFee = old_snapshot.fastestFee ∧
    (load_from_cache old_snapshot empty_object_state).2.timestamp = old_snapshot.timestamp ∧
    (load_from_cache old_snapshot empty_object_state).2.blocks = old_snapshot.blocks ∧
    (load_from_cache old_snapshot empty_object_state).2.btc_price_eur =
      old_snapshot.btc_price_eur ∧
    (load_from_cache old_snapshot blocks_only_state).1 = 1 ∧
    (load_from_cache old_snapshot blocks_only_state).2.blocks = 800000 ∧
    (load_from_cache old_snapshot blocks_only_state).2.mempoolSizeMB = 3 ∧
    (load_from_cache old_snapshot blocks_only_state).2.btc_price_usd =
      old_snapshot.btc_price_usd ∧
    (load_from_cache old_snapshot blocks_only_state).2.fastestFee = old_snapshot.fastestFee :=
  have h := (load_from_cache_result old_snapshot empty_object_state).2.2 (cJSON.object []) rfl
  have g := (load_from_cache_result old_snapshot blocks_only_state).2.2
    (cJSON.object [("blocks", cJSON.number 800000), ("mempoolSizeMB", cJSON.number 3)]) rfl
  ⟨h.1, h.2.1, h.2.2.2.2.1, h.2.2.2.2.2.1, h.2.2.2.2.2.2.2.2.1,
    g.1, g.2.2.2.2.2.1.trans (by decide), g.2.2.2.2.2.2.1.trans (by decide),
    g.2.2.2.2.2.2.2.1, g.2.1⟩

/-- C6: cache-first. When the cache file loads with a timestamp `t` such that
`now - t < 300`, `fetch_fee_data` returns success with the snapshot `load_from_cache` has
read, hands no source to `fetch_from_source` and leaves `current_source` and the cache file
as they were; when the load fails or `now - t ≥ 300` it goes on to the providers: at
least one source is handed to `fetch_from_source`. -/
theorem cache_first (env : Env) (fd : FeeData) (st : State) :
    (∀ root item, st.cache = CacheFile.parsed root →
      cJSON_GetObjectItem root "timestamp" = some item →
      env.clock st.ticks - trunc (valuedouble item) < 300 →
      (fetch_fee_data env fd st).1 = 1 ∧
      (fetch_fee_data env fd st).2.1 = (load_from_cache fd st).2 ∧
      (fetch_fee_data env fd st).2.1.timestamp = trunc (valuedouble item) ∧
      (fetch_fee_data env fd st).2.2.tried = st.tried ∧
      (fetch_fee_data env fd st).2.2.current_source = st.current_source ∧
      (fetch_fee_data env fd st).2.2.cache = st.cache) ∧
    (((load_from_cache fd st).1 = 0 ∨
        300 ≤ env.clock st.ticks - (load_from_cache fd st).2.timestamp) →
      ∃ rest, (fetch_fee_data env fd st).2.2.tried =
        st.tried ++ (data_source_at ((st.current_source + 1).tmod MAX_SOURCES)).name :: rest) := by
  constructor
  · intro root item hc hts hfresh
    have hl := load_fields fd st root hc
    have hts2 : (load_from_cache fd st).2.timestamp = trunc (valuedouble item) := by
      rw [hl.2.2.2.2, hts]
    have h1 : (load_from_cache fd st).1 ≠ 0 := by rw [hl.1]; decide
    have h2 : env.clock st.ticks - (load_from_cache fd st).2.timestamp < 300 := by
      rw [hts2]; exact hfresh
    unfold fetch_fee_data
    simp only [h1, h2, ne_eq, not_false_eq_true, if_true]
    exact ⟨trivial, trivial, hts2, trivial, trivial, trivial⟩
  · exact first_source_tried env fd st

theorem cache_first_witness :
    (fetch_fee_data offline_env old_snapshot cached_state).1 = 1 ∧
    (fetch_fee_data offline_env old_snapshot cached_state).2.1.timestamp = 905 ∧
    (fetch_fee_data offline_env old_snapshot cached_state).2.2.tried = [] ∧
    (fetch_fee_data offline_env old_snapshot cached_state).2.2.current_source = 0 :=
  have h := (cache_first offline_env old_snapshot cached_state).1 _ (cJSON.number 905) rfl rfl
    (by decide)
  ⟨h.1, h.2.2.1, h.2.2.2.1, h.2.2.2.2.1⟩

/-- C7: round-robin fallback. Entered with `0 ≤ current_source < MAX_SOURCES` and no fresh
cache, `fetch_fee_data` hands the sources to `fetch_from_source` in circular order after
`current_source`. If the source of attempt `j` is the first that hands out a fee triplet,
the call returns success after exactly the attempts `0..j`, with `current_source` on that
source and the fee triplet of the snapshot equal to the one handed out. If no source hands
out a triplet the call returns failure after exactly `MAX_SOURCES` attempts, and these
attempts go to each source exactly once. -/
theorem round_robin_fallback (env : Env) (fd : FeeData) (st : State)
    (h0 : 0 ≤ st.current_source) (h1 : st.current_source < MAX_SOURCES)
    (hstale : (load_from_cache fd st).1 = 0 ∨
      300 ≤ env.clock st.ticks - (load_from_cache fd st).2.timestamp) :
    (∀ (j : Nat) (a b d : Rat), j < MAX_SOURCES.toNat →
      (∀ i, i < j →
        provider_fees env (data_source_at (tried_source st.current_source i)) = none) →
      provider_fees env (data_source_at (tried_source st.current_source j)) = some (a, b, d) →
      (fetch_fee_data env fd st).1 = 1 ∧
      (fetch_fee_data env fd st).2.2.current_source = tried_source st.current_source j ∧
      (fetch_fee_data env fd st).2.2.tried =
        st.tried ++ tried_names st.current_source (j + 1) ∧
      (fetch_fee_data env fd st).2.1.fastestFee = a ∧
      (fetch_fee_data env fd st).2.1.halfHourFee = b ∧
      (fetch_fee_data env fd st).2.1.hourFee = d) ∧
    ((∀ i, i < MAX_SOURCES.toNat →
        provider_fees env (data_source_at (tried_source st.current_source i)) = none) →
      (fetch_fee_data env fd st).1 = 0 ∧
      (fetch_fee_data env fd st).2.2.tried =
        st.tried ++ tried_names st.current_source MAX_SOURCES.toNat) ∧
    (tried_names st.current_source MAX_SOURCES.toNat).Perm
      (data_sources.map (fun s => s.name)) := by
  obtain ⟨fd1, k, heq⟩ := fetch_fee_data_stale env fd st hstale
  rw [heq]
  refine ⟨?_, ?_, ?_⟩
  · intro j a b d hj hprev hok
    exact fetch_loop_success env a b d MAX_SOURCES.toNat j fd1 { st with ticks := k } h0 hj
      hprev hok
  · intro hall
    exact fetch_loop_failure env MAX_SOURCES.toNat fd1 { st with ticks := k } h0 hall
  · have hc : st.current_source = 0 ∨ st.current_source = 1 ∨ st.current_source = 2 := by
      unfold MAX_SOURCES at h1
      omega
    rcases hc with hc | hc | hc <;> rw [hc] <;> decide

theorem round_robin_fallback_witness :
    (fetch_fee_data fallback_env old_snapshot empty_state).1 = 1 ∧
    (fetch_fee_data fallback_env old_snapshot empty_state).2.2.current_source = 2 ∧
    (fetch_fee_data fallback_env old_snapshot empty_state).2.2.tried =
      ["blockstream.info", "bitcoinfees.earn.com"] ∧
    (fetch_fee_data fallback_env old_snapshot empty_state).2.1.fastestFee = 12 ∧
    (fetch_fee_data fallback_env old_snapshot empty_state).2.1.halfHourFee = 8 ∧
    (fetch_fee_data fallback_env old_snapshot empty_state).2.1.hourFee = 5 :=
  (round_robin_fallback fallback_env old_snapshot empty_state (by decide) (by decide)
    (Or.inl (by decide))).1 1 12 8 5 (by decide)
    (fun i hi => by
      have hi0 : i = 0 := by omega
      subst hi0
      decide)
    (by decide)

/-- C8: the code at the failing input. Entered with `current_source = 0` and no cache file,
in a world where every request fails, `fetch_fee_data` hands the sources to
`fetch_from_source` in the order 1, 2, 0: the first provider attempted is `data_sources[1]`
(blockstream.info) and `data_sources[0]` (mempool.space), the source `current_source` named
on entry, comes last. -/
theorem first_attempt_skips_current_source :
    empty_state.current_source = 0 ∧
    (load_from_cache old_snapshot empty_state).1 = 0 ∧
    (fetch_fee_data offline_env old_snapshot empty_state).2.2.tried =
      ["blockstream.info", "bitcoinfees.earn.com", "mempool.space"] ∧
    (data_source_at empty_state.current_source).name = "mempool.space" := by
  decide

/-- C9, as stated, fails: in `mixed_reply` every fee field has a candidate key holding a
number (`2` for the fastest fee), yet `fetch_from_source` returns failure, because the
fallback key is read only when the primary key is absent. -/
theorem fallback_key_counterexample :
    ¬ ((fetch_from_source mixed_env (data_source_at 0) old_snapshot empty_state).1 = 1 ↔
      (candidate_number mixed_reply "fastestFee" "2" = true ∧
        candidate_number mixed_reply "halfHourFee" "6" = true ∧
        candidate_number mixed_reply "hourFee" "144" = true)) := by
  decide

/-- C9, amended: `fetch_from_source` returns success (`1`, else `0`) if and only if a handle
is made and the fee response is a JSON object in which, for each of the three fee fields,
the item read is a number, the item read being the member under the primary key when that
key is present (whatever its type) and the member under the fallback key (`2`, `6`, `144`)
only when the primary key is absent; the mempool and price responses never change the
result. -/
theorem fetch_from_source_success_iff (env : Env) (src : DataSource) (fd : FeeData)
    (st : State) :
    ((fetch_from_source env src fd st).1 = 1 ↔
      (env.curl_init = true ∧ ∃ json a b c, env.http src.fee_url = some json ∧
        selected_item json "fastestFee" "2" = some (cJSON.number a) ∧
        selected_item json "halfHourFee" "6" = some (cJSON.number b) ∧
        selected_item json "hourFee" "144" = some (cJSON.number c))) ∧
    ((fetch_from_source env src fd st).1 = 1 ∨ (fetch_from_source env src fd st).1 = 0) ∧
    (∀ (env2 : Env) (fd2 : FeeData) (st2 : State), env2.curl_init = env.curl_init →
      env2.http src.fee_url = env.http src.fee_url →
      (fetch_from_source env2 src fd2 st2).1 = (fetch_from_source env src fd st).1) := by
  refine ⟨?_, ?_, ?_⟩
  · rw [fetch_from_source_result]
    constructor
    · intro h
      cases hp : provider_fees env src with
      | none => rw [hp] at h; simp at h
      | some t =>
        obtain ⟨a, b, c⟩ := t
        obtain ⟨hi, json, hj, ha, hb, hc⟩ := (provider_fees_some_iff env src a b c).mp hp
        exact ⟨hi, json, a, b, c, hj, ha, hb, hc⟩
    · rintro ⟨hi, json, a, b, c, hj, ha, hb, hc⟩
      have hp := (provider_fees_some_iff env src a b c).mpr ⟨hi, json, hj, ha, hb, hc⟩
      rw [hp]
      rfl
  · rw [fetch_from_source_result]
    cases (provider_fees env src).isSome <;> simp
  · intro env2 fd2 st2 hi hh
    rw [fetch_from_source_result, fetch_from_source_result]
    have : provider_fees env2 src = provider_fees env src := by
      unfold provider_fees
      rw [hi, hh]
    rw [this]

theorem fetch_from_source_success_iff_witness :
    (fetch_from_source fallback_env (data_source_at 2) old_snapshot empty_state).1 = 1 :=
  (fetch_from_source_success_iff fallback_env (data_source_at 2) old_snapshot empty_state).1.mpr
    ⟨rfl, fee_reply, 12, 8, 5, rfl, rfl, rfl, rfl⟩

/-- C11: the code at two failing inputs. With no cache file and every request failing,
`fetch_fee_data` returns failure and the timestamp of the snapshot has moved from 1 to the
clock reading 1007 of the last attempt. With a cache file written at time 905, read when the
clock shows 2000 (stale), and every request failing, it returns failure and the snapshot
holds the cached fees 12, 8, 5 in place of 1, 1, 1. -/
theorem failed_fetch_changes_snapshot :
    (fetch_fee_data offline_env old_snapshot empty_state).1 = 0 ∧
    old_snapshot.timestamp = 1 ∧
    (fetch_fee_data offline_env old_snapshot empty_state).2.1.timestamp = 1007 ∧
    (fetch_fee_data late_offline_env old_snapshot cached_state).1 = 0 ∧
    (old_snapshot.fastestFee, old_snapshot.halfHourFee, old_snapshot.hourFee) = (1, 1, 1) ∧
    ((fetch_fee_data late_offline_env old_snapshot cached_state).2.1.fastestFee,
      (fetch_fee_data late_offline_env old_snapshot cached_state).2.1.halfHourFee,
      (fetch_fee_data late_offline_env old_snapshot cached_state).2.1.hourFee) = (12, 8, 5) := by
  decide

/-! ## C25, C26, C28: the main loop and the trend graph -/

/-- C25, the failing input: the cache is 325 s old, every request fails and the clock reads
1230 during one iteration of the main loop and 1231 during the next. The timer-driven fetch
of the first iteration fails and sets the counter shown to 5, and the second iteration, one
second later, fetches again: the counter is recomputed from `last_update`, which a failed
fetch leaves as it was. -/
theorem failed_fetch_retried_after_one_second :
    (main_iteration retry_env Key.no_key stale_main_state).fetches =
      [⟨FetchKind.timer, 1230, false, none⟩] ∧
    (main_iteration retry_env Key.no_key stale_main_state).seconds_until_update = 5 ∧
    (main_iteration retry_env Key.no_key stale_main_state).last_update = 1200 ∧
    (main_iteration retry_env Key.no_key
      (main_iteration retry_env Key.no_key stale_main_state)).fetches =
      [⟨FetchKind.timer, 1230, false, none⟩, ⟨FetchKind.timer, 1231, false, none⟩] ∧
    (1230 : Int) < 1231 ∧ (1231 : Int) < 1230 + 5 := by
  decide

/-- C26, as stated, fails: the program starts with a fresh cache (initial fetch served
from it), the key `h` clears `show_history`, and 30 s after the start the timer-driven
fetch succeeds; no point is added to the history, whose size is still 0 after two
successful fetches. -/
theorem hidden_history_counterexample :
    (main_run [(hidden_history_env, Key.toggle_history), (hidden_history_env, Key.no_key)]
      (main_start hidden_history_env (fun _ => ⟨0, 0, 0, 0⟩) cached_state)).fetches =
      [⟨FetchKind.initial, 0, true, none⟩, ⟨FetchKind.timer, 1030, true, none⟩] ∧
    (main_run [(hidden_history_env, Key.toggle_history), (hidden_history_env, Key.no_key)]
      (main_start hidden_history_env (fun _ => ⟨0, 0, 0, 0⟩) cached_state)
      ).current_fees.history.size = 0 ∧
    (main_run [(hidden_history_env, Key.toggle_history), (hidden_history_env, Key.no_key)]
      (main_start hidden_history_env (fun _ => ⟨0, 0, 0, 0⟩) cached_state)
      ).current_fees.history.capacity = 60 := by
  decide

/-- C26, amended: in the main loop every successful timer-driven update and every
successful manual refresh made while `show_history` is set is followed by exactly one
`add_to_history` carrying the fastest, half-hour and hour fees of the snapshot fetched, and
none is made while `show_history` is clear; so after any number of iterations the history
holds the points so recorded, pushed in order, and its size is `min(k, capacity)` with `k`
the number of recorded updates and `capacity = 60`. -/
theorem history_follows_recorded_updates (env0 : Env) (mem : Nat → FeeHistoryPoint)
    (st0 : State) (steps : List (Env × Key)) :
    (main_run steps (main_start env0 mem st0)).current_fees.history =
      push_all (init_fee_history mem 60)
        (recorded_points (main_run steps (main_start env0 mem st0)).fetches) ∧
    (main_run steps (main_start env0 mem st0)).current_fees.history.size =
      min ((recorded_points (main_run steps (main_start env0 mem st0)).fetches).length : Int)
        60 ∧
    (∀ (env : Env) (now : Int) (ms : MainState),
      (timer_update env now ms).fetches =
        ms.fetches ++
          (if 30 - (now - ms.last_update) ≤ 0 then
            [{ kind := FetchKind.timer
               now := now
               success := decide ((fetch_fee_data env ms.current_fees ms.globals).1 ≠ 0)
               recorded :=
                 if (fetch_fee_data env ms.current_fees ms.globals).1 ≠ 0 ∧
                     ms.show_history = true then
                   some
                     ⟨(fetch_fee_data env ms.current_fees ms.globals).2.1.fastestFee,
                      (fetch_fee_data env ms.current_fees ms.globals).2.1.halfHourFee,
                      (fetch_fee_data env ms.current_fees ms.globals).2.1.hourFee,
                      env.clock (fetch_fee_data env ms.current_fees ms.globals).2.2.ticks⟩
                 else none }]
          else [])) ∧
    (∀ (env : Env) (now : Int) (ms : MainState),
      (handle_key env now Key.refresh ms).fetches =
        ms.fetches ++
          [{ kind := FetchKind.manual
             now := now
             success := decide ((fetch_fee_data env ms.current_fees ms.globals).1 ≠ 0)
             recorded :=
               if (fetch_fee_data env ms.current_fees ms.globals).1 ≠ 0 ∧
                   ms.show_history = true then
                 some
                   ⟨(fetch_fee_data env ms.current_fees ms.globals).2.1.fastestFee,
                    (fetch_fee_data env ms.current_fees ms.globals).2.1.halfHourFee,
                    (fetch_fee_data env ms.current_fees ms.globals).2.1.hourFee,
                    env.clock (fetch_fee_data env ms.current_fees ms.globals).2.2.ticks⟩
               else none }]) := by
  have hinv := main_run_history steps (init_fee_history mem 60) (main_start env0 mem st0)
    (main_start_history env0 mem st0)
  refine ⟨hinv, ?_, timer_update_fetches, refresh_fetches⟩
  rw [hinv]
  have hsize := (push_all_size
    (recorded_points (main_run steps (main_start env0 mem st0)).fetches)
    (init_fee_history mem 60) (by simp [init_fee_history])).1
  rw [hsize]
  simp [init_fee_history]

/-- C28, the failing input: a history of capacity 4 after three pushes (slots 0, 1, 2
filled, the newest in slot 2, cursor 0). Step 0 computes `idx1 = 3`, which fails the range
check, and step 1 reads the slots 2 and 1, the newest and the second newest, where the
second and third newest (slots 1 and 0) belong. With the capacity 60 of `main` and three
pushes step 0 computes `idx1 = 59` and no step passes the range check. -/
theorem trend_graph_skips_newest_point :
    three_point_history.size = 3 ∧ three_point_history.current = 0 ∧
    three_point_history.points.getD 2 ⟨0, 0, 0, 0⟩ = ⟨14, 10, 7, 160⟩ ∧
    trend_idx1 three_point_history 0 = 3 ∧ trend_skipped three_point_history 0 = true ∧
    trend_idx1 three_point_history 1 = 2 ∧ trend_idx2 three_point_history 1 = 1 ∧
    trend_skipped three_point_history 1 = false ∧
    trend_steps three_point_history 10 60 = [⟨67, 2, 1⟩] ∧
    young_history.size = 3 ∧ trend_idx1 young_history 0 = 59 ∧
    trend_idx2 young_history 0 = 58 ∧ trend_steps young_history 10 60 = [] := by
  decide
end Terminal

namespace Gui

open Terminal (cJSON cJSON_IsNumber cJSON_GetObjectItemCaseSensitive ptr_valuedouble
  ptr_valueint)
open Arith (checked_div)

/-- C10, as stated, fails: the response `\x7b\x7d` has no numeric `fastestFee`, yet the call
returns `TRUE` and a row is added to the fee history database. -/
theorem gui_fetch_missing_fields_counterexample :
    ¬ (cJSON_IsNumber (cJSON_GetObjectItemCaseSensitive (cJSON.object []) "fastestFee") = false →
      (fetch_fee_data empty_reply_env sample_app).1 = false ∧
      (fetch_fee_data empty_reply_env sample_app).2 = sample_app) ∧
    (fetch_fee_data empty_reply_env sample_app).1 = true ∧
    sample_app.db = some [] ∧
    (fetch_fee_data empty_reply_env sample_app).2.db = some [⟨1000, 20, 15, 10, 5, 1⟩] := by
  decide

/-- C10, amended: the GTK variant's `fetch_fee_data` returns `FALSE` exactly when no handle
is made, the transfer fails or the body does not parse, and then changes neither the
snapshot nor the database. When the body parses it returns `TRUE` even if the response
lacks a numeric `fastestFee`, `halfHourFee` or `hourFee`: each of these fields takes the
value of its member when that member is a number and keeps its value otherwise, and
`save_fee_data_to_db` is called, which records a row of the resulting snapshot when the
database is open and the insert succeeds. -/
theorem gui_fetch_fee_data_result (env : Env) (app : AppData) :
    ((fetch_fee_data env app).1 = false ↔
      (env.curl_init = false ∨ env.http FEES_URL = none)) ∧
    ((fetch_fee_data env app).1 = false → (fetch_fee_data env app).2 = app) ∧
    (∀ json, env.curl_init = true → env.http FEES_URL = some json →
      (fetch_fee_data env app).1 = true ∧
      (fetch_fee_data env app).2.fastest_fee =
        (if cJSON_IsNumber (cJSON_GetObjectItemCaseSensitive json "fastestFee") then
          ptr_valuedouble (cJSON_GetObjectItemCaseSensitive json "fastestFee")
        else app.fastest_fee) ∧
      (fetch_fee_data env app).2.half_hour_fee =
        (if cJSON_IsNumber (cJSON_GetObjectItemCaseSensitive json "halfHourFee") then
          ptr_valuedouble (cJSON_GetObjectItemCaseSensitive json "halfHourFee")
        else app.half_hour_fee) ∧
      (fetch_fee_data env app).2.hour_fee =
        (if cJSON_IsNumber (cJSON_GetObjectItemCaseSensitive json "hourFee") then
          ptr_valuedouble (cJSON_GetObjectItemCaseSensitive json "hourFee")
        else app.hour_fee) ∧
      (fetch_fee_data env app).2.db =
        (match app.db with
          | some rows =>
            if env.prepare_ok && env.step_ok then
              some (rows ++ [⟨env.now, (fetch_fee_data env app).2.fastest_fee,
                (fetch_fee_data env app).2.half_hour_fee, (fetch_fee_data env app).2.hour_fee,
                (fetch_fee_data env app).2.economy_fee,
                (fetch_fee_data env app).2.minimum_fee⟩])
            else some rows
          | none => none)) := by
  refine ⟨?_, ?_, ?_⟩
  · unfold fetch_fee_data
    cases env.curl_init
    · simp
    · cases env.http FEES_URL <;> simp
  · unfold fetch_fee_data
    cases env.curl_init
    · simp
    · cases env.http FEES_URL <;> simp
  · intro json hinit hjson
    obtain ⟨h1, h2, h3, h4⟩ := updated_fees_fields json app
    rw [fetch_fee_data_parsed env app json hinit hjson, save_fee_data_to_db_result]
    refine ⟨rfl, h1, h2, h3, ?_⟩
    simp only [h4]

theorem gui_fetch_fee_data_result_witness :
    (fetch_fee_data empty_reply_env sample_app).1 = true ∧
    (fetch_fee_data empty_reply_env sample_app).2.fastest_fee = 20 ∧
    (fetch_fee_data empty_reply_env sample_app).2.half_hour_fee = 15 ∧
    (fetch_fee_data empty_reply_env sample_app).2.hour_fee = 10 :=
  have h := (gui_fetch_fee_data_result empty_reply_env sample_app).2.2 (cJSON.object []) rfl rfl
  ⟨h.1, h.2.1, h.2.2.1, h.2.2.2.1⟩

/-- C12: the average mempool fee. `fetch_mempool_data` never evaluates its division with a
zero divisor (it always yields a result); when the response parses, the size `s` and the
total fee `f` of the snapshot are those of the response (or the previous ones when the
member is not a number) and the average fee is `f * 100000000 / s` when `s > 0` and `0`
otherwise. -/
theorem mempool_avg_fee_formula (env : Env) (app : AppData) :
    ∃ ok app1, fetch_mempool_data env app = some (ok, app1) ∧
      (ok = false → app1 = app) ∧
      (ok = true →
        app1.mempool_avg_fee =
          if app1.mempool_size_bytes > 0 then
            app1.mempool_total_fee * 100000000 / (app1.mempool_size_bytes : Rat)
          else 0) ∧
      (∀ json, env.curl_init = true → env.http MEMPOOL_URL = some json →
        ok = true ∧
        app1.mempool_size_bytes =
          (if cJSON_IsNumber (cJSON_GetObjectItemCaseSensitive json "vsize") then
            ptr_valueint (cJSON_GetObjectItemCaseSensitive json "vsize")
          else app.mempool_size_bytes) ∧
        app1.mempool_total_fee =
          (if cJSON_IsNumber (cJSON_GetObjectItemCaseSensitive json "total_fee") then
            ptr_valuedouble (cJSON_GetObjectItemCaseSensitive json "total_fee")
          else app.mempool_total_fee)) := by
  cases hinit : env.curl_init
  · exact ⟨false, app, by simp [fetch_mempool_data, hinit]⟩
  · cases hjson : env.http MEMPOOL_URL with
    | none => exact ⟨false, app, by simp [fetch_mempool_data, hinit, hjson]⟩
    | some json =>
      obtain ⟨a1, h1, h2, h3, h4⟩ := mempool_avg_step (updated_mempool json app)
      obtain ⟨h5, h6⟩ := updated_mempool_fields json app
      rw [fetch_mempool_data_parsed env app json hinit hjson, h1]
      refine ⟨true, a1, rfl, by simp, fun _ => ?_, fun j _ hj => ?_⟩
      · rw [h4, h2, h3]
      · have hjj : j = json := by simpa using hj.symm
        subst hjj
        exact ⟨rfl, by rw [h2, h5], by rw [h3, h6]⟩

theorem mempool_avg_fee_formula_witness :
    (∃ app1, fetch_mempool_data mempool_reply_env sample_app = some (true, app1) ∧
      app1.mempool_size_bytes = 2000000 ∧ app1.mempool_total_fee = 3 ∧
      app1.mempool_avg_fee = 150) ∧
    (∃ app1, fetch_mempool_data empty_mempool_env sample_app = some (true, app1) ∧
      app1.mempool_size_bytes = 0 ∧ app1.mempool_avg_fee = 0) := by
  constructor
  · obtain ⟨ok, app1, h1, _, h3, h4⟩ := mempool_avg_fee_formula mempool_reply_env sample_app
    obtain ⟨hok, hs, hf⟩ := h4 _ rfl rfl
    have hs2 : app1.mempool_size_bytes = 2000000 := by rw [hs]; decide
    have hf2 : app1.mempool_total_fee = 3 := by rw [hf]; decide
    subst hok
    refine ⟨app1, h1, hs2, hf2, ?_⟩
    rw [h3 rfl, hs2, hf2]
    norm_num
  · obtain ⟨ok, app1, h1, _, h3, h4⟩ := mempool_avg_fee_formula empty_mempool_env sample_app
    obtain ⟨hok, hs, _⟩ := h4 _ rfl rfl
    have hs2 : app1.mempool_size_bytes = 0 := by rw [hs]; decide
    subst hok
    refine ⟨app1, h1, hs2, ?_⟩
    rw [h3 rfl, hs2]
    norm_num

/-! ## C23: the alerts -/

/-- C23: for every snapshot `check_alerts` hands to `show_notification` exactly one
notification for each of the three conditions that holds (`fastest_fee < 10`,
`|price_change_24h| > 2`, `mempool_tx_count > 50000`), in this order, and none for a
condition that does not hold, so their number is the number of conditions that hold; what
is emitted depends on these three fields of the snapshot only, and a second evaluation of
the same snapshot emits the same notifications again. -/
theorem check_alerts_one_per_condition (app : AppData) (shown : List Notification) :
    ∃ emitted : List Notification,
      emitted =
        (if app.fastest_fee < 10 then
          [⟨"¡Oferta de tarifas bajas!", AlertText.low_fee app.fastest_fee,
            "dialog-information"⟩]
        else []) ++
        (if |app.price_change_24h| > 2 then
          [⟨"Cambio significativo de precio",
            AlertText.price_change (if app.price_change_24h > 0 then "subido" else "bajado")
              |app.price_change_24h|,
            "stock_market-up"⟩]
        else []) ++
        (if app.mempool_tx_count > 50000 then
          [⟨"Congestión en la Mempool", AlertText.congestion app.mempool_tx_count,
            "dialog-warning"⟩]
        else []) ∧
      check_alerts app shown = shown ++ emitted ∧
      emitted.length = satisfied_conditions app ∧
      check_alerts app (check_alerts app shown) = shown ++ emitted ++ emitted ∧
      (∀ (other : AppData) (log : List Notification),
        other.fastest_fee = app.fastest_fee →
        other.price_change_24h = app.price_change_24h →
        other.mempool_tx_count = app.mempool_tx_count →
        check_alerts other log = log ++ emitted) := by
  have hgen : ∀ (a : AppData) (log : List Notification), check_alerts a log = log ++
      ((if a.fastest_fee < 10 then
          [⟨"¡Oferta de tarifas bajas!", AlertText.low_fee a.fastest_fee,
            "dialog-information"⟩]
        else []) ++
        (if |a.price_change_24h| > 2 then
          [⟨"Cambio significativo de precio",
            AlertText.price_change (if a.price_change_24h > 0 then "subido" else "bajado")
              |a.price_change_24h|,
            "stock_market-up"⟩]
        else []) ++
        (if a.mempool_tx_count > 50000 then
          [⟨"Congestión en la Mempool", AlertText.congestion a.mempool_tx_count,
            "dialog-warning"⟩]
        else [])) := by
    intro a log
    unfold check_alerts
    split_ifs <;> simp
  refine ⟨_, rfl, hgen app shown, ?_, ?_, ?_⟩
  · unfold satisfied_conditions
    split_ifs <;> rfl
  · rw [hgen app shown, hgen app]
  · intro other log h1 h2 h3
    rw [hgen other log, h1, h2, h3]

theorem check_alerts_one_per_condition_witness :
    check_alerts alerting_app [] =
      [⟨"¡Oferta de tarifas bajas!", AlertText.low_fee 5, "dialog-information"⟩,
        ⟨"Cambio significativo de precio", AlertText.price_change "bajado" 3,
          "stock_market-up"⟩,
        ⟨"Congestión en la Mempool", AlertText.congestion 60000, "dialog-warning"⟩] ∧
    check_alerts sample_app [] = [] ∧
    check_alerts { alerting_app with hour_fee := 1 } [] = check_alerts alerting_app [] := by
  obtain ⟨emitted, _, h2, _, _, h5⟩ := check_alerts_one_per_condition alerting_app []
  refine ⟨by decide, by decide, ?_⟩
  rw [h5 { alerting_app with hour_fee := 1 } [] rfl rfl rfl, h2]

/-! ## C24: admission control -/

/-- C24: in a state with `is_updating` set, `update_data` (as called from the timer) and
`on_refresh_clicked` start no worker thread and leave the whole state unchanged; in a state
with `is_updating` clear, `update_data` sets `is_updating` and starts exactly one worker
thread, the one `g_thread_new` creates (were no thread created, `is_updating` would be
cleared again and nothing started); and in every state reached from `activate` by timer
expiries, clicks, ends of worker threads and runs of `update_ui`, at most one worker thread
is fetching, exactly when `is_updating` is set. -/
theorem admission_control (thread_created : Bool) (s : AppState) :
    (s.app_data.is_updating = true →
      update_data thread_created s = (false, s) ∧ on_refresh_clicked thread_created s = s) ∧
    (s.app_data.is_updating = false →
      (update_data true s).2.app_data = { s.app_data with is_updating := true } ∧
      (update_data true s).2.workers = s.workers + 1 ∧
      (update_data true s).2.started = s.started + 1 ∧
      on_refresh_clicked true s = (update_data true s).2 ∧
      update_data false s = (false, s)) ∧
    (∀ (db : Option (List FeeRow)) (source_id : Nat) (events : List AppEvent),
      (app_run thread_created db source_id events).workers ≤ 1 ∧
      ((app_run thread_created db source_id events).workers = 1 ↔
        (app_run thread_created db source_id events).app_data.is_updating = true)) := by
  refine ⟨fun h => ⟨update_data_busy _ s h, on_refresh_clicked_busy _ s h⟩, fun h => ?_,
    fun db source_id events => ?_⟩
  · rw [on_refresh_clicked_idle true s h, update_data_started s h]
    exact ⟨rfl, rfl, rfl, rfl, update_data_no_thread s h⟩
  · have hinv := app_run_inv thread_created db source_id events
    cases hu : (app_run thread_created db source_id events).app_data.is_updating
    · rw [hu] at hinv
      simp [hinv]
    · rw [hu] at hinv
      simp [hinv]

theorem admission_control_witness :
    busy_state.app_data.is_updating = true ∧
    update_data true busy_state = (false, busy_state) ∧
    on_refresh_clicked true busy_state = busy_state ∧
    idle_state.app_data.is_updating = false ∧
    (update_data true idle_state).2.started = idle_state.started + 1 ∧
    (update_data true idle_state).2.app_data.is_updating = true :=
  have h1 := (admission_control true busy_state).1 rfl
  have h2 := (admission_control true idle_state).2.1 rfl
  ⟨rfl, h1.1, h1.2, rfl, h2.2.2.1, by rw [h2.1]⟩

/-! ## C27: the timeout of the periodic update -/

/-- C27, the code at the failing input: `update_data` returns `FALSE` on every path, also
when it has just started an update; so the first expiry of the timeout installed by
`schedule_next_update` removes the source and a later expiry does nothing. After
`activate` and the end of the first worker thread, two expiries of the interval start one
update, not two. -/
theorem update_data_removes_timeout (thread_created : Bool) (s : AppState) :
    (update_data thread_created s).1 = false ∧
    (app_step s (AppEvent.timer thread_created)).timer_armed = false ∧
    app_step (app_step s (AppEvent.timer thread_created)) (AppEvent.timer thread_created) =
      app_step s (AppEvent.timer thread_created) ∧
    (activate true (some []) 1).timer_armed = true ∧
    (app_run true (some []) 1
      [AppEvent.worker_done mempool_reply_env, AppEvent.timer true]).started = 2 ∧
    (app_run true (some []) 1
      [AppEvent.worker_done mempool_reply_env, AppEvent.timer true,
        AppEvent.worker_done mempool_reply_env, AppEvent.timer true]).started = 2 := by
  have hret : (update_data thread_created s).1 = false := by
    unfold update_data
    split
    · rfl
    · split <;> rfl
  have harm : (app_step s (AppEvent.timer thread_created)).timer_armed = false := by
    by_cases ht : s.timer_armed = true
    · simp only [app_step, if_pos ht]
      exact hret
    · simp only [app_step, if_neg ht]
      simpa using ht
  refine ⟨hret, harm, ?_, rfl, by decide, by decide⟩
  generalize app_step s (AppEvent.timer thread_created) = s2 at harm
  simp [app_step, harm]

/-! ## C30: the response buffers -/

/-- C30, the code at the failing input: a response delivered in the two chunks `ab` and
`cd`. Both callbacks return 2 for each chunk; the buffer of the GTK variant then holds
`abcd`, while the buffer of the terminal variant, which copies every chunk to the start of
the block, holds `cd`. -/
theorem terminal_buffer_holds_last_chunk :
    receive_chunks [['a', 'b'], ['c', 'd']] [] = ([2, 2], ['a', 'b', 'c', 'd']) ∧
    Terminal.receive_chunks [['a', 'b'], ['c', 'd']] none = ([2, 2], some ['c', 'd']) ∧
    Terminal.write_callback true ['c', 'd'] 1 2 (some ['a', 'b']) = (2, some ['c', 'd']) ∧
    write_callback ['c', 'd'] 1 2 ['a', 'b'] = (2, ['a', 'b', 'c', 'd']) := by
  decide

end Gui

namespace Chart

open Arith (checked_div)

/-- C13, as stated, fails: two calls of `chart_add_series` with the label `a` on a new chart
leave two series bearing that label. -/
theorem chart_add_series_twice_counterexample :
    ¬ (label_count
        (chart_add_series (chart_add_series chart_config_new "a" none true) "a" none true)
        "a" = 1) := by
  decide

/-- C13, amended: `chart_add_series` makes no lookup; every call appends one new, empty,
visible series bearing the label at the end of the list, so the number of series bearing the
label grows by one with each call and by two with two calls. -/
theorem chart_add_series_appends (config : ChartConfig) (label : String)
    (color color2 : Option GdkRGBA) (show_points show_points2 : Bool) :
    (chart_add_series config label color show_points).series =
      config.series ++
        [{ label := label
           color := match color with
             | some c => c
             | none => get_default_color (config.series.length : Int)
           data := []
           show_points := show_points
           visible := true }] ∧
    label_count (chart_add_series config label color show_points) label =
      label_count config label + 1 ∧
    label_count (chart_add_series (chart_add_series config label color show_points) label
      color2 show_points2) label = label_count config label + 2 := by
  refine ⟨rfl, ?_, ?_⟩
  · simp [label_count, chart_add_series]
  · simp [label_count, chart_add_series]

/-- C14: `chart_add_point` on a label borne by no series appends one series at the end, with
that label, the palette colour at index (previous number of series mod 7), shown points, and
exactly the point `(t, v)`; on a label already borne by a series it leaves the number of
series unchanged and appends `(t, v)` to the first series bearing the label. -/
theorem chart_add_point_series (chart : ChartConfig) (label : String) (t : Int) (v : Rat) :
    ((∀ s ∈ chart.series, s.label ≠ label) →
      (chart_add_point chart label t v).series =
        chart.series ++
          [{ label := label
             color := get_default_color (chart.series.length : Int)
             data := [⟨(t : Rat), v⟩]
             show_points := true
             visible := true }] ∧
      (chart_add_point chart label t v).series.length = chart.series.length + 1 ∧
      (chart.series.length < 2 ^ 32 →
        get_default_color (chart.series.length : Int) =
          DEFAULT_COLORS.getD (chart.series.length % 7) ⟨0, 0, 0, 0⟩)) ∧
    (∀ pre s post, chart.series = pre ++ s :: post → (∀ x ∈ pre, x.label ≠ label) →
      s.label = label →
      (chart_add_point chart label t v).series =
        pre ++ { s with data := s.data ++ [⟨(t : Rat), v⟩] } :: post ∧
      (chart_add_point chart label t v).series.length = chart.series.length) := by
  constructor
  · intro hno
    have hf := find_series_none label chart.series hno
    have hs : (chart_add_point chart label t v).series =
        chart.series ++
          [{ label := label
             color := get_default_color (chart.series.length : Int)
             data := [⟨(t : Rat), v⟩]
             show_points := true
             visible := true }] := by
      unfold chart_add_point
      rw [hf]
      simp only [update_bounds_series, chart_add_series_series, List.length_append,
        List.length_singleton, Nat.add_sub_cancel]
      exact append_point_at _ chart.series _ []
    refine ⟨hs, by rw [hs]; simp, fun hlen => ?_⟩
    exact get_default_color_nat _ (lt_trans hlen (by norm_num))
  · intro pre s post hsplit hpre hlabel
    have hf : find_series label chart.series = some pre.length := by
      rw [hsplit]; exact find_series_first label pre s post hpre hlabel
    have hs : (chart_add_point chart label t v).series =
        pre ++ { s with data := s.data ++ [⟨(t : Rat), v⟩] } :: post := by
      unfold chart_add_point
      rw [hf]
      simp only [update_bounds_series]
      rw [hsplit]
      exact append_point_at _ pre s post
    refine ⟨hs, ?_⟩
    rw [hs, hsplit]
    simp

theorem chart_add_point_series_witness :
    (chart_add_point two_series_chart "slow" 130 9).series =
      [ { label := "fast", color := ⟨1, 0, 0, 1⟩, data := [], show_points := true,
          visible := true },
        { label := "slow", color := ⟨0, 1, 0, 1⟩, data := [⟨100, 7⟩, ⟨130, 9⟩],
          show_points := false, visible := true } ] ∧
    (chart_add_point two_series_chart "hour" 130 9).series.length = 3 :=
  ⟨((chart_add_point_series two_series_chart "slow" 130 9).2
      [{ label := "fast", color := ⟨1, 0, 0, 1⟩, data := [], show_points := true,
         visible := true }]
      { label := "slow", color := ⟨0, 1, 0, 1⟩, data := [⟨100, 7⟩], show_points := false,
        visible := true }
      [] rfl (by decide) rfl).1,
   ((chart_add_point_series two_series_chart "hour" 130 9).1 (by decide)).2.1⟩

/-- C15, as stated, fails: on a new chart (y-range `[0, 1]`) the value `-10` moves `min_y`
to `-9.5`, which is above the value: the new range does not contain the point. -/
theorem bounds_negative_value_counterexample :
    chart_config_new.min_y ≤ chart_config_new.max_y ∧
    ¬ ((chart_add_point chart_config_new "a" 0 (-10)).min_y ≤ chart_config_new.min_y ∧
      chart_config_new.max_y ≤ (chart_add_point chart_config_new "a" 0 (-10)).max_y ∧
      (chart_add_point chart_config_new "a" 0 (-10)).min_y ≤ -10 ∧
      -10 ≤ (chart_add_point chart_config_new "a" 0 (-10)).max_y) := by
  refine ⟨by decide, ?_⟩
  rw [(chart_add_point_bounds _ _ _ _).1, (chart_add_point_bounds _ _ _ _).2,
    update_bounds_min_y, update_bounds_max_y]
  norm_num [widened_min_y, widened_max_y, chart_config_new]

/-- C15, amended: for every chart state with `min_y ≤ max_y` and every value `v ≥ 0`, after
`chart_add_point` the y-range has only widened and contains the new point, and a bound that
`v` lies outside of is moved to 5% beyond `v` (`0.95 v` below, `1.05 v` above). -/
theorem bounds_auto_expand (chart : ChartConfig) (label : String) (t : Int) (v : Rat)
    (hrange : chart.min_y ≤ chart.max_y) (hv : 0 ≤ v) :
    (chart_add_point chart label t v).min_y ≤ chart.min_y ∧
    chart.max_y ≤ (chart_add_point chart label t v).max_y ∧
    (chart_add_point chart label t v).min_y ≤ v ∧
    v ≤ (chart_add_point chart label t v).max_y ∧
    (v < chart.min_y → (chart_add_point chart label t v).min_y = v * (95 / 100)) ∧
    (chart.max_y < v → (chart_add_point chart label t v).max_y = v * (105 / 100)) := by
  rw [(chart_add_point_bounds _ _ _ _).1, (chart_add_point_bounds _ _ _ _).2,
    update_bounds_min_y, update_bounds_max_y]
  unfold widened_min_y widened_max_y
  split_ifs <;> refine ⟨?_, ?_, ?_, ?_, ?_, ?_⟩ <;> (try intro _) <;>
    first
      | rfl
      | linarith

theorem bounds_auto_expand_witness :
    (chart_add_point chart_config_new "a" 0 20).min_y ≤ chart_config_new.min_y ∧
    chart_config_new.max_y ≤ (chart_add_point chart_config_new "a" 0 20).max_y ∧
    (chart_add_point chart_config_new "a" 0 20).min_y ≤ 20 ∧
    20 ≤ (chart_add_point chart_config_new "a" 0 20).max_y ∧
    (chart_config_new.max_y < 20 →
      (chart_add_point chart_config_new "a" 0 20).max_y = 20 * (105 / 100)) :=
  have h := bounds_auto_expand chart_config_new "a" 0 20 (by decide) (by decide)
  ⟨h.1, h.2.1, h.2.2.1, h.2.2.2.1, h.2.2.2.2.2⟩

/-- C17: for a chart with `max_x ≠ min_x` and `max_y ≠ min_y`, every canvas width and
height and every point, each of the mapping computations of `chart_draw_series` (the one
of the line and point loops, which multiplies by the size before dividing, and the one of
the label loop, which divides first) yields `screen_x = (x - min_x) / (max_x - min_x) *
width` and `screen_y = height - (y - min_y) / (max_y - min_y) * height`; `min_x` maps to
0, `max_x` to `width`, `min_y` to `height` and `max_y` to 0; the drawing is produced, it is
the one made with these coordinates, and it does not depend on `zoom_level` or
`pan_offset`. -/
theorem coordinate_mapping (config : ChartConfig) (width height : Int)
    (hx : config.max_x ≠ config.min_x) (hy : config.max_y ≠ config.min_y) :
    (∀ point : ChartDataPoint,
      map_point_mul_div config width height point =
        some (screen_x config width point.x, screen_y config height point.y) ∧
      map_point_div_mul config width height point =
        some (screen_x config width point.x, screen_y config height point.y)) ∧
    screen_x config width config.min_x = 0 ∧
    screen_x config width config.max_x = (width : Rat) ∧
    screen_y config height config.min_y = (height : Rat) ∧
    screen_y config height config.max_y = 0 ∧
    chart_draw_series config width height =
      draw_series_list (plot config width height) (plot config width height) config.series ∧
    (chart_draw_series config width height).isSome = true ∧
    (∀ (zoom : Rat) (pan : Option Rat),
      chart_draw_series { config with zoom_level := zoom, pan_offset := pan } width height =
        chart_draw_series config width height) := by
  have hdx : config.max_x - config.min_x ≠ 0 := sub_ne_zero.mpr hx
  have hdy : config.max_y - config.min_y ≠ 0 := sub_ne_zero.mpr hy
  have h1 : map_point_mul_div config width height = plot config width height :=
    funext fun point => map_point_mul_div_eq_plot config width height point hx hy
  have h2 : map_point_div_mul config width height = plot config width height :=
    funext fun point => map_point_div_mul_eq_plot config width height point hx hy
  have hdraw : chart_draw_series config width height =
      draw_series_list (plot config width height) (plot config width height)
        config.series := by
    unfold chart_draw_series
    rw [h1, h2]
  refine ⟨fun point => ⟨?_, ?_⟩, ?_, ?_, ?_, ?_, hdraw, ?_, fun zoom pan => rfl⟩
  · exact map_point_mul_div_eq_plot config width height point hx hy
  · exact map_point_div_mul_eq_plot config width height point hx hy
  · simp [screen_x]
  · simp [screen_x, div_self hdx]
  · simp [screen_y]
  · simp [screen_y, div_self hdy]
  · rw [hdraw]
    exact draw_series_list_isSome (plot config width height) (plot config width height)
      (fun _ => rfl) (fun _ => rfl) config.series

theorem coordinate_mapping_witness :
    two_series_chart.max_x ≠ two_series_chart.min_x ∧
    two_series_chart.max_y ≠ two_series_chart.min_y ∧
    screen_x two_series_chart 600 two_series_chart.max_x = 600 ∧
    screen_y two_series_chart 300 two_series_chart.min_y = 300 ∧
    (chart_draw_series two_series_chart 600 300).isSome = true :=
  have hx : two_series_chart.max_x ≠ two_series_chart.min_x := by decide
  have hy : two_series_chart.max_y ≠ two_series_chart.min_y := by decide
  have h := coordinate_mapping two_series_chart 600 300 hx hy
  ⟨hx, hy, h.2.2.1, h.2.2.2.1, h.2.2.2.2.2.2.1⟩

/-! ## C18: the degenerate range -/

/-- C18, the counterexample: after `chart_add_point(c, "a", 5, 2.0)` on a new chart and
`chart_set_time_range(c, 7, 7)` the chart has `max_x = min_x` and one visible series with
one point, and `chart_draw_series` evaluates a division by `max_x - min_x = 0`. -/
theorem degenerate_range_counterexample :
    instant_chart.max_x = instant_chart.min_x ∧
    (∃ s ∈ instant_chart.series, s.visible = true ∧ s.data ≠ []) ∧
    map_point_mul_div instant_chart 600 300 ⟨5, 2⟩ = none ∧
    chart_draw_series instant_chart 600 300 = none := by
  have hseries : instant_chart.series =
      [{ label := "a"
         color := get_default_color 0
         data := [⟨5, 2⟩]
         show_points := true
         visible := true }] := by
    have h := chart_add_point_new chart_config_new "a" 5 2 (fun s hs => by cases hs)
    exact h
  have hx : instant_chart.max_x = instant_chart.min_x := rfl
  have hex : ∃ s ∈ instant_chart.series, s.visible = true ∧ s.data ≠ [] := by
    rw [hseries]
    exact ⟨_, List.mem_singleton.mpr rfl, rfl, by simp⟩
  exact ⟨hx, hex, map_point_mul_div_degenerate instant_chart 600 300 ⟨5, 2⟩ (Or.inl hx),
    (chart_draw_series_none_iff instant_chart 600 300).mpr ⟨Or.inl hx, hex⟩⟩

/-- C18, amended: `chart_draw_series` holds no guard for a degenerate range. For every
chart and canvas size, the drawing evaluates a division by `max_x - min_x` or
`max_y - min_y` equal to zero exactly when `max_x = min_x` or `max_y = min_y` and some
visible series holds a point; a chart with a degenerate range is drawn without such a
division only when no visible series holds a point. -/
theorem degenerate_range_divides (config : ChartConfig) (width height : Int) :
    (chart_draw_series config width height = none ↔
      (config.max_x = config.min_x ∨ config.max_y = config.min_y) ∧
        ∃ s ∈ config.series, s.visible = true ∧ s.data ≠ []) ∧
    (∀ point : ChartDataPoint,
      config.max_x = config.min_x ∨ config.max_y = config.min_y →
        map_point_mul_div config width height point = none) :=
  ⟨chart_draw_series_none_iff config width height,
    fun point h => map_point_mul_div_degenerate config width height point h⟩

/-! ## C19: the zoom level -/

/-- C19: in every state reached from `chart_config_new` by a sequence of calls of
`chart_add_series`, `chart_add_point`, `chart_add_data`, `chart_clear_series`,
`chart_set_time_range` and of scroll and motion events, `1 ≤ zoom_level ≤ 20`. -/
theorem zoom_level_bounds (events : List ChartEvent) :
    1 ≤ (run events).config.zoom_level ∧ (run events).config.zoom_level ≤ 20 := by
  have hstep : ∀ (st : ChartState) (e : ChartEvent),
      (1 ≤ st.config.zoom_level ∧ st.config.zoom_level ≤ 20) →
      (1 ≤ (step st e).config.zoom_level ∧ (step st e).config.zoom_level ≤ 20) := by
    intro st e h
    cases e with
    | add_series label color show_points => exact h
    | add_point series_name timestamp value =>
      simp only [step, chart_add_point_zoom_level]
      exact h
    | add_data series_index value now =>
      simp only [step, chart_add_data_zoom_level]
      exact h
    | clear_series series_index =>
      simp only [step, chart_clear_series_zoom_level]
      exact h
    | set_time_range start finish => exact h
    | scroll direction_up event_x widget_width =>
      simp only [step, chart_scroll_zoom_level]
      exact clamped_zoom_bounds st.config direction_up
    | motion button1 event_x width =>
      simp only [step, chart_motion_zoom_level]
      exact h
  have hfold : ∀ (es : List ChartEvent) (st : ChartState),
      (1 ≤ st.config.zoom_level ∧ st.config.zoom_level ≤ 20) →
      (1 ≤ (es.foldl step st).config.zoom_level ∧
        (es.foldl step st).config.zoom_level ≤ 20) := by
    intro es
    induction es with
    | nil => intro st h; exact h
    | cons e es ih => intro st h; exact ih (step st e) (hstep st e h)
  exact hfold events _ (by decide)

/-! ## C20: the pan offset -/

/-- C20, the counterexample: on a new chart with the time range `[5, 5]` (so
`min_x ≤ max_x` and `zoom_level = 1`) a scroll up at position 100 of a widget 600 wide
changes the zoom to 1.1, the quotient `new_visible_range / visible_range` is `0 / 0`, and
the pan offset it leaves is not a number: it lies in no interval. -/
theorem scroll_pan_counterexample :
    collapsed_chart.min_x ≤ collapsed_chart.max_x ∧
    collapsed_chart.zoom_level = 1 ∧
    (chart_scroll_cb collapsed_chart true 100 600).zoom_level = 11 / 10 ∧
    (chart_scroll_cb collapsed_chart true 100 600).pan_offset = none ∧
    ¬ ∃ q : Rat, (chart_scroll_cb collapsed_chart true 100 600).pan_offset = some q ∧ 0 ≤ q ∧
      q ≤ (collapsed_chart.max_x - collapsed_chart.min_x) *
        (1 - 1 / (chart_scroll_cb collapsed_chart true 100 600).zoom_level) := by
  have hz : clamped_zoom collapsed_chart true = 11 / 10 := by
    norm_num [clamped_zoom, collapsed_chart, chart_set_time_range, chart_config_new]
  have hpan : (chart_scroll_cb collapsed_chart true 100 600).pan_offset = none := by
    rw [chart_scroll_cb_eq, hz]
    norm_num [collapsed_chart, chart_set_time_range, chart_config_new, checked_div,
      clamp_pan_none]
  refine ⟨le_refl _, rfl, ?_, hpan, ?_⟩
  · rw [chart_scroll_zoom_level, hz]
  · rintro ⟨q, hq, _⟩
    rw [hpan] at hq
    cases hq

/-- C20, amended: for every chart state with `min_x ≤ max_x`, `zoom_level ≥ 1` and a
pan offset `p` that is a number, every widget width > 0 and every motion event with
button 1 held at position `x` whose recorded position `last_x` is > 0,
`chart_motion_notify_cb` sets `pan_offset` to `p + (x - last_x) * (visible_range / width)`
with `visible_range = (max_x - min_x) / zoom_level`, clamped into
`[0, (max_x - min_x) * (1 - 1 / zoom_level)]`, and records `x`; when `min_x < max_x`,
after every `chart_scroll_cb` that changes the zoom the pan offset lies in
`[0, (max_x - min_x) * (1 - 1 / new_zoom)]`; and when `min_x = max_x` every
`chart_scroll_cb` that changes the zoom leaves a pan offset that is not a number. -/
theorem pan_clamped (st : ChartState) (width : Int) (x p : Rat)
    (hrange : st.config.min_x ≤ st.config.max_x) (hzoom : 1 ≤ st.config.zoom_level)
    (hw : 0 < width) (hlast : 0 < st.last_x) (hp : st.config.pan_offset = some p) :
    (chart_motion_notify_cb st true x width).config.pan_offset =
      some (max 0 (min
        (p + (x - st.last_x) *
          ((st.config.max_x - st.config.min_x) / st.config.zoom_level / (width : Rat)))
        ((st.config.max_x - st.config.min_x) * (1 - 1 / st.config.zoom_level)))) ∧
    (∃ q : Rat, (chart_motion_notify_cb st true x width).config.pan_offset = some q ∧
      0 ≤ q ∧ q ≤ (st.config.max_x - st.config.min_x) * (1 - 1 / st.config.zoom_level)) ∧
    (chart_motion_notify_cb st true x width).last_x = x ∧
    (∀ (direction_up : Bool) (event_x : Rat),
      st.config.min_x < st.config.max_x →
      (chart_scroll_cb st.config direction_up event_x width).zoom_level ≠
        st.config.zoom_level →
      ∃ q : Rat,
        (chart_scroll_cb st.config direction_up event_x width).pan_offset = some q ∧
        0 ≤ q ∧
        q ≤ (st.config.max_x - st.config.min_x) *
          (1 - 1 / (chart_scroll_cb st.config direction_up event_x width).zoom_level)) ∧
    (∀ (direction_up : Bool) (event_x : Rat),
      st.config.min_x = st.config.max_x →
      (chart_scroll_cb st.config direction_up event_x width).zoom_level ≠
        st.config.zoom_level →
      (chart_scroll_cb st.config direction_up event_x width).pan_offset = none) := by
  have hz : st.config.zoom_level ≠ 0 := by
    intro h0
    rw [h0] at hzoom
    linarith
  have hwq : (width : Rat) ≠ 0 := by
    have : (0 : Rat) < (width : Rat) := by exact_mod_cast hw
    exact ne_of_gt this
  have hr : 0 ≤ st.config.max_x - st.config.min_x := sub_nonneg.mpr hrange
  have hmotion := chart_motion_pan st width x p hz hwq hlast hp
  refine ⟨hmotion, ⟨_, hmotion, clamp_bounds _ _ (max_pan_nonneg _ _ hr hzoom)⟩, rfl, ?_, ?_⟩
  · intro direction_up event_x hlt hchange
    rw [chart_scroll_zoom_level] at hchange ⊢
    have hne : st.config.max_x - st.config.min_x ≠ 0 := ne_of_gt (sub_pos.mpr hlt)
    obtain ⟨a, ha⟩ :=
      chart_scroll_pan st.config direction_up event_x width hz hwq hne hchange
    exact ⟨_, ha, clamp_bounds _ _
      (max_pan_nonneg _ _ hr (clamped_zoom_bounds st.config direction_up).1)⟩
  · intro direction_up event_x heq hchange
    rw [chart_scroll_zoom_level] at hchange
    exact chart_scroll_pan_degenerate st.config direction_up event_x width heq.symm hchange

theorem pan_clamped_witness :
    dragging_zoomed_state.config.min_x ≤ dragging_zoomed_state.config.max_x ∧
    dragging_zoomed_state.config.zoom_level = 11 / 10 ∧
    dragging_zoomed_state.last_x = 100 ∧
    dragging_zoomed_state.config.pan_offset = some 0 ∧
    (dragging_zoomed_state.config.max_x - dragging_zoomed_state.config.min_x) *
      (1 - 1 / dragging_zoomed_state.config.zoom_level) = 1000 / 11 ∧
    (chart_motion_notify_cb dragging_zoomed_state true 130 600).config.pan_offset =
      some (500 / 11) ∧
    (chart_motion_notify_cb dragging_zoomed_state true 130 600).last_x = 130 ∧
    (chart_motion_notify_cb dragging_zoomed_state true 1000 600).config.pan_offset =
      some (1000 / 11) ∧
    (chart_motion_notify_cb dragging_zoomed_state true 70 600).config.pan_offset =
      some 0 := by
  have hs := dragging_zoomed_state_eq
  have h1 : dragging_zoomed_state.config.min_x ≤ dragging_zoomed_state.config.max_x := by
    rw [hs]; norm_num [ranged_chart, chart_set_time_range, chart_config_new]
  have h2 : 1 ≤ dragging_zoomed_state.config.zoom_level := by
    rw [hs]; norm_num
  have h3 : 0 < dragging_zoomed_state.last_x := by
    rw [hs]; norm_num
  have h4 : dragging_zoomed_state.config.pan_offset = some 0 := by
    rw [hs]
  have ha := pan_clamped dragging_zoomed_state 600 130 0 h1 h2 (by decide) h3 h4
  have hb := pan_clamped dragging_zoomed_state 600 1000 0 h1 h2 (by decide) h3 h4
  have hc := pan_clamped dragging_zoomed_state 600 70 0 h1 h2 (by decide) h3 h4
  refine ⟨h1, ?_, ?_, h4, ?_, ?_, ha.2.2.1, ?_, ?_⟩
  · rw [hs]
  · rw [hs]
  · rw [hs]; norm_num [ranged_chart, chart_set_time_range, chart_config_new]
  · rw [ha.1, hs]; norm_num [ranged_chart, chart_set_time_range, chart_config_new]
  · rw [hb.1, hs]; norm_num [ranged_chart, chart_set_time_range, chart_config_new]
  · rw [hc.1, hs]; norm_num [ranged_chart, chart_set_time_range, chart_config_new]

/-! ## C29: the y-bounds of a reachable chart -/

/-- C29: in every chart state reached from `chart_config_new` by a sequence of calls of
`chart_add_point`, `chart_add_data` (with arbitrary values), `chart_add_series`,
`chart_clear_series` and `chart_set_time_range` (and of scroll and motion events),
`min_y ≤ 0` and `max_y ≥ 1`, hence `min_y < max_y`; on such a chart `chart_add_point` never
finds `min_y = max_y` after its widening step, so the perturbation branch is not taken and
the bounds it leaves are the widened ones; a value `y` with `0 ≤ y ≤ 1` lies in the
y-range of the chart. -/
theorem reachable_y_bounds (events : List ChartEvent) :
    (run events).config.min_y ≤ 0 ∧
    1 ≤ (run events).config.max_y ∧
    (run events).config.min_y < (run events).config.max_y ∧
    (∀ (name : String) (t : Int) (v : Rat),
      widened_min_y (run events).config v ≠ widened_max_y (run events).config v ∧
      (chart_add_point (run events).config name t v).min_y =
        widened_min_y (run events).config v ∧
      (chart_add_point (run events).config name t v).max_y =
        widened_max_y (run events).config v) ∧
    (∀ y : Rat, 0 ≤ y → y ≤ 1 →
      (run events).config.min_y ≤ y ∧ y ≤ (run events).config.max_y) := by
  have h := run_y_bounds events
  refine ⟨h.1, h.2, by linarith [h.1, h.2], fun name t v => ?_, fun y h0 h1 => ?_⟩
  · exact ⟨widened_bounds_ne _ v h, chart_add_point_bounds_inv _ name t v h⟩
  · exact ⟨by linarith [h.1], by linarith [h.2]⟩

/-! ## C22: drawing a chart without data -/

/-- C22, as stated, fails: a new chart with one series added by `chart_add_series` has no
data, and `chart_draw_cb` draws the legend panel (the rectangle at `(440, 10)` of size
`150 x 40` on a canvas 600 wide) and the label of the series. -/
theorem legend_without_data_counterexample :
    (∀ s ∈ empty_series_chart.series, s.data = []) ∧
    ∃ ops, chart_draw_cb empty_series_chart 600 300 = some ops ∧
      DrawOp.rectangle 440 10 150 40 ∈ ops ∧ DrawOp.show_layout "a" ∈ ops ∧
      ¬ ∀ op ∈ ops, op.beyond_grid = false := by
  have hdata : ∀ s ∈ empty_series_chart.series, s.data = [] := by decide
  have hrect :
      DrawOp.rectangle 440 10 150 40 ∈ chart_draw_legend empty_series_chart 600 300 := by
    decide
  have hlabel :
      DrawOp.show_layout "a" ∈ chart_draw_legend empty_series_chart 600 300 := by
    decide
  refine ⟨hdata, _, chart_draw_cb_empty_data empty_series_chart 600 300 hdata,
    List.mem_append_right _ hrect, List.mem_append_right _ hlabel, fun hall => ?_⟩
  have h := hall _ (List.mem_append_right _ hrect)
  exact absurd h (by decide)

/-- C22, amended: drawing a chart that has zero series, or whose series all have empty
data, never fails and emits the background, the grid (calls that set a colour or a line
width, paint, move, draw a line and stroke) and no series path or point marker, followed by
the legend: nothing when no series is visible (in particular with zero series), else the
panel of height `visible_count * 20 + 20` and one swatch and label per visible series. -/
theorem draw_without_data (config : ChartConfig) (width height : Int)
    (hdata : ∀ s ∈ config.series, s.data = []) :
    chart_draw_series config width height = some [] ∧
    chart_draw_cb config width height =
      some ([DrawOp.set_source config.bg_color, DrawOp.paint] ++
        chart_draw_grid config width height ++ chart_draw_legend config width height) ∧
    (∀ op ∈ chart_draw_grid config width height, op.beyond_grid = false) ∧
    ((∀ s ∈ config.series, s.visible = false) →
      chart_draw_legend config width height = [] ∧
      chart_draw_cb config width height =
        some ([DrawOp.set_source config.bg_color, DrawOp.paint] ++
          chart_draw_grid config width height)) ∧
    ((∃ s ∈ config.series, s.visible = true) →
      chart_draw_legend config width height =
        [DrawOp.set_source ⟨1 / 10, 1 / 10, 1 / 10, 8 / 10⟩,
          DrawOp.rectangle ((width - 150 - 10 : Int) : Rat) ((10 : Int) : Rat)
            ((150 : Int) : Rat) ((visible_count config.series * 20 + 2 * 10 : Int) : Rat),
          DrawOp.fill] ++
        legend_items config (width - 150 - 10) (10 + 10) config.series) := by
  have hcb := chart_draw_cb_empty_data config width height hdata
  refine ⟨draw_series_list_empty_data _ _ config.series hdata, hcb,
    chart_draw_grid_ops config width height, fun hvis => ?_, fun hvis => ?_⟩
  · have hleg : chart_draw_legend config width height = [] := by
      unfold chart_draw_legend
      simp only [visible_count_eq_zero config.series hvis, if_true, ite_self]
    rw [hcb, hleg, List.append_nil]
    exact ⟨rfl, rfl⟩
  · have hpos := visible_count_pos config.series hvis
    have hne : config.series.isEmpty = false := by
      obtain ⟨s, hs, _⟩ := hvis
      cases hl : config.series with
      | nil => rw [hl] at hs; cases hs
      | cons a l => rfl
    unfold chart_draw_legend
    rw [hne, if_neg (ne_of_gt hpos)]
    simp

theorem draw_without_data_witness :
    (∀ s ∈ chart_config_new.series, s.data = []) ∧
    chart_draw_series chart_config_new 600 300 = some [] ∧
    chart_draw_cb chart_config_new 600 300 =
      some ([DrawOp.set_source chart_config_new.bg_color, DrawOp.paint] ++
        chart_draw_grid chart_config_new 600 300) :=
  have hdata : ∀ s ∈ chart_config_new.series, s.data = [] := by decide
  have h := draw_without_data chart_config_new 600 300 hdata
  ⟨hdata, h.1, (h.2.2.2.1 (by decide)).2⟩

/-! ## C21: the data value under the pivot of a zoom -/

/-- C21, as stated, fails, on a widget 600 wide and a chart with the time range
`[0, 1000]`. After a scroll up at pixel 0 (zoom 1.1, pan 0) a scroll down at pixel 600 brings
the zoom back to 1, where the clamp leaves the pan at 0: the value under pixel 600 moves
from `10000/11` to `1000`. After a scroll up at pixel 600 (zoom 1.1, pan `1000/11`, the upper
end of its interval) a second scroll up at pixel 600 moves the value under pixel 600 from
`1000` to `10000/11`. Both differences are `1000/11`, while one pixel is worth at most
`1000/600`. -/
theorem pivot_zoom_counterexample :
    zoomed_left_chart.min_x < zoomed_left_chart.max_x ∧
    1 ≤ zoomed_left_chart.zoom_level ∧ zoomed_left_chart.zoom_level ≤ 20 ∧
    zoomed_left_chart.pan_offset = some 0 ∧
    data_at_pixel zoomed_left_chart 600 600 = some (10000 / 11) ∧
    data_at_pixel (chart_scroll_cb zoomed_left_chart false 600 600) 600 600 = some 1000 ∧
    zoomed_right_chart.pan_offset = some (1000 / 11) ∧
    zoomed_right_chart.zoom_level = 11 / 10 ∧
    (zoomed_right_chart.max_x - zoomed_right_chart.min_x) *
      (1 - 1 / zoomed_right_chart.zoom_level) = 1000 / 11 ∧
    data_at_pixel zoomed_right_chart 600 600 = some 1000 ∧
    data_at_pixel (chart_scroll_cb zoomed_right_chart true 600 600) 600 600 =
      some (10000 / 11) ∧
    ¬ (|(1000 : Rat) - 10000 / 11| < 1000 / 600) := by
  have hl := zoomed_left_chart_eq
  have hr := zoomed_right_chart_eq
  have hnl : clamped_zoom zoomed_left_chart false = 1 := by
    rw [hl]
    norm_num [clamped_zoom, ranged_chart, chart_set_time_range, chart_config_new]
  have hnr : clamped_zoom zoomed_right_chart true = 121 / 100 := by
    rw [hr]
    norm_num [clamped_zoom, ranged_chart, chart_set_time_range, chart_config_new]
  have h2l := scroll_eval zoomed_left_chart false 600 600 1 hnl
    (by rw [hl]; norm_num) (by rw [hl]; norm_num)
    (by norm_num)
    (by rw [hl]; norm_num [ranged_chart, chart_set_time_range, chart_config_new])
  have h2r := scroll_eval zoomed_right_chart true 600 600 (121 / 100) hnr
    (by rw [hr]; norm_num) (by rw [hr]; norm_num)
    (by norm_num)
    (by rw [hr]; norm_num [ranged_chart, chart_set_time_range, chart_config_new])
  refine ⟨?_, ?_, ?_, ?_, ?_, ?_, ?_, ?_, ?_, ?_, ?_, ?_⟩
  · rw [hl]; norm_num [ranged_chart, chart_set_time_range, chart_config_new]
  · rw [hl]; norm_num
  · rw [hl]; norm_num
  · rw [hl]
  · rw [hl]; norm_num [data_at_pixel, ranged_chart, chart_set_time_range, chart_config_new]
  · rw [h2l, hl]
    norm_num [data_at_pixel, ranged_chart, chart_set_time_range, chart_config_new]
  · rw [hr]
  · rw [hr]
  · rw [hr]; norm_num [ranged_chart, chart_set_time_range, chart_config_new]
  · rw [hr]; norm_num [data_at_pixel, ranged_chart, chart_set_time_range, chart_config_new]
  · rw [h2r, hr]
    norm_num [data_at_pixel, ranged_chart, chart_set_time_range, chart_config_new]
  · norm_num [abs_lt]

/-- C21, amended (in exact arithmetic): for every chart state with `min_x < max_x`,
`zoom_level` in `[1, 20]` and `pan_offset = 0`, every widget width > 0 and every pivot pixel
`p` in `[0, width]`, the data x-value under `p`
(`min_x + pan_offset + (p / width) * range / zoom_level`) computed after a scroll up at `p`
differs from the one computed before it by less than one pixel's worth of data range
(`visible_range / width`, for the visible range after the zoom as for the one before it);
after a scroll down at `p` the pan offset is 0 again (the clamp at 0). -/
theorem pivot_within_one_pixel (config : ChartConfig) (width : Int) (p : Rat)
    (hx : config.min_x < config.max_x) (hz1 : 1 ≤ config.zoom_level)
    (hz2 : config.zoom_level ≤ 20) (hw : 0 < width) (hp0 : 0 ≤ p) (hp1 : p ≤ (width : Rat))
    (hpan : config.pan_offset = some 0) :
    (∃ a b : Rat,
      data_at_pixel config width p = some a ∧
      data_at_pixel (chart_scroll_cb config true p width) width p = some b ∧
      |b - a| < (config.max_x - config.min_x) /
        (chart_scroll_cb config true p width).zoom_level / (width : Rat) ∧
      |b - a| < (config.max_x - config.min_x) / config.zoom_level / (width : Rat)) ∧
    (chart_scroll_cb config false p width).pan_offset = some 0 := by
  have h := scroll_from_zero_pan config width p hx hz1 hz2 hw hp0 hp1 hpan
  have hwpos : (0 : Rat) < (width : Rat) := by exact_mod_cast hw
  have hr : 0 < config.max_x - config.min_x := sub_pos.mpr hx
  have hzpos : (0 : Rat) < config.zoom_level := by linarith
  have hnpos : (0 : Rat) < (chart_scroll_cb config true p width).zoom_level := by
    rw [chart_scroll_zoom_level]
    linarith [(clamped_zoom_bounds config true).1]
  refine ⟨⟨_, _, h.1, h.2.1.trans h.1, ?_, ?_⟩, h.2.2.1⟩
  · rw [sub_self, abs_zero]
    exact div_pos (div_pos hr hnpos) hwpos
  · rw [sub_self, abs_zero]
    exact div_pos (div_pos hr hzpos) hwpos

theorem pivot_within_one_pixel_witness :
    zoomed_left_chart.zoom_level = 11 / 10 ∧
    zoomed_left_chart.pan_offset = some 0 ∧
    data_at_pixel zoomed_left_chart 600 300 = some (5000 / 11) ∧
    (chart_scroll_cb zoomed_left_chart true 300 600).zoom_level = 121 / 100 ∧
    (∃ b : Rat,
      data_at_pixel (chart_scroll_cb zoomed_left_chart true 300 600) 600 300 = some b ∧
      |b - 5000 / 11| < (zoomed_left_chart.max_x - zoomed_left_chart.min_x) /
        (chart_scroll_cb zoomed_left_chart true 300 600).zoom_level / 600) ∧
    (chart_scroll_cb zoomed_left_chart false 300 600).zoom_level = 1 ∧
    (chart_scroll_cb zoomed_left_chart false 300 600).pan_offset = some 0 := by
  have hs := zoomed_left_chart_eq
  have hpan : zoomed_left_chart.pan_offset = some 0 := by rw [hs]
  have hbefore : data_at_pixel zoomed_left_chart 600 300 = some (5000 / 11) := by
    rw [hs]
    norm_num [data_at_pixel, ranged_chart, chart_set_time_range, chart_config_new]
  have h := pivot_within_one_pixel zoomed_left_chart 600 300
    (by rw [hs]; norm_num [ranged_chart, chart_set_time_range, chart_config_new])
    (by rw [hs]; norm_num) (by rw [hs]; norm_num) (by norm_num) (by norm_num) (by norm_num)
    hpan
  obtain ⟨⟨a, b, ha, hb, hlt, _⟩, hdown⟩ := h
  have hab : a = 5000 / 11 := by
    rw [hbefore] at ha
    exact (Option.some.inj ha).symm
  rw [hab] at hlt
  refine ⟨by rw [hs], hpan, hbefore, ?_, ⟨b, by simpa using hb, by simpa using hlt⟩, ?_,
    hdown⟩
  · rw [chart_scroll_zoom_level, hs]
    norm_num [clamped_zoom, ranged_chart, chart_set_time_range, chart_config_new]
  · rw [chart_scroll_zoom_level, hs]
    norm_num [clamped_zoom, ranged_chart, chart_set_time_range, chart_config_new]

end Chart
